import Mathlib

/-!
# DarkRadiant render backend: `OpenGLShader`

A shallow embedding of `radiantcore/rendersystem/backend/OpenGLShader.cpp`
(the pass compiler, the visibility / realise lifecycle and the renderable
fan-out), together with the declarations of `include/irender.h` and
`include/ishaderlayer.h` it relies on.

Conventions of the embedding:

* C++ objects that are shared by pointer (`ShaderLayerPtr`,
  `OpenGLShaderPassPtr`) carry a numeric identity next to their data.
* `float`/`double` quantities that the code only stores or compares with zero
  (alpha test, colours, polygon offset) are rationals.
* The body of a member function becomes a function from the object before the
  call to the object after it; `assert` is compiled out (`NDEBUG`).
-/

namespace render

/-! ## `irender.h`: render state flags -/

abbrev RenderStateFlags := Nat

def RENDER_DEFAULT : RenderStateFlags := 0
def RENDER_LINESTIPPLE : RenderStateFlags := 1 <<< 0
def RENDER_POLYGONSTIPPLE : RenderStateFlags := 1 <<< 2
def RENDER_ALPHATEST : RenderStateFlags := 1 <<< 4
def RENDER_DEPTHTEST : RenderStateFlags := 1 <<< 5
def RENDER_DEPTHWRITE : RenderStateFlags := 1 <<< 6
def RENDER_MASKCOLOUR : RenderStateFlags := 1 <<< 7
def RENDER_CULLFACE : RenderStateFlags := 1 <<< 8
def RENDER_SCALED : RenderStateFlags := 1 <<< 9
def RENDER_SMOOTH : RenderStateFlags := 1 <<< 10
def RENDER_LIGHTING : RenderStateFlags := 1 <<< 11
def RENDER_BLEND : RenderStateFlags := 1 <<< 12
def RENDER_OFFSETLINE : RenderStateFlags := 1 <<< 13
def RENDER_FILL : RenderStateFlags := 1 <<< 14
def RENDER_VERTEX_COLOUR : RenderStateFlags := 1 <<< 15
def RENDER_POINT_COLOUR : RenderStateFlags := 1 <<< 16
def RENDER_TEXTURE_2D : RenderStateFlags := 1 <<< 17
def RENDER_TEXTURE_CUBEMAP : RenderStateFlags := 1 <<< 18
def RENDER_BUMP : RenderStateFlags := 1 <<< 19
def RENDER_PROGRAM : RenderStateFlags := 1 <<< 20
def RENDER_OVERRIDE : RenderStateFlags := 1 <<< 21

/-! ## OpenGL enumerants used by the shader compiler (values of `GL/gl.h`) -/

abbrev GLenum := Nat

def GL_ZERO : GLenum := 0
def GL_ONE : GLenum := 1
def GL_SRC_ALPHA : GLenum := 0x0302
def GL_LESS : GLenum := 0x0201
def GL_LEQUAL : GLenum := 0x0203
def GL_GREATER : GLenum := 0x0204
def GL_GEQUAL : GLenum := 0x0206

/-! ## `ishaderlayer.h` -/

/-- The pair of GL blend factors of a layer (`class BlendFunc`). -/
structure BlendFunc where
  src : GLenum
  dest : GLenum
deriving DecidableEq, Repr

/-- Layer types, `IShaderLayer::Type`. -/
inductive LayerType where
  | DIFFUSE
  | BUMP
  | SPECULAR
  | BLEND
deriving DecidableEq, Repr

/-- Vertex colour blend mode, `IShaderLayer::VertexColourMode`. -/
inductive VertexColourMode where
  | VERTEX_COLOUR_NONE
  | VERTEX_COLOUR_MULTIPLY
  | VERTEX_COLOUR_INVERSE_MULTIPLY
deriving DecidableEq, Repr

/-- Cube map mode of a layer, `IShaderLayer::CubeMapMode`. -/
inductive CubeMapMode where
  | CUBE_MAP_NONE
  | CUBE_MAP_CAMERA
  | CUBE_MAP_OBJECT
deriving DecidableEq, Repr

/-- An RGBA colour (`Colour4`). -/
structure Colour4 where
  r : ℚ
  g : ℚ
  b : ℚ
  a : ℚ
deriving DecidableEq

/-- An RGB triple (`Vector3`), as handed out by the colour schemes. -/
structure Vector3 where
  x : ℚ
  y : ℚ
  z : ℚ
deriving DecidableEq

/-- One layer of a material: what the getters of `IShaderLayer` used by the
shader compiler return once `evaluateExpressions(0)` has run. `ptr` is the
identity of the layer object behind the `ShaderLayerPtr`. -/
structure ShaderLayer where
  ptr : Nat
  type : LayerType
  texture : Nat
  blendFunc : BlendFunc
  colour : Colour4
  vertexColourMode : VertexColourMode
  cubeMapMode : CubeMapMode
  alphaTest : ℚ
deriving DecidableEq

/-- The material captured by a shader: the getters of `Material` the compiler
reads, and the two flags it writes (`SetInUse`, `setVisible`). -/
structure Material where
  name : String
  layers : List ShaderLayer
  materialFlags : Nat
  cullType : Nat
  sortRequest : Int
  polygonOffset : ℚ
  editorImage : Option Nat
  inUse : Bool
  visible : Bool
deriving DecidableEq

/-! ## `OpenGLState` -/

/-- Modelled from the spec: `OpenGLState::SortPosition`, declared in
`OpenGLState.h`; the spec lists the fixed set of named buckets in ascending
order. -/
inductive SortPosition where
  | SORT_ZFILL
  | SORT_INTERACTION
  | SORT_FULLBRIGHT
  | SORT_TRANSLUCENT
  | SORT_OVERLAY_FIRST
  | SORT_OVERLAY_LAST
  | SORT_GUI0
  | SORT_GUI1
  | SORT_POINT_FIRST
  | SORT_POINT_LAST
  | SORT_HIGHLIGHT
  | SORT_LAST
deriving DecidableEq, Repr

/-- Modelled from the spec: the numeric rank of a sort bucket, which is the
total order key of the registry
(`ZFILL < INTERACTION < FULLBRIGHT < TRANSLUCENT < OVERLAY_FIRST <
OVERLAY_LAST < GUI0 < GUI1 < POINT_FIRST < POINT_LAST < HIGHLIGHT < LAST`). -/
def SortPosition.rank : SortPosition → Nat
  | .SORT_ZFILL => 0
  | .SORT_INTERACTION => 1
  | .SORT_FULLBRIGHT => 2
  | .SORT_TRANSLUCENT => 3
  | .SORT_OVERLAY_FIRST => 4
  | .SORT_OVERLAY_LAST => 5
  | .SORT_GUI0 => 6
  | .SORT_GUI1 => 7
  | .SORT_POINT_FIRST => 8
  | .SORT_POINT_LAST => 9
  | .SORT_HIGHLIGHT => 10
  | .SORT_LAST => 11

/-- Modelled from the spec: the data members of `OpenGLState` (declared in
`OpenGLState.h`): one render pass's GPU configuration, with up to three
back-references to the originating material layers. -/
structure OpenGLState where
  name : String
  renderFlags : RenderStateFlags
  sortPosition : SortPosition
  texture0 : Nat
  texture1 : Nat
  texture2 : Nat
  colour : Colour4
  colourInverted : Bool
  m_depthfunc : GLenum
  alphaFunc : GLenum
  alphaThreshold : ℚ
  m_blend_src : GLenum
  m_blend_dst : GLenum
  polygonOffset : ℚ
  m_linewidth : ℚ
  m_pointsize : ℚ
  m_linestipple_factor : Int
  glProgram : Option String
  cubeMapMode : CubeMapMode
  stage0 : Option ShaderLayer
  stage1 : Option ShaderLayer
  stage2 : Option ShaderLayer
deriving DecidableEq

namespace OpenGLState

/-- Modelled from the spec: `setRenderFlag` switches one flag of the bitmask
on. -/
def setRenderFlag (s : OpenGLState) (flag : RenderStateFlags) : OpenGLState :=
  { s with renderFlags := s.renderFlags ||| flag }

/-- Modelled from the spec: `setRenderFlags` replaces the whole bitmask. -/
def setRenderFlags (s : OpenGLState) (flags : RenderStateFlags) : OpenGLState :=
  { s with renderFlags := flags }

/-- Modelled from the spec: `testRenderFlag` tells whether a flag of the
bitmask is on. -/
def testRenderFlag (s : OpenGLState) (flag : RenderStateFlags) : Bool :=
  (s.renderFlags &&& flag) != 0

/-- Modelled from the spec: convenience setter `setSortPosition`. -/
def setSortPosition (s : OpenGLState) (p : SortPosition) : OpenGLState :=
  { s with sortPosition := p }

/-- Modelled from the spec: convenience getter `getSortPosition`. -/
def getSortPosition (s : OpenGLState) : SortPosition := s.sortPosition

/-- Modelled from the spec: convenience setter `setColour`. -/
def setColour (s : OpenGLState) (c : Colour4) : OpenGLState :=
  { s with colour := c }

/-- Modelled from the spec: convenience setter `setColourInverted`. -/
def setColourInverted (s : OpenGLState) (b : Bool) : OpenGLState :=
  { s with colourInverted := b }

/-- Modelled from the spec: convenience setter `setDepthFunc`. -/
def setDepthFunc (s : OpenGLState) (f : GLenum) : OpenGLState :=
  { s with m_depthfunc := f }

/-- Modelled from the spec: convenience setter `setName`. -/
def setName (s : OpenGLState) (n : String) : OpenGLState :=
  { s with name := n }

/-- The passes of a triplet, the depth-fill pass and the interaction pass, are
told from all other passes by their sort bucket. -/
def isTripletPass (s : OpenGLState) : Bool :=
  s.sortPosition = .SORT_ZFILL || s.sortPosition = .SORT_INTERACTION

end OpenGLState

/-! ## `OpenGLShaderPass` -/

abbrev OpenGLRenderable := Nat
abbrev Matrix4 := Nat
abbrev RendererLight := Nat
abbrev IRenderEntity := Nat

/-- A `LightList` is whatever `forEachLight` enumerates, in that order. -/
abbrev LightList := List RendererLight

/-- Modelled from the spec: one queued submission of a pass,
`{geometry reference, model-to-view transform, optional light reference,
optional render-entity reference}`. -/
structure TransformedRenderable where
  renderable : OpenGLRenderable
  transform : Matrix4
  light : Option RendererLight
  entity : Option IRenderEntity
deriving DecidableEq, Repr

/-- Modelled from the spec: an `OpenGLShaderPass` pairs one `OpenGLState` with
the submissions queued against it for the current frame. `id` is the identity
of the pass object (and of the state it owns). -/
structure OpenGLShaderPass where
  id : Nat
  state : OpenGLState
  renderables : List TransformedRenderable
deriving DecidableEq

/-- Modelled from the spec: `OpenGLShaderPass::addRenderable` (all overloads,
the absent light or entity being `none`) queues one submission behind those
already queued; it always succeeds. -/
def OpenGLShaderPass.addRenderable (p : OpenGLShaderPass) (renderable : OpenGLRenderable)
    (modelview : Matrix4) (light : Option RendererLight) (entity : Option IRenderEntity) :
    OpenGLShaderPass :=
  { p with renderables := p.renderables ++ [⟨renderable, modelview, light, entity⟩] }

/-! ## The render system, as far as the shader talks to it -/

/-- Available GL programs, `RenderSystem::ShaderProgram`. -/
inductive ShaderProgram where
  | SHADER_PROGRAM_NONE
  | SHADER_PROGRAM_INTERACTION
deriving DecidableEq, Repr

/-- Modelled from the spec: one entry of the render-pass registry
(`OpenGLStates::value_type`): the identity of an `OpenGLState`, which is the
identity of the pass owning it, with the sort position read through it. -/
structure SortedState where
  pass : Nat
  sortPosition : SortPosition
deriving DecidableEq, Repr

/-- The entry `OpenGLStates::value_type((*i)->statePtr(), *i)` under which
`insertPasses` registers a pass. -/
def OpenGLShaderPass.sortedState (p : OpenGLShaderPass) : SortedState :=
  ⟨p.id, p.state.sortPosition⟩

/-- Modelled from the spec: the place of a new entry in the registry, behind
every entry whose sort position is not greater (ties keep insertion order). -/
def insertByRank (e : SortedState) : List SortedState → List SortedState
  | [] => [e]
  | x :: xs =>
    if x.sortPosition.rank ≤ e.sortPosition.rank then x :: insertByRank e xs
    else e :: x :: xs

/-- Modelled from the spec: the part of `OpenGLRenderSystem` (declared in
`OpenGLRenderSystem.h`) the shader uses, the registry of sorted states and the
shader program switches. `passesCreated` counts the pass objects allocated so
far and supplies the identity of the next one. -/
structure OpenGLRenderSystem where
  sortedStates : List SortedState
  shaderProgramsAvailable : Bool
  currentShaderProgram : ShaderProgram
  passesCreated : Nat
deriving DecidableEq

/-- Modelled from the spec: `insertSortedState(state, pass)`; the registry is a
mapping from state identity to pass kept in sort order, so a state that is
already registered is not entered again. -/
def OpenGLRenderSystem.insertSortedState (rs : OpenGLRenderSystem) (e : SortedState) :
    OpenGLRenderSystem :=
  if rs.sortedStates.any (fun x => x.pass == e.pass) then rs
  else { rs with sortedStates := insertByRank e rs.sortedStates }

/-- Modelled from the spec: `eraseSortedState(state)` drops the entry of that
state, if there is one. -/
def OpenGLRenderSystem.eraseSortedState (rs : OpenGLRenderSystem) (state : Nat) :
    OpenGLRenderSystem :=
  { rs with sortedStates := rs.sortedStates.filter (fun x => x.pass != state) }

/-! ## External collaborators -/

/-- What the shader compiler obtains from outside the render backend: the
material manager, the filter system, the colour schemes and the GL program
factory, plus the declarations of headers it includes (`ishaders.h`,
`OpenGLState.h`, `math/Vector4.h`). -/
structure Env where
  /-- `GlobalMaterialManager().getMaterialForName(name)`. -/
  getMaterialForName : String → Material
  /-- `GlobalMaterialManager().getDefaultInteractionTexture(t)->getGLTexNum()`. -/
  getDefaultInteractionTexture : LayerType → Nat
  /-- `GlobalFilterSystem().isVisible(FilterRule::TYPE_TEXTURE, name)`. -/
  filterIsVisible : String → Bool
  /-- `ColourSchemes().getColour(name)`. -/
  getColour : String → Vector3
  /-- The conversion of a `Vector3` handed to `OpenGLState::setColour`. -/
  toColour4 : Vector3 → Colour4
  /-- A default-constructed `Colour4`. -/
  colour4Default : Colour4
  /-- The members of a default-constructed `OpenGLState`. -/
  stateDefaults : OpenGLState
  /-- `Material::FLAG_TRANSLUCENT`. -/
  FLAG_TRANSLUCENT : Nat
  /-- `Material::CULL_NONE`. -/
  CULL_NONE : Nat
  /-- `Material::SORT_DECAL`. -/
  SORT_DECAL : Int

/-- The state of a freshly constructed pass: the defaults of `OpenGLState`,
with the three `ShaderLayerPtr` members null. -/
def Env.defaultState (env : Env) : OpenGLState :=
  { env.stateDefaults with stage0 := none, stage1 := none, stage2 := none }

/-! ## `OpenGLShader` -/

/-- What an observer can see of the shader during one of its callbacks. -/
structure Notification where
  observer : Nat
  /-- Is `true` for `onShaderRealised`, `false` for `onShaderUnrealised`. -/
  realised : Bool
  material : Option Material
  shaderPasses : List OpenGLShaderPass
  sortedStates : List SortedState
deriving DecidableEq

/-- The data members of `OpenGLShader`, with the render system it references.
The use count is an integer, as the spec has it (the member's type is declared
in `OpenGLShader.h`); `observers` is the `std::set` of observer addresses in
iteration order; `notifications` is the history of observer callbacks, oldest
first. -/
structure OpenGLShader where
  renderSystem : OpenGLRenderSystem
  isVisible : Bool
  useCount : Int
  material : Option Material
  shaderPasses : List OpenGLShaderPass
  observers : List Nat
  notifications : List Notification
deriving DecidableEq

/-- Triplet of diffuse, bump and specular layers, `OpenGLShader::DBSTriplet`. -/
structure DBSTriplet where
  diffuse : Option ShaderLayer
  bump : Option ShaderLayer
  specular : Option ShaderLayer
  needDepthFill : Bool
deriving DecidableEq

/-- The constructor `DBSTriplet()`. -/
def DBSTriplet.init : DBSTriplet :=
  { diffuse := none, bump := none, specular := none, needDepthFill := true }

/-- The member `DBSTriplet::reset()`. -/
def DBSTriplet.reset (_t : DBSTriplet) : DBSTriplet :=
  { diffuse := none, bump := none, specular := none, needDepthFill := false }

/-- The test `triplet.specular || triplet.bump || triplet.diffuse`: some layer
is waiting in the triplet. -/
def DBSTriplet.pending (t : DBSTriplet) : Bool :=
  t.specular.isSome || t.bump.isSome || t.diffuse.isSome

/-- The local `vcolMode` of `appendInteractionLayer`: the vertex colour mode of
the diffuse layer, `VERTEX_COLOUR_NONE` without one. -/
def DBSTriplet.vcolMode (t : DBSTriplet) : VertexColourMode :=
  match t.diffuse with
  | some d => d.vertexColourMode
  | none => .VERTEX_COLOUR_NONE

/-- The local `alphaTest` of `appendInteractionLayer`: the alpha test of the
diffuse layer, `-1` without one. -/
def DBSTriplet.alphaTest (t : DBSTriplet) : ℚ :=
  match t.diffuse with
  | some d => d.alphaTest
  | none => -1

namespace OpenGLShader

/-- The constructor `OpenGLShader(renderSystem)`. -/
def create (renderSystem : OpenGLRenderSystem) : OpenGLShader :=
  { renderSystem := renderSystem, isVisible := true, useCount := 0, material := none,
    shaderPasses := [], observers := [], notifications := [] }

/-- The member `destroy()`. -/
def destroy (s : OpenGLShader) : OpenGLShader :=
  { s with material := none, shaderPasses := [] }

/-- The member `addRenderable(renderable, modelview, lights)`; a null `lights`
pointer is `none`. -/
def addRenderable (s : OpenGLShader) (renderable : OpenGLRenderable) (modelview : Matrix4)
    (lights : Option LightList) : OpenGLShader :=
  if !s.isVisible then s
  else
    { s with shaderPasses := s.shaderPasses.map fun pass =>
        if pass.state.testRenderFlag RENDER_BUMP then
          match lights with
          | some ls =>
            ls.foldl (fun p light => p.addRenderable renderable modelview (some light) none) pass
          | none => pass
        else pass.addRenderable renderable modelview none none }

/-- The member `addRenderable(renderable, modelview, entity, lights)`. -/
def addRenderableEntity (s : OpenGLShader) (renderable : OpenGLRenderable)
    (modelview : Matrix4) (entity : IRenderEntity) (lights : Option LightList) :
    OpenGLShader :=
  if !s.isVisible then s
  else
    { s with shaderPasses := s.shaderPasses.map fun pass =>
        if pass.state.testRenderFlag RENDER_BUMP then
          match lights with
          | some ls =>
            ls.foldl
              (fun p light => p.addRenderable renderable modelview (some light) (some entity))
              pass
          | none => pass
        else pass.addRenderable renderable modelview none (some entity) }

/-- The member `insertPasses()`. -/
def insertPasses (s : OpenGLShader) : OpenGLShader :=
  let renderSystem := s.shaderPasses.foldl
    (fun rs p => rs.insertSortedState p.sortedState) s.renderSystem
  { s with renderSystem := renderSystem }

/-- The member `removePasses()`. -/
def removePasses (s : OpenGLShader) : OpenGLShader :=
  let renderSystem := s.shaderPasses.foldl
    (fun rs p => rs.eraseSortedState p.id) s.renderSystem
  { s with renderSystem := renderSystem }

/-- The member `setVisible(visible)`. -/
def setVisible (s : OpenGLShader) (visible : Bool) : OpenGLShader :=
  let s1 :=
    if !s.isVisible && visible then s.insertPasses
    else if s.isVisible && !visible then s.removePasses
    else s
  { s1 with isVisible := visible }

/-- The number of submissions queued on the passes of the shader. -/
def queued (s : OpenGLShader) : Nat :=
  (s.shaderPasses.map fun p => p.renderables.length).sum

/-- The member `isRealised()`. -/
def isRealised (s : OpenGLShader) : Bool := s.material.isSome

/-- The member `appendDefaultPass()`, followed by the configuration `f` the
caller applies through the returned state reference. -/
def appendDefaultPass (env : Env) (s : OpenGLShader) (f : OpenGLState → OpenGLState) :
    OpenGLShader :=
  { s with
    shaderPasses := s.shaderPasses ++
      [{ id := s.renderSystem.passesCreated, state := f env.defaultState, renderables := [] }]
    renderSystem := { s.renderSystem with passesCreated := s.renderSystem.passesCreated + 1 } }

/-- The member `canUseLightingMode()`. -/
def canUseLightingMode (s : OpenGLShader) : Bool :=
  s.renderSystem.shaderProgramsAvailable &&
    s.renderSystem.currentShaderProgram == ShaderProgram.SHADER_PROGRAM_INTERACTION

/-- The member `setGLTexturesFromTriplet(pass, triplet)`. -/
def setGLTexturesFromTriplet (env : Env) (pass : OpenGLState) (triplet : DBSTriplet) :
    OpenGLState :=
  let pass :=
    match triplet.diffuse with
    | some d => { pass with texture0 := d.texture, stage0 := some d }
    | none => { pass with texture0 := env.getDefaultInteractionTexture .DIFFUSE }
  let pass :=
    match triplet.bump with
    | some b => { pass with texture1 := b.texture, stage1 := some b }
    | none => { pass with texture1 := env.getDefaultInteractionTexture .BUMP }
  match triplet.specular with
  | some sp => { pass with texture2 := sp.texture, stage2 := some sp }
  | none => { pass with texture2 := env.getDefaultInteractionTexture .SPECULAR }

/-- The member `applyAlphaTestToPass(pass, alphaTest)`. -/
def applyAlphaTestToPass (pass : OpenGLState) (alphaTest : ℚ) : OpenGLState :=
  if alphaTest > 0 then
    { (pass.setRenderFlag RENDER_ALPHATEST) with
      alphaFunc := GL_GEQUAL, alphaThreshold := alphaTest }
  else pass

/-- The configuration of the depth-fill pass in `appendInteractionLayer`. -/
def configureDepthFill (zPass : OpenGLState) : OpenGLState :=
  let zPass := zPass.setRenderFlag RENDER_MASKCOLOUR
  let zPass := zPass.setRenderFlag RENDER_FILL
  let zPass := zPass.setRenderFlag RENDER_CULLFACE
  let zPass := zPass.setRenderFlag RENDER_DEPTHTEST
  let zPass := zPass.setRenderFlag RENDER_DEPTHWRITE
  let zPass := zPass.setRenderFlag RENDER_PROGRAM
  let zPass := zPass.setSortPosition .SORT_ZFILL
  { zPass with glProgram := some "depthFill" }

/-- The configuration of the DBS pass in `appendInteractionLayer`. -/
def configureInteraction (env : Env) (triplet : DBSTriplet) (dbsPass : OpenGLState) :
    OpenGLState :=
  let vcolMode := triplet.vcolMode
  let alphaTest := triplet.alphaTest
  let dbsPass := setGLTexturesFromTriplet env dbsPass triplet
  let dbsPass := dbsPass.setRenderFlag RENDER_BLEND
  let dbsPass := dbsPass.setRenderFlag RENDER_FILL
  let dbsPass := dbsPass.setRenderFlag RENDER_TEXTURE_2D
  let dbsPass := dbsPass.setRenderFlag RENDER_CULLFACE
  let dbsPass := dbsPass.setRenderFlag RENDER_DEPTHTEST
  let dbsPass := dbsPass.setRenderFlag RENDER_SMOOTH
  let dbsPass := dbsPass.setRenderFlag RENDER_BUMP
  let dbsPass := dbsPass.setRenderFlag RENDER_PROGRAM
  let dbsPass := { dbsPass with glProgram := some "bumpMap" }
  let dbsPass :=
    if vcolMode ≠ .VERTEX_COLOUR_NONE then
      let dbsPass := dbsPass.setRenderFlag RENDER_VERTEX_COLOUR
      if vcolMode = .VERTEX_COLOUR_INVERSE_MULTIPLY then dbsPass.setColourInverted true
      else dbsPass
    else dbsPass
  let dbsPass := applyAlphaTestToPass dbsPass alphaTest
  let dbsPass :=
    match triplet.diffuse with
    | some d => dbsPass.setColour d.colour
    | none => dbsPass
  let dbsPass := dbsPass.setDepthFunc GL_LEQUAL
  let dbsPass := { dbsPass with polygonOffset := 1 / 2 }
  let dbsPass := dbsPass.setSortPosition .SORT_INTERACTION
  { dbsPass with m_blend_src := GL_ONE, m_blend_dst := GL_ONE }

/-- The member `appendInteractionLayer(triplet)`. -/
def appendInteractionLayer (env : Env) (s : OpenGLShader) (triplet : DBSTriplet) :
    OpenGLShader :=
  let alphaTest := triplet.alphaTest
  let s :=
    if triplet.needDepthFill && decide (alphaTest ≤ 0) then
      appendDefaultPass env s configureDepthFill
    else s
  appendDefaultPass env s (configureInteraction env triplet)

/-- The configuration of the pass in `appendBlendLayer(layer)`. -/
def configureBlend (env : Env) (material : Material) (layer : ShaderLayer)
    (state : OpenGLState) : OpenGLState :=
  let state := state.setRenderFlag RENDER_FILL
  let state := state.setRenderFlag RENDER_BLEND
  let state := state.setRenderFlag RENDER_DEPTHTEST
  let state := { state with stage0 := some layer }
  let state := { state with texture0 := layer.texture }
  let blendFunc := layer.blendFunc
  let state := { state with m_blend_src := blendFunc.src, m_blend_dst := blendFunc.dest }
  let state :=
    if state.m_blend_src = GL_SRC_ALPHA ∨ state.m_blend_dst = GL_SRC_ALPHA ∨
        (state.m_blend_src = GL_ONE ∧ state.m_blend_dst = GL_ZERO) then
      state.setRenderFlag RENDER_DEPTHWRITE
    else state
  let state := { state with cubeMapMode := layer.cubeMapMode }
  let state :=
    if state.cubeMapMode = .CUBE_MAP_CAMERA then state.setRenderFlag RENDER_TEXTURE_CUBEMAP
    else state.setRenderFlag RENDER_TEXTURE_2D
  let state := state.setColour layer.colour
  let state :=
    if material.sortRequest ≥ env.SORT_DECAL then state.setSortPosition .SORT_OVERLAY_FIRST
    else state.setSortPosition .SORT_FULLBRIGHT
  { state with polygonOffset := material.polygonOffset }

/-- The member `appendBlendLayer(layer)`; `material` is `*_material`. -/
def appendBlendLayer (env : Env) (material : Material) (s : OpenGLShader)
    (layer : ShaderLayer) : OpenGLShader :=
  appendDefaultPass env s (configureBlend env material layer)

/-- One iteration of the loop over the layers in
`constructLightingPassesFromMaterial`. -/
def lightingStep (env : Env) (material : Material) (acc : OpenGLShader × DBSTriplet)
    (layer : ShaderLayer) : OpenGLShader × DBSTriplet :=
  match layer.type with
  | .DIFFUSE =>
    let acc :=
      if acc.2.diffuse.isSome then (appendInteractionLayer env acc.1 acc.2, acc.2.reset)
      else acc
    (acc.1, { acc.2 with diffuse := some layer })
  | .BUMP =>
    let acc :=
      if acc.2.bump.isSome then (appendInteractionLayer env acc.1 acc.2, acc.2.reset)
      else acc
    (acc.1, { acc.2 with bump := some layer })
  | .SPECULAR =>
    let acc :=
      if acc.2.specular.isSome then (appendInteractionLayer env acc.1 acc.2, acc.2.reset)
      else acc
    (acc.1, { acc.2 with specular := some layer })
  | .BLEND =>
    let acc :=
      if acc.2.pending then (appendInteractionLayer env acc.1 acc.2, acc.2.reset)
      else acc
    (appendBlendLayer env material acc.1 layer, acc.2)

/-- The final statement of `constructLightingPassesFromMaterial`: submit the
pending triplet when the end of the layers is reached. -/
def lightingFinish (env : Env) (acc : OpenGLShader × DBSTriplet) : OpenGLShader :=
  if acc.2.pending then appendInteractionLayer env acc.1 acc.2 else acc.1

/-- The member `constructLightingPassesFromMaterial()`. It is only called with
`_material` set; a null `_material` would be dereferenced. -/
def constructLightingPassesFromMaterial (env : Env) (s : OpenGLShader) : OpenGLShader :=
  match s.material with
  | none => s
  | some material =>
    lightingFinish env (material.layers.foldl (lightingStep env material) (s, DBSTriplet.init))

/-- The loop of `determineBlendModeForEditorPass` over the layers: the alpha
test is taken from the first diffuse layer that has one, at which the loop
breaks; the first component is `hasDiffuseLayer`. -/
def determineAlphaTest : List ShaderLayer → Bool × OpenGLState → Bool × OpenGLState
  | [], acc => acc
  | layer :: rest, (hasDiffuseLayer, pass) =>
    if layer.type = .DIFFUSE then
      if layer.alphaTest > 0 then (true, applyAlphaTestToPass pass layer.alphaTest)
      else determineAlphaTest rest (true, pass)
    else determineAlphaTest rest (hasDiffuseLayer, pass)

/-- The member `determineBlendModeForEditorPass(pass)`. -/
def determineBlendModeForEditorPass (material : Material) (pass : OpenGLState) :
    OpenGLState :=
  let r := determineAlphaTest material.layers (false, pass)
  let hasDiffuseLayer := r.1
  let pass := r.2
  if !hasDiffuseLayer && !material.layers.isEmpty && material.name != "_default" then
    let pass := pass.setRenderFlag RENDER_BLEND
    let pass := pass.setSortPosition .SORT_TRANSLUCENT
    match material.layers with
    | layer0 :: _ =>
      { pass with m_blend_src := layer0.blendFunc.src, m_blend_dst := layer0.blendFunc.dest }
    | [] => pass
  else pass

/-- The configuration of the pass in `constructEditorPreviewPassFromMaterial`. -/
def configureEditorPreview (env : Env) (material : Material) (previewPass : OpenGLState) :
    OpenGLState :=
  let previewPass :=
    { previewPass with texture0 := match material.editorImage with
                                   | some t => t
                                   | none => 0 }
  let previewPass := previewPass.setRenderFlag RENDER_FILL
  let previewPass := previewPass.setRenderFlag RENDER_TEXTURE_2D
  let previewPass := previewPass.setRenderFlag RENDER_DEPTHTEST
  let previewPass := previewPass.setRenderFlag RENDER_LIGHTING
  let previewPass := previewPass.setRenderFlag RENDER_SMOOTH
  let previewPass :=
    if material.materialFlags &&& env.FLAG_TRANSLUCENT = 0 then
      previewPass.setRenderFlag RENDER_DEPTHWRITE
    else previewPass
  let previewPass :=
    if material.cullType ≠ env.CULL_NONE then previewPass.setRenderFlag RENDER_CULLFACE
    else previewPass
  let previewPass := determineBlendModeForEditorPass material previewPass
  -- `Colour4::WHITE()`
  let previewPass := previewPass.setColour ⟨1, 1, 1, 1⟩
  let previewPass :=
    if material.sortRequest ≥ env.SORT_DECAL then
      previewPass.setSortPosition .SORT_OVERLAY_FIRST
    else if previewPass.getSortPosition ≠ .SORT_TRANSLUCENT then
      previewPass.setSortPosition .SORT_FULLBRIGHT
    else previewPass
  { previewPass with polygonOffset := material.polygonOffset }

/-- The member `constructEditorPreviewPassFromMaterial()`. It is only called
with `_material` set. -/
def constructEditorPreviewPassFromMaterial (env : Env) (s : OpenGLShader) : OpenGLShader :=
  match s.material with
  | none => s
  | some material => appendDefaultPass env s (configureEditorPreview env material)

/-- The member `constructNormalShader(name)`. -/
def constructNormalShader (env : Env) (s : OpenGLShader) (name : String) : OpenGLShader :=
  let s := { s with material := some (env.getMaterialForName name) }
  if s.canUseLightingMode then constructLightingPassesFromMaterial env s
  else constructEditorPreviewPassFromMaterial env s

end OpenGLShader

/-! ## `sscanf` with the three-number formats of the literal colour shaders -/

/-- The white-space characters of `isspace` in the C locale. -/
def isSpace (c : Char) : Bool :=
  c = ' ' || c = '\t' || c = '\n' || c = '\r' || c.toNat = 11 || c.toNat = 12

/-- The value of a run of decimal digits. -/
def digitsValue (ds : List Char) : Nat :=
  ds.foldl (fun n c => 10 * n + (c.toNat - '0'.toNat)) 0

/-- The optional sign in front of a run of digits: was it a minus, and what
follows it. -/
def scanSign (cs : List Char) : Bool × List Char :=
  match cs with
  | '-' :: r => (true, r)
  | '+' :: r => (false, r)
  | _ => (false, cs)

/-- The optional fraction behind the digits of a number: a point and a run of
digits; the result is the digits and what follows them. -/
def scanFraction (cs : List Char) : List Char × List Char :=
  match cs with
  | '.' :: r => r.span Char.isDigit
  | _ => ([], cs)

/-- The optional exponent part of a decimal floating constant: `e` or `E`, an
optional sign and a run of digits. As the GNU C library does, the letter and
the sign are read even when no digit follows; the exponent is then zero. -/
def scanExponent (cs : List Char) : Int × List Char :=
  match cs with
  | c :: rest =>
    if c = 'e' || c = 'E' then
      let signed := scanSign rest
      let ds := signed.2.span Char.isDigit
      ((if signed.1 then -(digitsValue ds.1 : Int) else (digitsValue ds.1 : Int)), ds.2)
    else (0, cs)
  | [] => (0, cs)

/-- The integer nearest to `num / den`, the even one of the two when both are
equally near. -/
def roundHalfEven (num den : Nat) : Nat :=
  let quotient := num / den
  let remainder := num % den
  if 2 * remainder < den then quotient
  else if den < 2 * remainder then quotient + 1
  else if quotient % 2 = 0 then quotient
  else quotient + 1

/-- How often `n` can be halved before it drops below two, with at most
`fuel` halvings: the position of the leading binary digit of `n` when `fuel` is
`n` itself. -/
def halvings : Nat → Nat → Nat
  | 0, _ => 0
  | fuel + 1, n => if 2 ≤ n then halvings fuel (n / 2) + 1 else 0

/-- The position of the leading binary digit of `n / d`, for positive `n` and
`d`: the greatest `k` with `2 ^ k ≤ n / d`. -/
def binaryExponent (n d : Nat) : Int :=
  let k : Int := (halvings n n : Int) - (halvings d d : Int)
  if (if 0 ≤ k then d * 2 ^ k.toNat ≤ n else d ≤ n * 2 ^ (-k).toNat) then k else k - 1

/-- The `double` the C library stores for the number `n / d` with the given
sign: the nearest number with a 53-bit significand (the even one of two that
are equally near), in steps of `2 ^ -1074` near zero. Numbers beyond the range
of `double`, which the library turns into an infinity, are not covered, and
a negative zero is zero. -/
def nearestDouble (negative : Bool) (n d : Nat) : ℚ :=
  if n = 0 ∨ d = 0 then 0
  else
    let e : Int := max (binaryExponent n d - 52) (-1074)
    let m : Nat :=
      if 0 ≤ e then roundHalfEven n (d * 2 ^ e.toNat) else roundHalfEven (n * 2 ^ (-e).toNat) d
    let magnitude : ℚ :=
      if 0 ≤ e then mkRat (m * 2 ^ e.toNat : Nat) 1 else mkRat m (2 ^ (-e).toNat)
    if negative then -magnitude else magnitude

/-- The conversion `%lf` on decimal input: leading white space is skipped, then
an optional sign, digits with an optional fraction, and an optional exponent
are read, and the number read is stored as the nearest `double`. The result is
that `double` and the rest of the input, or `none` when no number starts here.
Hexadecimal constants, infinities and NaNs, which the C library reads as well,
are not covered. -/
def scanDouble (input : List Char) : Option (ℚ × List Char) :=
  let cs := input.dropWhile isSpace
  let signed := scanSign cs
  let ip := signed.2.span Char.isDigit
  let fp := scanFraction ip.2
  if ip.1.isEmpty && fp.1.isEmpty then none
  else
    let mantissa : Nat := digitsValue (ip.1 ++ fp.1)
    let ex := scanExponent fp.2
    let exponent : Int := ex.1 - (fp.1.length : Int)
    some (if 0 ≤ exponent then nearestDouble signed.1 (mantissa * 10 ^ exponent.toNat) 1
      else nearestDouble signed.1 mantissa (10 ^ (-exponent).toNat), ex.2)

/-- The call `sscanf(name, "<open>%lf %lf %lf<close>", &colour[0], &colour[1],
&colour[2])`: the opening character must match, each `%lf` stores into the
next component, a blank of the format skips white space, and scanning stops at
the first conversion that fails, leaving the remaining components as they
were. -/
def sscanfColour (opening : Char) (name : String) (colour : Colour4) : Colour4 :=
  match name.toList with
  | c :: rest =>
    if c = opening then
      match scanDouble rest with
      | none => colour
      | some (r, rest) =>
        let colour := { colour with r := r }
        match scanDouble (rest.dropWhile isSpace) with
        | none => colour
        | some (g, rest) =>
          let colour := { colour with g := g }
          match scanDouble (rest.dropWhile isSpace) with
          | none => colour
          | some (b, _) => { colour with b := b }
    else colour
  | [] => colour

namespace OpenGLShader

/-- The `$`-branch of `construct(name)`: the first pass has been appended and
named; `state` is its configuration, and the shaders with a hidden-line pass
append a second one. An unknown name only meets `assert(false)`. -/
def constructBuiltIn (env : Env) (s : OpenGLShader) (name : String) : OpenGLShader :=
  if name = "$POINT" then
    appendDefaultPass env s fun state =>
      let state := state.setName name
      let state := state.setRenderFlag RENDER_POINT_COLOUR
      let state := state.setRenderFlag RENDER_DEPTHWRITE
      let state := state.setSortPosition .SORT_POINT_FIRST
      { state with m_pointsize := 4 }
  else if name = "$SELPOINT" then
    appendDefaultPass env s fun state =>
      let state := state.setName name
      let state := state.setRenderFlag RENDER_POINT_COLOUR
      let state := state.setRenderFlag RENDER_DEPTHWRITE
      let state := state.setSortPosition .SORT_POINT_LAST
      { state with m_pointsize := 4 }
  else if name = "$BIGPOINT" then
    appendDefaultPass env s fun state =>
      let state := state.setName name
      let state := state.setRenderFlag RENDER_POINT_COLOUR
      let state := state.setRenderFlag RENDER_DEPTHWRITE
      let state := state.setSortPosition .SORT_POINT_FIRST
      { state with m_pointsize := 6 }
  else if name = "$PIVOT" then
    let s := appendDefaultPass env s fun state =>
      let state := state.setName name
      let state := state.setRenderFlags (RENDER_DEPTHTEST ||| RENDER_DEPTHWRITE)
      let state := state.setSortPosition .SORT_GUI0
      let state := { state with m_linewidth := 2 }
      state.setDepthFunc GL_LEQUAL
    appendDefaultPass env s fun hiddenLine =>
      let hiddenLine := hiddenLine.setName (name ++ "_Hidden")
      let hiddenLine := hiddenLine.setRenderFlags (RENDER_DEPTHTEST ||| RENDER_LINESTIPPLE)
      let hiddenLine := hiddenLine.setSortPosition .SORT_GUI0
      let hiddenLine := { hiddenLine with m_linewidth := 2 }
      hiddenLine.setDepthFunc GL_GREATER
  else if name = "$LATTICE" then
    appendDefaultPass env s fun state =>
      let state := state.setName name
      let state := state.setColour ⟨1, 1 / 2, 0, 1⟩
      let state := state.setRenderFlag RENDER_DEPTHWRITE
      state.setSortPosition .SORT_POINT_FIRST
  else if name = "$WIREFRAME" then
    appendDefaultPass env s fun state =>
      let state := state.setName name
      let state := state.setRenderFlags (RENDER_DEPTHTEST ||| RENDER_DEPTHWRITE)
      state.setSortPosition .SORT_FULLBRIGHT
  else if name = "$CAM_HIGHLIGHT" then
    appendDefaultPass env s fun state =>
      let state := state.setName name
      let state := state.setRenderFlag RENDER_FILL
      let state := state.setRenderFlag RENDER_DEPTHTEST
      let state := state.setRenderFlag RENDER_CULLFACE
      let state := state.setRenderFlag RENDER_BLEND
      -- `highLightColour`: the scheme colour with alpha `0.3f`
      let c := env.getColour "selected_brush_camera"
      let state := state.setColour ⟨c.x, c.y, c.z, 5033165 / 16777216⟩
      let state := state.setSortPosition .SORT_HIGHLIGHT
      let state := { state with polygonOffset := 1 / 2 }
      state.setDepthFunc GL_LEQUAL
  else if name = "$CAM_OVERLAY" then
    let s := appendDefaultPass env s fun state =>
      let state := state.setName name
      let state := state.setRenderFlags (RENDER_OFFSETLINE ||| RENDER_DEPTHTEST)
      state.setSortPosition .SORT_OVERLAY_LAST
    appendDefaultPass env s fun hiddenLine =>
      let hiddenLine := hiddenLine.setColour ⟨3 / 4, 3 / 4, 3 / 4, 1⟩
      let hiddenLine := hiddenLine.setRenderFlags
        (RENDER_CULLFACE ||| RENDER_DEPTHTEST ||| RENDER_OFFSETLINE ||| RENDER_LINESTIPPLE)
      let hiddenLine := hiddenLine.setSortPosition .SORT_OVERLAY_FIRST
      let hiddenLine := hiddenLine.setDepthFunc GL_GREATER
      { hiddenLine with m_linestipple_factor := 2 }
  else if name = "$XY_OVERLAY" then
    appendDefaultPass env s fun state =>
      let state := state.setName name
      let colorSelBrushes := env.getColour "selected_brush"
      let state := state.setColour ⟨colorSelBrushes.x, colorSelBrushes.y, colorSelBrushes.z, 1⟩
      let state := state.setRenderFlag RENDER_LINESTIPPLE
      let state := state.setSortPosition .SORT_OVERLAY_FIRST
      let state := { state with m_linewidth := 2 }
      { state with m_linestipple_factor := 3 }
  else if name = "$XY_OVERLAY_GROUP" then
    appendDefaultPass env s fun state =>
      let state := state.setName name
      let colorSelBrushes := env.getColour "selected_group_items"
      let state := state.setColour ⟨colorSelBrushes.x, colorSelBrushes.y, colorSelBrushes.z, 1⟩
      let state := state.setRenderFlag RENDER_LINESTIPPLE
      let state := state.setSortPosition .SORT_OVERLAY_FIRST
      let state := { state with m_linewidth := 2 }
      { state with m_linestipple_factor := 3 }
  else if name = "$DEBUG_CLIPPED" then
    appendDefaultPass env s fun state =>
      let state := state.setName name
      let state := state.setRenderFlag RENDER_DEPTHWRITE
      state.setSortPosition .SORT_LAST
  else if name = "$POINTFILE" then
    appendDefaultPass env s fun state =>
      let state := state.setName name
      let state := state.setColour ⟨1, 0, 0, 1⟩
      let state := state.setRenderFlags (RENDER_DEPTHTEST ||| RENDER_DEPTHWRITE)
      let state := state.setSortPosition .SORT_FULLBRIGHT
      { state with m_linewidth := 4 }
  else if name = "$WIRE_OVERLAY" then
    let s := appendDefaultPass env s fun state =>
      let state := state.setName name
      let state := state.setRenderFlags
        (RENDER_DEPTHWRITE ||| RENDER_DEPTHTEST ||| RENDER_OVERRIDE ||| RENDER_VERTEX_COLOUR)
      let state := state.setSortPosition .SORT_GUI1
      state.setDepthFunc GL_LEQUAL
    appendDefaultPass env s fun hiddenLine =>
      let hiddenLine := hiddenLine.setName (name ++ "_Hidden")
      let hiddenLine := hiddenLine.setRenderFlags
        (RENDER_DEPTHWRITE ||| RENDER_DEPTHTEST ||| RENDER_OVERRIDE ||| RENDER_LINESTIPPLE |||
          RENDER_VERTEX_COLOUR)
      let hiddenLine := hiddenLine.setSortPosition .SORT_GUI0
      hiddenLine.setDepthFunc GL_GREATER
  else if name = "$FLATSHADE_OVERLAY" then
    let s := appendDefaultPass env s fun state =>
      let state := state.setName name
      let state := state.setRenderFlags
        (RENDER_CULLFACE ||| RENDER_LIGHTING ||| RENDER_SMOOTH ||| RENDER_SCALED |||
          RENDER_FILL ||| RENDER_DEPTHWRITE ||| RENDER_DEPTHTEST ||| RENDER_OVERRIDE)
      let state := state.setSortPosition .SORT_GUI1
      state.setDepthFunc GL_LEQUAL
    appendDefaultPass env s fun hiddenLine =>
      let hiddenLine := hiddenLine.setName (name ++ "_Hidden")
      let hiddenLine := hiddenLine.setRenderFlags
        (RENDER_CULLFACE ||| RENDER_LIGHTING ||| RENDER_SMOOTH ||| RENDER_SCALED |||
          RENDER_FILL ||| RENDER_DEPTHWRITE ||| RENDER_DEPTHTEST ||| RENDER_OVERRIDE |||
          RENDER_POLYGONSTIPPLE)
      let hiddenLine := hiddenLine.setSortPosition .SORT_GUI0
      hiddenLine.setDepthFunc GL_GREATER
  else if name = "$CLIPPER_OVERLAY" then
    appendDefaultPass env s fun state =>
      let state := state.setName name
      let state := state.setColour (env.toColour4 (env.getColour "clipper"))
      let state := state.setRenderFlags
        (RENDER_CULLFACE ||| RENDER_DEPTHWRITE ||| RENDER_FILL ||| RENDER_POLYGONSTIPPLE)
      state.setSortPosition .SORT_OVERLAY_FIRST
  else if name = "$AAS_AREA" then
    let s := appendDefaultPass env s fun state =>
      let state := state.setName name
      let state := state.setColour ⟨1, 1, 1, 1⟩
      let state := state.setRenderFlags
        (RENDER_DEPTHWRITE ||| RENDER_DEPTHTEST ||| RENDER_OVERRIDE)
      let state := state.setSortPosition .SORT_OVERLAY_LAST
      state.setDepthFunc GL_LEQUAL
    appendDefaultPass env s fun hiddenLine =>
      let hiddenLine := hiddenLine.setColour ⟨1, 1, 1, 1⟩
      let hiddenLine := hiddenLine.setRenderFlags
        (RENDER_DEPTHWRITE ||| RENDER_DEPTHTEST ||| RENDER_OVERRIDE ||| RENDER_LINESTIPPLE)
      let hiddenLine := hiddenLine.setSortPosition .SORT_OVERLAY_LAST
      hiddenLine.setDepthFunc GL_GREATER
  else
    appendDefaultPass env s fun state => state.setName name

/-- The member `construct(name)`, the main shader construction entry point:
the first character of the name selects a built-in shader. -/
def construct (env : Env) (s : OpenGLShader) (name : String) : OpenGLShader :=
  match name.toList.head? with
  | some '(' =>
    appendDefaultPass env s fun state =>
      let state := state.setName name
      let colour := sscanfColour '(' name env.colour4Default
      let colour := { colour with a := 1 }
      let state := state.setColour colour
      let state := state.setRenderFlag RENDER_FILL
      let state := state.setRenderFlag RENDER_LIGHTING
      let state := state.setRenderFlag RENDER_DEPTHTEST
      let state := state.setRenderFlag RENDER_CULLFACE
      let state := state.setRenderFlag RENDER_DEPTHWRITE
      state.setSortPosition .SORT_FULLBRIGHT
  | some '[' =>
    appendDefaultPass env s fun state =>
      let state := state.setName name
      let colour := sscanfColour '[' name env.colour4Default
      let colour := { colour with a := 1 / 2 }
      let state := state.setColour colour
      let state := state.setRenderFlag RENDER_FILL
      let state := state.setRenderFlag RENDER_LIGHTING
      let state := state.setRenderFlag RENDER_DEPTHTEST
      let state := state.setRenderFlag RENDER_CULLFACE
      let state := state.setRenderFlag RENDER_DEPTHWRITE
      let state := state.setRenderFlag RENDER_BLEND
      state.setSortPosition .SORT_TRANSLUCENT
  | some '<' =>
    appendDefaultPass env s fun state =>
      let state := state.setName name
      let colour := sscanfColour '<' name env.colour4Default
      let colour := { colour with a := 1 }
      let state := state.setColour colour
      let state := state.setRenderFlags (RENDER_DEPTHTEST ||| RENDER_DEPTHWRITE)
      let state := state.setSortPosition .SORT_FULLBRIGHT
      let state := state.setDepthFunc GL_LESS
      let state := { state with m_linewidth := 1 }
      { state with m_pointsize := 1 }
  | some '$' => constructBuiltIn env s name
  | _ => constructNormalShader env s name

/-- Call `onShaderRealised` (`realised = true`) or `onShaderUnrealised` on
every observer, each seeing the shader as it is at that moment. -/
def notifyObservers (s : OpenGLShader) (realised : Bool) : OpenGLShader :=
  { s with notifications := s.notifications ++ s.observers.map fun o =>
      { observer := o, realised := realised, material := s.material,
        shaderPasses := s.shaderPasses, sortedStates := s.renderSystem.sortedStates } }

/-- The member `realise(name)`. -/
def realise (env : Env) (s : OpenGLShader) (name : String) : OpenGLShader :=
  let s := construct env s name
  let s :=
    match s.material with
    | some material =>
      let material := { material with visible := env.filterIsVisible name }
      let material := if s.useCount ≠ 0 then { material with inUse := true } else material
      { s with material := some material }
    | none => s
  let s := s.insertPasses
  s.notifyObservers true

/-- The member `unrealise()`. -/
def unrealise (s : OpenGLShader) : OpenGLShader :=
  let s := s.notifyObservers false
  let s := s.removePasses
  s.destroy

end OpenGLShader

/-! ## The passes of the lighting construction, as a list of states -/

namespace OpenGLShader

/-- Append one pass per state, in order, each a newly created pass object: what
a run of `appendDefaultPass` calls does to the shader. -/
def appendStates (s : OpenGLShader) (states : List OpenGLState) : OpenGLShader :=
  states.foldl (fun s state =>
    { s with
      shaderPasses := s.shaderPasses ++
        [{ id := s.renderSystem.passesCreated, state := state, renderables := [] }]
      renderSystem := { s.renderSystem with passesCreated := s.renderSystem.passesCreated + 1 } })
    s

/-- The pass objects created for a list of states when `first` passes have
been created before. -/
def freshPasses (first : Nat) : List OpenGLState → List OpenGLShaderPass
  | [] => []
  | state :: rest => { id := first, state := state, renderables := [] } ::
      freshPasses (first + 1) rest

/-- The states of the passes one call of `appendInteractionLayer(triplet)`
appends: the depth-fill pass if requested, then the DBS pass. -/
def interactionStates (env : Env) (triplet : DBSTriplet) : List OpenGLState :=
  (if triplet.needDepthFill && decide (triplet.alphaTest ≤ 0) then
      [configureDepthFill env.defaultState]
    else []) ++ [configureInteraction env triplet env.defaultState]

/-- The states of the passes the loop of `constructLightingPassesFromMaterial`
and its final flush append, when the loop is entered with triplet `t` and
the layers still to come. -/
def lightingStates (env : Env) (material : Material) :
    DBSTriplet → List ShaderLayer → List OpenGLState
  | t, [] => if t.pending then interactionStates env t else []
  | t, layer :: rest =>
    match layer.type with
    | .DIFFUSE =>
      if t.diffuse.isSome then
        interactionStates env t ++
          lightingStates env material { t.reset with diffuse := some layer } rest
      else lightingStates env material { t with diffuse := some layer } rest
    | .BUMP =>
      if t.bump.isSome then
        interactionStates env t ++
          lightingStates env material { t.reset with bump := some layer } rest
      else lightingStates env material { t with bump := some layer } rest
    | .SPECULAR =>
      if t.specular.isSome then
        interactionStates env t ++
          lightingStates env material { t.reset with specular := some layer } rest
      else lightingStates env material { t with specular := some layer } rest
    | .BLEND =>
      if t.pending then
        interactionStates env t ++ configureBlend env material layer env.defaultState ::
          lightingStates env material t.reset rest
      else
        configureBlend env material layer env.defaultState :: lightingStates env material t rest

end OpenGLShader

/-! ## Sequences of lifecycle calls -/

/-- One of the lifecycle calls made on a shader. -/
inductive LifecycleCall where
  | realise (name : String)
  | unrealise
  | setVisible (visible : Bool)
deriving DecidableEq, Repr

/-- Perform one lifecycle call. -/
def LifecycleCall.apply (env : Env) (s : OpenGLShader) : LifecycleCall → OpenGLShader
  | .realise name => s.realise env name
  | .unrealise => s.unrealise
  | .setVisible visible => s.setVisible visible

/-- Perform a sequence of lifecycle calls, first call first. -/
def runCalls (env : Env) (s : OpenGLShader) (calls : List LifecycleCall) : OpenGLShader :=
  calls.foldl (LifecycleCall.apply env) s

/-- A render system whose registry is empty and which has not created a pass
yet. -/
def OpenGLRenderSystem.empty (programs : Bool) (current : ShaderProgram) :
    OpenGLRenderSystem :=
  { sortedStates := [], shaderProgramsAvailable := programs, currentShaderProgram := current,
    passesCreated := 0 }

/-- What the lifecycle calls maintain between a shader and the registry of its
render system: no state is registered twice, every registered entry is that of
a pass the shader holds, a visible shader has all its passes registered, and
the pass objects are told apart by their identity, which is older than the
next one the render system hands out. -/
structure RegistryInvariant (s : OpenGLShader) : Prop where
  keys : (s.renderSystem.sortedStates.map fun e => e.pass).Nodup
  owned : ∀ e ∈ s.renderSystem.sortedStates, ∃ p ∈ s.shaderPasses, e = p.sortedState
  shown : s.isVisible = true →
    ∀ p ∈ s.shaderPasses, p.sortedState ∈ s.renderSystem.sortedStates
  ids : (s.shaderPasses.map fun p => p.id).Nodup
  created : ∀ p ∈ s.shaderPasses, p.id < s.renderSystem.passesCreated

/-! ## Use count and observers -/

namespace OpenGLShader

/-- The member `incrementUsed()`. -/
def incrementUsed (s : OpenGLShader) : OpenGLShader :=
  let s := { s with useCount := s.useCount + 1 }
  if s.useCount = 1 then
    match s.material with
    | some material => { s with material := some { material with inUse := true } }
    | none => s
  else s

/-- The member `decrementUsed()`. -/
def decrementUsed (s : OpenGLShader) : OpenGLShader :=
  let s := { s with useCount := s.useCount - 1 }
  if s.useCount = 0 then
    match s.material with
    | some material => { s with material := some { material with inUse := false } }
    | none => s
  else s

/-- The member `attachObserver(observer)`: the observer joins the set, and is
told at once when the shader is realised. -/
def attachObserver (s : OpenGLShader) (observer : Nat) : OpenGLShader :=
  let s :=
    if observer ∈ s.observers then s
    else { s with observers := s.observers.orderedInsert (fun a b => a ≤ b) observer }
  if s.isRealised then
    { s with notifications := s.notifications ++
        [{ observer := observer, realised := true, material := s.material,
           shaderPasses := s.shaderPasses, sortedStates := s.renderSystem.sortedStates }] }
  else s

/-- The member `detachObserver(observer)`: the observer is told when the shader
is realised, then leaves the set. -/
def detachObserver (s : OpenGLShader) (observer : Nat) : OpenGLShader :=
  let s :=
    if s.isRealised then
      { s with notifications := s.notifications ++
          [{ observer := observer, realised := false, material := s.material,
             shaderPasses := s.shaderPasses, sortedStates := s.renderSystem.sortedStates }] }
    else s
  { s with observers := s.observers.filter fun o => o != observer }

/-- The in-use flag of the captured material, `false` without a material. -/
def materialInUse (s : OpenGLShader) : Bool :=
  match s.material with
  | some material => material.inUse
  | none => false

end OpenGLShader

/-! ## The calls of `realise` and `unrealise`, in order -/

/-- A call that `realise` or `unrealise` makes: on the shader itself, on the
captured material, on the render system or on an observer. -/
inductive Effect where
  /-- The call `construct(name)`. -/
  | construct (name : String)
  /-- The call `_material->setVisible(visible)`. -/
  | materialSetVisible (visible : Bool)
  /-- The call `_material->SetInUse(inUse)`. -/
  | materialSetInUse (inUse : Bool)
  /-- The call `_renderSystem.insertSortedState(...)` with the entry of a pass. -/
  | insertSortedState (entry : SortedState)
  /-- The call `_renderSystem.eraseSortedState(...)` with the state of a pass. -/
  | eraseSortedState (pass : Nat)
  /-- The call `observer->onShaderRealised()`. -/
  | onShaderRealised (observer : Nat)
  /-- The call `observer->onShaderUnrealised()`. -/
  | onShaderUnrealised (observer : Nat)
  /-- The call `destroy()`. -/
  | destroy
deriving DecidableEq

/-- A shader together with the calls made so far, oldest first. -/
structure TracedShader where
  shader : OpenGLShader
  effects : List Effect
deriving DecidableEq

namespace TracedShader

/-- The statement `construct(name);`. -/
def construct (env : Env) (t : TracedShader) (name : String) : TracedShader :=
  { shader := t.shader.construct env name, effects := t.effects ++ [.construct name] }

/-- The statement `_material->setVisible(visible);`, reached with a material. -/
def materialSetVisible (t : TracedShader) (visible : Bool) : TracedShader :=
  match t.shader.material with
  | some material =>
    { shader := { t.shader with material := some { material with visible := visible } },
      effects := t.effects ++ [.materialSetVisible visible] }
  | none => t

/-- The statement `_material->SetInUse(inUse);`, reached with a material. -/
def materialSetInUse (t : TracedShader) (inUse : Bool) : TracedShader :=
  match t.shader.material with
  | some material =>
    { shader := { t.shader with material := some { material with inUse := inUse } },
      effects := t.effects ++ [.materialSetInUse inUse] }
  | none => t

/-- The member `insertPasses()`: one `insertSortedState` for each pass, in the
order of the pass list. -/
def insertPasses (t : TracedShader) : TracedShader :=
  t.shader.shaderPasses.foldl
    (fun t p =>
      { shader := { t.shader with
          renderSystem := t.shader.renderSystem.insertSortedState p.sortedState },
        effects := t.effects ++ [.insertSortedState p.sortedState] }) t

/-- The member `removePasses()`: one `eraseSortedState` for each pass, in the
order of the pass list. -/
def removePasses (t : TracedShader) : TracedShader :=
  t.shader.shaderPasses.foldl
    (fun t p =>
      { shader := { t.shader with renderSystem := t.shader.renderSystem.eraseSortedState p.id },
        effects := t.effects ++ [.eraseSortedState p.id] }) t

/-- The loop over `_observers` with one callback each: `onShaderRealised` for
`realised = true`, `onShaderUnrealised` otherwise. The observer sees the shader
as it is at that moment. -/
def notifyObservers (t : TracedShader) (realised : Bool) : TracedShader :=
  t.shader.observers.foldl
    (fun t o =>
      { shader := { t.shader with notifications := t.shader.notifications ++
          [{ observer := o, realised := realised, material := t.shader.material,
             shaderPasses := t.shader.shaderPasses,
             sortedStates := t.shader.renderSystem.sortedStates }] },
        effects := t.effects ++
          [if realised then .onShaderRealised o else .onShaderUnrealised o] }) t

/-- The statement `destroy();`. -/
def destroy (t : TracedShader) : TracedShader :=
  { shader := t.shader.destroy, effects := t.effects ++ [.destroy] }

/-- The member `realise(name)`, statement by statement. -/
def realise (env : Env) (t : TracedShader) (name : String) : TracedShader :=
  let t := t.construct env name
  let t :=
    if t.shader.material.isSome then
      let t := t.materialSetVisible (env.filterIsVisible name)
      if t.shader.useCount ≠ 0 then t.materialSetInUse true else t
    else t
  let t := t.insertPasses
  t.notifyObservers true

/-- The member `unrealise()`, statement by statement. -/
def unrealise (t : TracedShader) : TracedShader :=
  let t := t.notifyObservers false
  let t := t.removePasses
  t.destroy

end TracedShader

/-! ## Shader names -/

/-- The names the `$` branch of `construct` compares with, in that order. -/
def builtInNames : List String :=
  ["$POINT", "$SELPOINT", "$BIGPOINT", "$PIVOT", "$LATTICE", "$WIREFRAME", "$CAM_HIGHLIGHT",
    "$CAM_OVERLAY", "$XY_OVERLAY", "$XY_OVERLAY_GROUP", "$DEBUG_CLIPPED", "$POINTFILE",
    "$WIRE_OVERLAY", "$FLATSHADE_OVERLAY", "$CLIPPER_OVERLAY", "$AAS_AREA"]

/-- The built-in names for which `construct` appends a second pass. -/
def hiddenLineNames : List String :=
  ["$PIVOT", "$CAM_OVERLAY", "$WIRE_OVERLAY", "$FLATSHADE_OVERLAY", "$AAS_AREA"]

/-- Does the first character send `construct` to one of the built-in literal
branches rather than to `constructNormalShader`. -/
def isBuiltInLiteral (name : String) : Bool :=
  name.toList.head? = some '(' || name.toList.head? = some '[' ||
    name.toList.head? = some '<' || name.toList.head? = some '$'

/-! ## Decimal numbers in shader names -/

/-- A decimal number as written in a name: an optional minus sign, the digits
before the point and, when there are any, a point and the digits behind it. -/
structure Decimal where
  negative : Bool
  whole : List (Fin 10)
  fraction : List (Fin 10)
deriving DecidableEq

/-- The character of a digit. -/
def digitChar (d : Fin 10) : Char := Char.ofNat ('0'.toNat + d.val)

/-- The characters of a decimal number. -/
def Decimal.text (x : Decimal) : List Char :=
  (if x.negative then ['-'] else []) ++ x.whole.map digitChar ++
    (if x.fraction.isEmpty then [] else '.' :: x.fraction.map digitChar)

/-- The number a run of digits stands for. -/
def digitsNat (ds : List (Fin 10)) : Nat := ds.foldl (fun n d => 10 * n + d.val) 0

/-- The number a decimal number stands for. -/
def Decimal.value (x : Decimal) : ℚ :=
  (if x.negative then -1 else 1) *
    ((digitsNat x.whole : ℚ) + (digitsNat x.fraction : ℚ) / 10 ^ x.fraction.length)

/-- The `double` nearest to a decimal number: the number is the quotient of its
digits, read as one natural number, by the power of ten of its fraction. -/
def Decimal.double (x : Decimal) : ℚ :=
  nearestDouble x.negative (digitsNat (x.whole ++ x.fraction)) (10 ^ x.fraction.length)

/-- A decimal number that `%lf` reads in full and stores as a finite `double`:
it has a digit before the point, and at most 308 of them, which keeps it below
the largest `double`. -/
structure Decimal.Finite (x : Decimal) : Prop where
  digit : x.whole ≠ []
  range : x.whole.length ≤ 308

/-- What may follow a number in a name for `%lf` to stop there: not a digit, a
point or an exponent letter. -/
structure Terminator (c : Char) : Prop where
  digit : c.isDigit = false
  point : c ≠ '.'
  lower : c ≠ 'e'
  upper : c ≠ 'E'

/-- The name `<opening>r g b<closing>` of a literal colour shader. -/
def colourName (opening closing : Char) (r g b : Decimal) : String :=
  String.mk (opening :: (r.text ++ ' ' :: (g.text ++ ' ' :: (b.text ++ [closing]))))

/-! ## Layers and the passes that refer to them -/

/-- The layers a state refers back to through `stage0`, `stage1` and
`stage2`. -/
def OpenGLState.stageLayers (st : OpenGLState) : List ShaderLayer :=
  st.stage0.toList ++ st.stage1.toList ++ st.stage2.toList

/-- The layers waiting in a triplet. -/
def DBSTriplet.layers (t : DBSTriplet) : List ShaderLayer :=
  t.diffuse.toList ++ t.bump.toList ++ t.specular.toList

/-- Each slot of the triplet holds a layer of the slot's type. -/
structure DBSTriplet.Typed (t : DBSTriplet) : Prop where
  diffuse : ∀ l, t.diffuse = some l → l.type = .DIFFUSE
  bump : ∀ l, t.bump = some l → l.type = .BUMP
  specular : ∀ l, t.specular = some l → l.type = .SPECULAR

/-- An interaction pass stands for a group of layers: it refers to each layer
of the group, and to nothing else, the diffuse layer as `stage0`, the bump
layer as `stage1` and the specular layer as `stage2`. -/
structure OpenGLState.References (st : OpenGLState) (group : List ShaderLayer) : Prop where
  nonempty : group ≠ []
  layers : st.stageLayers.Perm group
  diffuse : ∀ l, st.stage0 = some l → l.type = .DIFFUSE
  bump : ∀ l, st.stage1 = some l → l.type = .BUMP
  specular : ∀ l, st.stage2 = some l → l.type = .SPECULAR

/-! ## The legacy shader of `radiant/render/backend/OpenGLShader.cpp` -/

namespace legacy

/-- The value of `GL_ALWAYS` in `GL/gl.h`. -/
def GL_ALWAYS : GLenum := 0x0207

/-- The value of `GL_EQUAL` in `GL/gl.h`. -/
def GL_EQUAL : GLenum := 0x0202

/-- The alpha functions of a legacy shader, `IShader::EAlphaFunc` of
`ishaders.h`: the values the switch of `constructEditorPreviewPassFromIShader`
names. -/
inductive EAlphaFunc where
  | eAlways
  | eEqual
  | eLess
  | eGreater
  | eLEqual
  | eGEqual
deriving DecidableEq, Repr

/-- What the legacy code reads through `_iShader`. -/
structure IShader where
  /-- `getFlags()`. -/
  flags : Nat
  /-- `getCull()`. -/
  cull : Nat
  /-- The function `getAlphaFunc` stores through its first argument. -/
  alphaFunc : EAlphaFunc
  /-- The reference value `getAlphaFunc` stores through its second argument. -/
  alphaRef : ℚ
  /-- `getEditorImage()->texture_number`. -/
  editorTexture : Nat
  /-- `getEditorImage()->color`. -/
  editorColour : Vector3

/-- The members of the legacy `OpenGLState` the preview pass touches. -/
structure OpenGLState where
  renderFlags : Nat
  m_texture : Nat
  m_alphafunc : GLenum
  m_alpharef : ℚ
  m_colour : Colour4
  m_sort : Nat
deriving DecidableEq

/-- The constants of headers the legacy file includes and which are not at
hand: the shader flags and cull mode of `ishaders.h`, the render flags of the
`irender.h` of its time, the sort position and the default-constructed
state. -/
structure Constants where
  QER_CULL : Nat
  QER_ALPHATEST : Nat
  eCullBack : Nat
  RENDER_FILL : Nat
  RENDER_TEXTURE : Nat
  RENDER_DEPTHTEST : Nat
  RENDER_COLOURWRITE : Nat
  RENDER_LIGHTING : Nat
  RENDER_SMOOTH : Nat
  RENDER_CULLFACE : Nat
  RENDER_ALPHATEST : Nat
  RENDER_DEPTHWRITE : Nat
  eSortFullbright : Nat
  defaultState : OpenGLState

/-- The legacy shader: the shader it was captured from and its passes. -/
structure OpenGLShader where
  iShader : IShader
  shaderPasses : List OpenGLState

/-- The `switch (alphafunc)` of `constructEditorPreviewPassFromIShader`. No
case ends in `break`: control enters at the matching label and runs every
assignment from there to the end of the switch. -/
def alphaFuncSwitch (alphafunc : EAlphaFunc) (state : OpenGLState) : OpenGLState :=
  let entered := decide (alphafunc = .eAlways)
  let state := if entered then { state with m_alphafunc := GL_ALWAYS } else state
  let entered := entered || decide (alphafunc = .eEqual)
  let state := if entered then { state with m_alphafunc := GL_EQUAL } else state
  let entered := entered || decide (alphafunc = .eLess)
  let state := if entered then { state with m_alphafunc := GL_LESS } else state
  let entered := entered || decide (alphafunc = .eGreater)
  let state := if entered then { state with m_alphafunc := GL_GREATER } else state
  let entered := entered || decide (alphafunc = .eLEqual)
  let state := if entered then { state with m_alphafunc := GL_LEQUAL } else state
  let entered := entered || decide (alphafunc = .eGEqual)
  if entered then { state with m_alphafunc := GL_GEQUAL } else state

/-- The configuration of the pass in the legacy
`constructEditorPreviewPassFromIShader()`. -/
def configureEditorPreview (c : Constants) (iShader : IShader) (state : OpenGLState) :
    OpenGLState :=
  let state := { state with m_texture := iShader.editorTexture }
  let state := { state with renderFlags := c.RENDER_FILL ||| c.RENDER_TEXTURE |||
    c.RENDER_DEPTHTEST ||| c.RENDER_COLOURWRITE ||| c.RENDER_LIGHTING ||| c.RENDER_SMOOTH }
  let state :=
    if iShader.flags &&& c.QER_CULL = 0 ∨ iShader.cull = c.eCullBack then
      { state with renderFlags := state.renderFlags ||| c.RENDER_CULLFACE }
    else state
  let state :=
    if iShader.flags &&& c.QER_ALPHATEST ≠ 0 then
      let state := { state with renderFlags := state.renderFlags ||| c.RENDER_ALPHATEST }
      let state := { state with m_alpharef := iShader.alphaRef }
      alphaFuncSwitch iShader.alphaFunc state
    else state
  let state := { state with m_colour :=
    ⟨iShader.editorColour.x, iShader.editorColour.y, iShader.editorColour.z, 1⟩ }
  let state := { state with renderFlags := state.renderFlags ||| c.RENDER_DEPTHWRITE }
  { state with m_sort := c.eSortFullbright }

namespace OpenGLShader

/-- The legacy member `constructEditorPreviewPassFromIShader()`. -/
def constructEditorPreviewPassFromIShader (c : Constants) (s : OpenGLShader) : OpenGLShader :=
  { s with shaderPasses := s.shaderPasses ++ [configureEditorPreview c s.iShader c.defaultState] }

end OpenGLShader

/-- Sample values of the constants. -/
def sampleConstants : Constants :=
  { QER_CULL := 0x100, QER_ALPHATEST := 0x80, eCullBack := 1, RENDER_FILL := 1 <<< 0,
    RENDER_TEXTURE := 1 <<< 1, RENDER_DEPTHTEST := 1 <<< 2, RENDER_COLOURWRITE := 1 <<< 3,
    RENDER_LIGHTING := 1 <<< 4, RENDER_SMOOTH := 1 <<< 5, RENDER_CULLFACE := 1 <<< 6,
    RENDER_ALPHATEST := 1 <<< 7, RENDER_DEPTHWRITE := 1 <<< 8, eSortFullbright := 2,
    defaultState :=
      { renderFlags := 0, m_texture := 0, m_alphafunc := GL_ALWAYS, m_alpharef := 0,
        m_colour := ⟨1, 1, 1, 1⟩, m_sort := 0 } }

/-- A legacy shader with the `QER_ALPHATEST` flag and the given alpha
function, no pass built yet. -/
def sampleShader (alphaFunc : EAlphaFunc) : OpenGLShader :=
  { iShader := { flags := 0x80, cull := 0, alphaFunc := alphaFunc, alphaRef := 1 / 2,
                 editorTexture := 7, editorColour := ⟨1, 1, 1⟩ }
    shaderPasses := [] }

end legacy

/-! ## Sample objects -/

/-- A layer of the given identity, type and alpha test, everything else
plain. -/
def sampleLayer (ptr : Nat) (type : LayerType) (alphaTest : ℚ) : ShaderLayer :=
  { ptr := ptr, type := type, texture := ptr, blendFunc := ⟨GL_ONE, GL_ONE⟩,
    colour := ⟨1, 1, 1, 1⟩, vertexColourMode := .VERTEX_COLOUR_NONE,
    cubeMapMode := .CUBE_MAP_NONE, alphaTest := alphaTest }

/-- A material with the given layers. -/
def sampleMaterial (name : String) (layers : List ShaderLayer) : Material :=
  { name := name, layers := layers, materialFlags := 0, cullType := 0, sortRequest := 0,
    polygonOffset := 0, editorImage := none, inUse := false, visible := true }

/-- A state with all flags off. -/
def sampleState : OpenGLState :=
  { name := "", renderFlags := RENDER_DEFAULT, sortPosition := .SORT_ZFILL, texture0 := 0,
    texture1 := 0, texture2 := 0, colour := ⟨1, 1, 1, 1⟩, colourInverted := false,
    m_depthfunc := GL_LESS, alphaFunc := 0x0207, alphaThreshold := 0,
    m_blend_src := GL_SRC_ALPHA, m_blend_dst := 0x0303, polygonOffset := 0,
    m_linewidth := 1, m_pointsize := 1, m_linestipple_factor := 1, glProgram := none,
    cubeMapMode := .CUBE_MAP_NONE, stage0 := none, stage1 := none, stage2 := none }

/-- An environment in which every material name resolves to a material with the
given layers. -/
def sampleEnv (layers : List ShaderLayer) : Env :=
  { getMaterialForName := fun name => sampleMaterial name layers
    getDefaultInteractionTexture := fun _ => 0
    filterIsVisible := fun _ => true
    getColour := fun _ => ⟨0, 0, 0⟩
    toColour4 := fun v => ⟨v.x, v.y, v.z, 1⟩
    colour4Default := ⟨0, 0, 0, 0⟩
    stateDefaults := sampleState
    FLAG_TRANSLUCENT := 1
    CULL_NONE := 2
    SORT_DECAL := 2 }

/-- A freshly constructed shader of a lighting-capable render system with an
empty registry. -/
def sampleShader : OpenGLShader :=
  OpenGLShader.create (OpenGLRenderSystem.empty true .SHADER_PROGRAM_INTERACTION)

/-- The sample shader holding a material with the given layers, no pass built
yet. -/
def sampleShaderWith (layers : List ShaderLayer) : OpenGLShader :=
  { sampleShader with material := some (sampleMaterial "textures/sample" layers) }

/-- The sample shader after the lighting construction for a diffuse layer
without alpha test followed by a blend layer. -/
def sampleLitShader : OpenGLShader :=
  OpenGLShader.constructLightingPassesFromMaterial
    (sampleEnv [sampleLayer 1 .DIFFUSE 0, sampleLayer 2 .BLEND 0])
    (sampleShaderWith [sampleLayer 1 .DIFFUSE 0, sampleLayer 2 .BLEND 0])

/-! # Theorems -/

/-! ## Render flags -/

/-- Testing a single-bit flag reads that bit of the mask. -/
theorem testRenderFlag_bit (s : OpenGLState) (k : Nat) :
    s.testRenderFlag (1 <<< k) = s.renderFlags.testBit k := by
  unfold OpenGLState.testRenderFlag
  rw [Nat.one_shiftLeft]
  cases h : s.renderFlags.testBit k with
  | true =>
    have hb : (s.renderFlags &&& 2 ^ k).testBit k = true := by
      simp [Nat.testBit_and, h, Nat.testBit_two_pow_self]
    have hne : s.renderFlags &&& 2 ^ k ≠ 0 := by
      intro h0
      rw [h0] at hb
      simp at hb
    simpa using hne
  | false =>
    have h0 : s.renderFlags &&& 2 ^ k = 0 := by
      apply Nat.eq_of_testBit_eq
      intro i
      rw [Nat.testBit_and, Nat.testBit_two_pow, Nat.zero_testBit]
      by_cases hki : k = i
      · subst hki; simp [h]
      · simp [hki]
    simp [h0]

namespace OpenGLShader

/-! ## Submitting renderables -/

/-- Submitting once per light of a list queues the lights' submissions in the
order of the list. -/
theorem foldl_addRenderable (renderable : OpenGLRenderable) (modelview : Matrix4)
    (entity : Option IRenderEntity) (lights : LightList) (pass : OpenGLShaderPass) :
    lights.foldl (fun p light => p.addRenderable renderable modelview (some light) entity) pass =
      { pass with renderables := pass.renderables ++
          lights.map fun light => ⟨renderable, modelview, some light, entity⟩ } := by
  induction lights generalizing pass with
  | nil => simp
  | cons l ls ih =>
    rw [List.foldl_cons, ih]
    simp [OpenGLShaderPass.addRenderable]

/-- Counting the queued submissions when bump passes gain `n` and the other
passes gain one. -/
theorem sum_fanout (passes : List OpenGLShaderPass) (f : OpenGLShaderPass → OpenGLShaderPass)
    (n : Nat)
    (hb : ∀ p ∈ passes, p.state.testRenderFlag RENDER_BUMP = true →
      (f p).renderables.length = p.renderables.length + n)
    (hk : ∀ p ∈ passes, p.state.testRenderFlag RENDER_BUMP = false →
      (f p).renderables.length = p.renderables.length + 1) :
    ((passes.map f).map fun p => p.renderables.length).sum =
      (passes.map fun p => p.renderables.length).sum +
        passes.countP (fun p => p.state.testRenderFlag RENDER_BUMP) * n +
        passes.countP (fun p => !p.state.testRenderFlag RENDER_BUMP) := by
  induction passes with
  | nil => simp
  | cons p ps ih =>
    have ih' := ih (fun q hq => hb q (List.mem_cons_of_mem _ hq))
      (fun q hq => hk q (List.mem_cons_of_mem _ hq))
    simp only [List.map_cons, List.sum_cons, ih', List.countP_cons]
    cases h : p.state.testRenderFlag RENDER_BUMP with
    | true => rw [hb p (List.mem_cons_self _ _) h]; simp; ring
    | false => rw [hk p (List.mem_cons_self _ _) h]; simp; ring

/-- C1: on a visible shader, `addRenderable` (either overload) with a light
list leaves the pass objects and their states alone and queues, behind what
is already queued, one submission per light (carrying that light, in the order
of the list) on every pass with `RENDER_BUMP`, and one submission without light
on every other pass; so the number of queued submissions grows by
`b * N + k` for `b` bump passes, `k` other passes and `N` lights. -/
theorem addRenderable_fans_out_per_light (s : OpenGLShader) (hvis : s.isVisible = true)
    (renderable : OpenGLRenderable) (modelview : Matrix4) (entity : IRenderEntity)
    (lights : LightList) :
    List.Forall₂
        (fun p q => q.id = p.id ∧ q.state = p.state ∧
          q.renderables = p.renderables ++
            if p.state.testRenderFlag RENDER_BUMP then
              lights.map fun light => ⟨renderable, modelview, some light, none⟩
            else [⟨renderable, modelview, none, none⟩])
        s.shaderPasses (s.addRenderable renderable modelview (some lights)).shaderPasses ∧
      List.Forall₂
        (fun p q => q.id = p.id ∧ q.state = p.state ∧
          q.renderables = p.renderables ++
            if p.state.testRenderFlag RENDER_BUMP then
              lights.map fun light => ⟨renderable, modelview, some light, some entity⟩
            else [⟨renderable, modelview, none, some entity⟩])
        s.shaderPasses
        (s.addRenderableEntity renderable modelview entity (some lights)).shaderPasses ∧
      (s.addRenderable renderable modelview (some lights)).queued =
        s.queued + s.shaderPasses.countP (fun p => p.state.testRenderFlag RENDER_BUMP) *
          lights.length + s.shaderPasses.countP (fun p => !p.state.testRenderFlag RENDER_BUMP) ∧
      (s.addRenderableEntity renderable modelview entity (some lights)).queued =
        s.queued + s.shaderPasses.countP (fun p => p.state.testRenderFlag RENDER_BUMP) *
          lights.length + s.shaderPasses.countP (fun p => !p.state.testRenderFlag RENDER_BUMP) := by
  refine ⟨?_, ?_, ?_, ?_⟩
  · simp only [addRenderable, hvis, foldl_addRenderable]
    simp only [Bool.not_true, Bool.false_eq_true, if_false, List.forall₂_map_right_iff]
    refine List.forall₂_same.2 fun p _ => ?_
    by_cases h : p.state.testRenderFlag RENDER_BUMP = true <;>
      simp [h, OpenGLShaderPass.addRenderable]
  · simp only [addRenderableEntity, hvis, foldl_addRenderable]
    simp only [Bool.not_true, Bool.false_eq_true, if_false, List.forall₂_map_right_iff]
    refine List.forall₂_same.2 fun p _ => ?_
    by_cases h : p.state.testRenderFlag RENDER_BUMP = true <;>
      simp [h, OpenGLShaderPass.addRenderable]
  · simp only [addRenderable, hvis, foldl_addRenderable, queued]
    simp only [Bool.not_true, Bool.false_eq_true, if_false]
    apply sum_fanout
    · intro p _ h; simp [h]
    · intro p _ h; simp [h, OpenGLShaderPass.addRenderable]
  · simp only [addRenderableEntity, hvis, foldl_addRenderable, queued]
    simp only [Bool.not_true, Bool.false_eq_true, if_false]
    apply sum_fanout
    · intro p _ h; simp [h]
    · intro p _ h; simp [h, OpenGLShaderPass.addRenderable]

/-- The sample shader with a depth-fill, an interaction and a blend pass is
visible; with three lights its one bump pass gains three submissions and its
two other passes gain one each. -/
theorem addRenderable_fans_out_per_light_witness :
    sampleLitShader.isVisible = true ∧
      (sampleLitShader.addRenderable 5 6 (some [1, 2, 3])).queued = 0 + 1 * 3 + 2 :=
  ⟨rfl, (addRenderable_fans_out_per_light sampleLitShader rfl 5 6 7 [1, 2, 3]).2.2.1⟩

/-- C2: a shader whose visibility flag is off ignores `addRenderable` (either
overload, any renderable, transform, entity and light list, null included):
the passes and their queues are the same after the call as before. -/
theorem addRenderable_invisible_ignored (s : OpenGLShader) (hvis : s.isVisible = false)
    (renderable : OpenGLRenderable) (modelview : Matrix4) (entity : IRenderEntity)
    (lights : Option LightList) :
    (s.addRenderable renderable modelview lights).shaderPasses = s.shaderPasses ∧
      (s.addRenderableEntity renderable modelview entity lights).shaderPasses =
        s.shaderPasses := by
  simp [addRenderable, addRenderableEntity, hvis]

/-- The hidden sample shader keeps its three passes with empty queues. -/
theorem addRenderable_invisible_ignored_witness :
    (sampleLitShader.setVisible false).isVisible = false ∧
      ((sampleLitShader.setVisible false).addRenderable 5 6 (some [1, 2, 3])).shaderPasses =
        (sampleLitShader.setVisible false).shaderPasses :=
  ⟨rfl, (addRenderable_invisible_ignored (sampleLitShader.setVisible false) rfl 5 6 7
    (some [1, 2, 3])).1⟩

/-! ## Appending passes -/

theorem freshPasses_map_state (c : Nat) (states : List OpenGLState) :
    (freshPasses c states).map (fun p => p.state) = states := by
  induction states generalizing c with
  | nil => rfl
  | cons st rest ih => simp [freshPasses, ih]

theorem freshPasses_map_id (c : Nat) (states : List OpenGLState) :
    (freshPasses c states).map (fun p => p.id) = List.range' c states.length := by
  induction states generalizing c with
  | nil => rfl
  | cons st rest ih => simp [freshPasses, ih, List.range'_succ]

theorem freshPasses_renderables (c : Nat) (states : List OpenGLState) :
    ∀ p ∈ freshPasses c states, p.renderables = [] := by
  induction states generalizing c with
  | nil => simp [freshPasses]
  | cons st rest ih =>
    intro p hp
    simp only [freshPasses, List.mem_cons] at hp
    rcases hp with rfl | hp
    · rfl
    · exact ih _ p hp

theorem appendStates_eq (s : OpenGLShader) (states : List OpenGLState) :
    s.appendStates states =
      { s with
        shaderPasses := s.shaderPasses ++ freshPasses s.renderSystem.passesCreated states
        renderSystem :=
          { s.renderSystem with passesCreated := s.renderSystem.passesCreated + states.length } } := by
  induction states generalizing s with
  | nil => simp [appendStates, freshPasses]
  | cons st rest ih =>
    have : s.appendStates (st :: rest) =
        OpenGLShader.appendStates
          { s with
            shaderPasses := s.shaderPasses ++
              [{ id := s.renderSystem.passesCreated, state := st, renderables := [] }]
            renderSystem :=
              { s.renderSystem with passesCreated := s.renderSystem.passesCreated + 1 } }
          rest := rfl
    rw [this, ih]
    simp [freshPasses, Nat.add_assoc, Nat.add_comm 1]

theorem appendStates_nil (s : OpenGLShader) : s.appendStates [] = s := rfl

theorem appendStates_append (s : OpenGLShader) (a b : List OpenGLState) :
    (s.appendStates a).appendStates b = s.appendStates (a ++ b) := by
  simp [appendStates, List.foldl_append]

theorem appendDefaultPass_eq (env : Env) (s : OpenGLShader) (f : OpenGLState → OpenGLState) :
    appendDefaultPass env s f = s.appendStates [f env.defaultState] := rfl

theorem appendInteractionLayer_eq (env : Env) (s : OpenGLShader) (t : DBSTriplet) :
    appendInteractionLayer env s t = s.appendStates (interactionStates env t) := by
  unfold appendInteractionLayer interactionStates
  simp only [appendDefaultPass_eq]
  split
  · rw [appendStates_append]
  · rfl

theorem lightingFinish_foldl_eq (env : Env) (material : Material) (layers : List ShaderLayer)
    (s : OpenGLShader) (t : DBSTriplet) :
    lightingFinish env (layers.foldl (lightingStep env material) (s, t)) =
      s.appendStates (lightingStates env material t layers) := by
  induction layers generalizing s t with
  | nil =>
    simp only [List.foldl_nil, lightingFinish, lightingStates, DBSTriplet.pending]
    split <;> simp [appendInteractionLayer_eq, appendStates_nil]
  | cons layer rest ih =>
    rw [List.foldl_cons]
    cases hty : layer.type <;>
      simp only [lightingStep, lightingStates, hty, DBSTriplet.pending] <;>
      split <;>
      simp [ih, appendInteractionLayer_eq, appendStates_append, appendBlendLayer,
        appendDefaultPass_eq]

theorem constructLighting_eq (env : Env) (s : OpenGLShader) (material : Material)
    (hm : s.material = some material) :
    constructLightingPassesFromMaterial env s =
      s.appendStates (lightingStates env material DBSTriplet.init material.layers) := by
  simp only [constructLightingPassesFromMaterial, hm, lightingFinish_foldl_eq]

theorem constructLighting_fresh (env : Env) (s : OpenGLShader) (material : Material)
    (hm : s.material = some material) :
    (constructLightingPassesFromMaterial env s).shaderPasses = s.shaderPasses ++
      freshPasses s.renderSystem.passesCreated
        (lightingStates env material DBSTriplet.init material.layers) := by
  rw [constructLighting_eq env s material hm, appendStates_eq]

/-- The passes the lighting construction appends, and their states. -/
theorem constructLighting_passes (env : Env) (s : OpenGLShader) (material : Material)
    (hm : s.material = some material) :
    ∃ new, (constructLightingPassesFromMaterial env s).shaderPasses = s.shaderPasses ++ new ∧
      new.map (fun p => p.state) =
        lightingStates env material DBSTriplet.init material.layers :=
  ⟨_, constructLighting_fresh env s material hm, freshPasses_map_state _ _⟩

/-! ## The passes of a triplet and of a blend layer -/

theorem configureInteraction_sort (env : Env) (t : DBSTriplet) (st : OpenGLState) :
    (configureInteraction env t st).sortPosition = .SORT_INTERACTION := rfl

theorem configureDepthFill_sort (st : OpenGLState) :
    (configureDepthFill st).sortPosition = .SORT_ZFILL := rfl

theorem applyAlphaTest_bit (st : OpenGLState) (a : ℚ) (k : Nat) (h : st.renderFlags.testBit k = true) :
    (applyAlphaTestToPass st a).renderFlags.testBit k = true := by
  unfold applyAlphaTestToPass
  split
  · simp [OpenGLState.setRenderFlag, Nat.testBit_or, h]
  · exact h

theorem configureInteraction_bump (env : Env) (t : DBSTriplet) (st : OpenGLState) :
    (configureInteraction env t st).testRenderFlag RENDER_BUMP = true := by
  have hb : RENDER_BUMP = 1 <<< 19 := rfl
  rw [hb, testRenderFlag_bit]
  unfold configureInteraction
  simp only [OpenGLState.setDepthFunc, OpenGLState.setSortPosition]
  have key : ∀ st' : OpenGLState, st'.renderFlags.testBit 19 = true →
      (match t.diffuse with
        | some d => st'.setColour d.colour
        | none => st').renderFlags.testBit 19 = true := by
    intro st' h
    cases t.diffuse <;> simpa [OpenGLState.setColour] using h
  apply key
  apply applyAlphaTest_bit
  have h19 : RENDER_BUMP.testBit 19 = true := by decide
  split
  · split <;>
      simp [OpenGLState.setRenderFlag, OpenGLState.setColourInverted, Nat.testBit_or, h19]
  · simp [OpenGLState.setRenderFlag, Nat.testBit_or, h19]

/-- The layer back-references of a state. -/
theorem stages_setRenderFlag (st : OpenGLState) (f : RenderStateFlags) :
    (st.setRenderFlag f).stage0 = st.stage0 ∧ (st.setRenderFlag f).stage1 = st.stage1 ∧
      (st.setRenderFlag f).stage2 = st.stage2 := ⟨rfl, rfl, rfl⟩

theorem stages_setColourInverted (st : OpenGLState) (b : Bool) :
    (st.setColourInverted b).stage0 = st.stage0 ∧ (st.setColourInverted b).stage1 = st.stage1 ∧
      (st.setColourInverted b).stage2 = st.stage2 := ⟨rfl, rfl, rfl⟩

theorem stages_setColour (st : OpenGLState) (c : Colour4) :
    (st.setColour c).stage0 = st.stage0 ∧ (st.setColour c).stage1 = st.stage1 ∧
      (st.setColour c).stage2 = st.stage2 := ⟨rfl, rfl, rfl⟩

theorem stages_setDepthFunc (st : OpenGLState) (f : GLenum) :
    (st.setDepthFunc f).stage0 = st.stage0 ∧ (st.setDepthFunc f).stage1 = st.stage1 ∧
      (st.setDepthFunc f).stage2 = st.stage2 := ⟨rfl, rfl, rfl⟩

theorem stages_setSortPosition (st : OpenGLState) (p : SortPosition) :
    (st.setSortPosition p).stage0 = st.stage0 ∧ (st.setSortPosition p).stage1 = st.stage1 ∧
      (st.setSortPosition p).stage2 = st.stage2 := ⟨rfl, rfl, rfl⟩

theorem stages_applyAlphaTest (st : OpenGLState) (a : ℚ) :
    (applyAlphaTestToPass st a).stage0 = st.stage0 ∧
      (applyAlphaTestToPass st a).stage1 = st.stage1 ∧
      (applyAlphaTestToPass st a).stage2 = st.stage2 := by
  unfold applyAlphaTestToPass
  split <;> exact ⟨rfl, rfl, rfl⟩

theorem configureInteraction_stages_aux (env : Env) (t : DBSTriplet) (st : OpenGLState) :
    (configureInteraction env t st).stage0 = (setGLTexturesFromTriplet env st t).stage0 ∧
      (configureInteraction env t st).stage1 = (setGLTexturesFromTriplet env st t).stage1 ∧
      (configureInteraction env t st).stage2 = (setGLTexturesFromTriplet env st t).stage2 := by
  unfold configureInteraction
  refine ⟨?_, ?_, ?_⟩ <;> cases t.diffuse <;>
    simp only [stages_setRenderFlag, stages_setColourInverted, stages_setColour,
      stages_setDepthFunc, stages_setSortPosition, stages_applyAlphaTest,
      apply_ite OpenGLState.stage0, apply_ite OpenGLState.stage1,
      apply_ite OpenGLState.stage2, ite_self]

theorem configureInteraction_stages (env : Env) (t : DBSTriplet) :
    (configureInteraction env t env.defaultState).stage0 = t.diffuse ∧
      (configureInteraction env t env.defaultState).stage1 = t.bump ∧
      (configureInteraction env t env.defaultState).stage2 = t.specular := by
  have key := configureInteraction_stages_aux env t env.defaultState
  rw [key.1, key.2.1, key.2.2]
  unfold setGLTexturesFromTriplet Env.defaultState
  rcases t with ⟨d, b, sp, n⟩
  cases d <;> cases b <;> cases sp <;> exact ⟨rfl, rfl, rfl⟩

/-- C3: for a material whose only layer is a DIFFUSE layer, the lighting
construction appends exactly one interaction pass (sort `INTERACTION`, with
`RENDER_BUMP`), preceded by exactly one depth-fill pass (sort `ZFILL`) when the
layer's alpha test is `<= 0` and by nothing when it is `> 0`; there is no
other new pass. -/
theorem single_diffuse_layer_passes (env : Env) (s : OpenGLShader) (material : Material)
    (d : ShaderLayer) (hm : s.material = some material) (hl : material.layers = [d])
    (hd : d.type = .DIFFUSE) :
    ∃ new, (constructLightingPassesFromMaterial env s).shaderPasses = s.shaderPasses ++ new ∧
      (d.alphaTest ≤ 0 →
        new.map (fun p => p.state.sortPosition) = [.SORT_ZFILL, .SORT_INTERACTION]) ∧
      (0 < d.alphaTest → new.map (fun p => p.state.sortPosition) = [.SORT_INTERACTION]) ∧
      ∀ p ∈ new, p.state.sortPosition = .SORT_INTERACTION →
        p.state.testRenderFlag RENDER_BUMP = true := by
  obtain ⟨new, hnew, hst⟩ := constructLighting_passes env s material hm
  have hsort : new.map (fun p => p.state.sortPosition) =
      (new.map fun p => p.state).map fun st => st.sortPosition := by simp
  have hstates : new.map (fun p => p.state) =
      (if d.alphaTest ≤ 0 then [configureDepthFill env.defaultState] else []) ++
        [configureInteraction env ⟨some d, none, none, true⟩ env.defaultState] := by
    rw [hst, hl]
    simp [lightingStates, hd, DBSTriplet.init, DBSTriplet.pending, interactionStates,
      DBSTriplet.alphaTest]
  refine ⟨new, hnew, ?_, ?_, ?_⟩
  · intro h
    rw [hsort, hstates, if_pos h]
    rfl
  · intro h
    rw [hsort, hstates, if_neg (not_le.2 h)]
    rfl
  · intro p hp hs
    have hmem : p.state ∈ new.map (fun p => p.state) := List.mem_map_of_mem _ hp
    rw [hstates] at hmem
    simp only [List.mem_append, List.mem_singleton] at hmem
    rcases hmem with hz | hi
    · split at hz
      · simp only [List.mem_singleton] at hz
        rw [hz, configureDepthFill_sort] at hs
        cases hs
      · simp at hz
    · rw [hi]
      exact configureInteraction_bump _ _ _

theorem configureBlend_sort (env : Env) (material : Material) (layer : ShaderLayer)
    (st : OpenGLState) :
    (configureBlend env material layer st).sortPosition =
      if material.sortRequest ≥ env.SORT_DECAL then .SORT_OVERLAY_FIRST
      else .SORT_FULLBRIGHT := by
  unfold configureBlend
  simp only []
  split <;> rfl

theorem configureBlend_stage0 (env : Env) (material : Material) (layer : ShaderLayer)
    (st : OpenGLState) : (configureBlend env material layer st).stage0 = some layer := by
  unfold configureBlend
  simp only []
  split <;> split <;> split <;> rfl

/-- The sample material with one diffuse layer without alpha test gets a
depth-fill pass and an interaction pass. -/
theorem single_diffuse_layer_passes_witness :
    (sampleShaderWith [sampleLayer 1 .DIFFUSE 0]).material =
        some (sampleMaterial "textures/sample" [sampleLayer 1 .DIFFUSE 0]) ∧
      (sampleLayer 1 .DIFFUSE 0).type = .DIFFUSE ∧
      ∃ new, (constructLightingPassesFromMaterial (sampleEnv [])
          (sampleShaderWith [sampleLayer 1 .DIFFUSE 0])).shaderPasses =
            (sampleShaderWith [sampleLayer 1 .DIFFUSE 0]).shaderPasses ++ new ∧
        new.map (fun p => p.state.sortPosition) = [.SORT_ZFILL, .SORT_INTERACTION] := by
  obtain ⟨new, h, hz, _, _⟩ := single_diffuse_layer_passes (sampleEnv [])
    (sampleShaderWith [sampleLayer 1 .DIFFUSE 0])
    (sampleMaterial "textures/sample" [sampleLayer 1 .DIFFUSE 0]) (sampleLayer 1 .DIFFUSE 0)
    rfl rfl rfl
  exact ⟨rfl, rfl, new, h, hz (le_refl 0)⟩

/-- C4: for a material whose layers are `[DIFFUSE, BUMP, SPECULAR]`, the
lighting construction appends exactly one interaction pass, whose `stage0`,
`stage1` and `stage2` are the diffuse, bump and specular layer; the triplet is
flushed once, so the new passes are that pass and at most a depth-fill pass
ahead of it. -/
theorem diffuse_bump_specular_one_interaction (env : Env) (s : OpenGLShader)
    (material : Material) (d b sp : ShaderLayer) (hm : s.material = some material)
    (hl : material.layers = [d, b, sp]) (hd : d.type = .DIFFUSE) (hb : b.type = .BUMP)
    (hs : sp.type = .SPECULAR) :
    ∃ new, (constructLightingPassesFromMaterial env s).shaderPasses = s.shaderPasses ++ new ∧
      (new.map (fun p => p.state.sortPosition) = [.SORT_ZFILL, .SORT_INTERACTION] ∨
        new.map (fun p => p.state.sortPosition) = [.SORT_INTERACTION]) ∧
      ∃ i, new.filter (fun p => decide (p.state.sortPosition = .SORT_INTERACTION)) = [i] ∧
        i.state.stage0 = some d ∧ i.state.stage1 = some b ∧ i.state.stage2 = some sp := by
  refine ⟨_, constructLighting_fresh env s material hm, ?_⟩
  have hst := configureInteraction_stages env ⟨some d, some b, some sp, true⟩
  rw [hl]
  by_cases ha : d.alphaTest ≤ 0
  · simp [lightingStates, hd, hb, hs, DBSTriplet.init, DBSTriplet.pending, interactionStates,
      DBSTriplet.alphaTest, ha, freshPasses, configureInteraction_sort, configureDepthFill_sort]
    exact hst
  · simp [lightingStates, hd, hb, hs, DBSTriplet.init, DBSTriplet.pending, interactionStates,
      DBSTriplet.alphaTest, ha, freshPasses, configureInteraction_sort]
    exact hst

/-- The sample material with a diffuse, a bump and a specular layer gets one
interaction pass referring to the three of them. -/
theorem diffuse_bump_specular_one_interaction_witness :
    (sampleLayer 1 .DIFFUSE 0).type = .DIFFUSE ∧ (sampleLayer 2 .BUMP 0).type = .BUMP ∧
      (sampleLayer 3 .SPECULAR 0).type = .SPECULAR ∧
      ∃ new i, (constructLightingPassesFromMaterial (sampleEnv [])
          (sampleShaderWith [sampleLayer 1 .DIFFUSE 0, sampleLayer 2 .BUMP 0,
            sampleLayer 3 .SPECULAR 0])).shaderPasses = [] ++ new ∧
        new.filter (fun p => decide (p.state.sortPosition = .SORT_INTERACTION)) = [i] ∧
        i.state.stage0 = some (sampleLayer 1 .DIFFUSE 0) ∧
        i.state.stage1 = some (sampleLayer 2 .BUMP 0) ∧
        i.state.stage2 = some (sampleLayer 3 .SPECULAR 0) := by
  obtain ⟨new, h, _, i, hi⟩ := diffuse_bump_specular_one_interaction (sampleEnv [])
    (sampleShaderWith [sampleLayer 1 .DIFFUSE 0, sampleLayer 2 .BUMP 0,
      sampleLayer 3 .SPECULAR 0])
    (sampleMaterial "textures/sample" [sampleLayer 1 .DIFFUSE 0, sampleLayer 2 .BUMP 0,
      sampleLayer 3 .SPECULAR 0])
    (sampleLayer 1 .DIFFUSE 0) (sampleLayer 2 .BUMP 0) (sampleLayer 3 .SPECULAR 0)
    rfl rfl rfl rfl rfl
  exact ⟨rfl, rfl, rfl, new, i, h, hi⟩

/-- C5: for a material whose layers are `[DIFFUSE, DIFFUSE]`, the lighting
construction appends exactly two interaction passes, the first with the first
diffuse layer as `stage0`, the second with the second diffuse layer as
`stage0`. -/
theorem diffuse_diffuse_two_interactions (env : Env) (s : OpenGLShader)
    (material : Material) (d₁ d₂ : ShaderLayer) (hm : s.material = some material)
    (hl : material.layers = [d₁, d₂]) (h₁ : d₁.type = .DIFFUSE) (h₂ : d₂.type = .DIFFUSE) :
    ∃ new, (constructLightingPassesFromMaterial env s).shaderPasses = s.shaderPasses ++ new ∧
      ∃ i₁ i₂, new.filter (fun p => decide (p.state.sortPosition = .SORT_INTERACTION)) =
          [i₁, i₂] ∧
        i₁.state.stage0 = some d₁ ∧ i₂.state.stage0 = some d₂ := by
  refine ⟨_, constructLighting_fresh env s material hm, ?_⟩
  have hst₁ := (configureInteraction_stages env ⟨some d₁, none, none, true⟩).1
  have hst₂ := (configureInteraction_stages env ⟨some d₂, none, none, false⟩).1
  rw [hl]
  by_cases ha : d₁.alphaTest ≤ 0
  · simp [lightingStates, h₁, h₂, DBSTriplet.init, DBSTriplet.pending, interactionStates,
      DBSTriplet.alphaTest, DBSTriplet.reset, ha, freshPasses, configureInteraction_sort,
      configureDepthFill_sort]
    exact ⟨_, _, ⟨rfl, rfl⟩, hst₁, hst₂⟩
  · simp [lightingStates, h₁, h₂, DBSTriplet.init, DBSTriplet.pending, interactionStates,
      DBSTriplet.alphaTest, DBSTriplet.reset, ha, freshPasses, configureInteraction_sort]
    exact ⟨_, _, ⟨rfl, rfl⟩, hst₁, hst₂⟩

/-- The sample material with two diffuse layers gets two interaction passes. -/
theorem diffuse_diffuse_two_interactions_witness :
    (sampleLayer 1 .DIFFUSE 0).type = .DIFFUSE ∧ (sampleLayer 2 .DIFFUSE 0).type = .DIFFUSE ∧
      ∃ new i₁ i₂, (constructLightingPassesFromMaterial (sampleEnv [])
          (sampleShaderWith [sampleLayer 1 .DIFFUSE 0, sampleLayer 2 .DIFFUSE 0])).shaderPasses =
            [] ++ new ∧
        new.filter (fun p => decide (p.state.sortPosition = .SORT_INTERACTION)) = [i₁, i₂] ∧
        i₁.state.stage0 = some (sampleLayer 1 .DIFFUSE 0) ∧
        i₂.state.stage0 = some (sampleLayer 2 .DIFFUSE 0) := by
  obtain ⟨new, h, i₁, i₂, hi⟩ := diffuse_diffuse_two_interactions (sampleEnv [])
    (sampleShaderWith [sampleLayer 1 .DIFFUSE 0, sampleLayer 2 .DIFFUSE 0])
    (sampleMaterial "textures/sample" [sampleLayer 1 .DIFFUSE 0, sampleLayer 2 .DIFFUSE 0])
    (sampleLayer 1 .DIFFUSE 0) (sampleLayer 2 .DIFFUSE 0) rfl rfl rfl rfl
  exact ⟨rfl, rfl, new, i₁, i₂, h, hi⟩

/-- C6, as the claim states it, fails: for the layers `[DIFFUSE, BLEND]` with a
diffuse layer without alpha test the lighting construction makes three passes,
a depth-fill pass ahead of the interaction pass and the blend pass. -/
theorem diffuse_blend_three_passes :
    sampleLitShader.material.map (fun m => m.layers.map fun l => l.type) =
        some [.DIFFUSE, .BLEND] ∧
      sampleLitShader.shaderPasses.map (fun p => p.state.sortPosition) =
        [.SORT_ZFILL, .SORT_INTERACTION, .SORT_FULLBRIGHT] ∧
      sampleLitShader.shaderPasses.length ≠ 2 := by
  decide

/-- C6 (amended): for a material whose layers are `[DIFFUSE, BLEND]`, the
lighting construction appends, in this order, a depth-fill pass when the
diffuse layer's alpha test is `<= 0`, the interaction pass built from the
DIFFUSE triplet, and the pass built from the BLEND layer: two passes when the
alpha test is `> 0`, three when it is `<= 0`. -/
theorem diffuse_blend_passes (env : Env) (s : OpenGLShader)
    (material : Material) (d b : ShaderLayer) (hm : s.material = some material)
    (hl : material.layers = [d, b]) (hd : d.type = .DIFFUSE) (hb : b.type = .BLEND) :
    ∃ new, (constructLightingPassesFromMaterial env s).shaderPasses = s.shaderPasses ++ new ∧
      new.map (fun p => p.state) =
        (if d.alphaTest ≤ 0 then [configureDepthFill env.defaultState] else []) ++
          [configureInteraction env ⟨some d, none, none, true⟩ env.defaultState,
            configureBlend env material b env.defaultState] ∧
      (0 < d.alphaTest → new.length = 2) ∧ (d.alphaTest ≤ 0 → new.length = 3) := by
  refine ⟨_, constructLighting_fresh env s material hm, ?_⟩
  rw [hl]
  by_cases ha : d.alphaTest ≤ 0
  · simp [lightingStates, hd, hb, DBSTriplet.init, DBSTriplet.pending, interactionStates,
      DBSTriplet.alphaTest, DBSTriplet.reset, ha, freshPasses]
  · simp [lightingStates, hd, hb, DBSTriplet.init, DBSTriplet.pending, interactionStates,
      DBSTriplet.alphaTest, DBSTriplet.reset, ha, freshPasses]
theorem configureBlend_not_triplet (env : Env) (material : Material) (layer : ShaderLayer)
    (st : OpenGLState) : (configureBlend env material layer st).isTripletPass = false := by
  unfold OpenGLState.isTripletPass
  rw [configureBlend_sort]
  split <;> rfl

theorem interactionStates_filter (env : Env) (t : DBSTriplet) :
    (interactionStates env t).filter (fun st => !st.isTripletPass) = [] := by
  unfold interactionStates
  split <;> rfl

theorem lightingStates_filter (env : Env) (material : Material) (layers : List ShaderLayer)
    (t : DBSTriplet) :
    (lightingStates env material t layers).filter (fun st => !st.isTripletPass) =
      (layers.filter fun l => decide (l.type = .BLEND)).map
        fun l => configureBlend env material l env.defaultState := by
  induction layers generalizing t with
  | nil =>
    simp only [lightingStates]
    split
    · simpa using interactionStates_filter env t
    · rfl
  | cons layer rest ih =>
    have hne := configureBlend_not_triplet env material layer env.defaultState
    cases hty : layer.type <;> simp only [lightingStates, hty] <;> split <;>
      simp [List.filter_append, interactionStates_filter, ih, hty, List.filter_cons, hne]

theorem interactionStates_stages (env : Env) (t : DBSTriplet) (st : OpenGLState)
    (hst : st ∈ interactionStates env t) (hsort : st.sortPosition = .SORT_INTERACTION) :
    st.stage0 = t.diffuse ∧ st.stage1 = t.bump ∧ st.stage2 = t.specular := by
  unfold interactionStates at hst
  simp only [List.mem_append, List.mem_singleton] at hst
  rcases hst with hz | hi
  · split at hz
    · simp only [List.mem_singleton] at hz
      rw [hz, configureDepthFill_sort] at hsort
      cases hsort
    · simp at hz
  · rw [hi]
    exact configureInteraction_stages env t

theorem lightingStates_no_blend (env : Env) (material : Material) (layers : List ShaderLayer)
    (t : DBSTriplet)
    (htd : ∀ l, t.diffuse = some l → l.type ≠ .BLEND)
    (htb : ∀ l, t.bump = some l → l.type ≠ .BLEND)
    (hts : ∀ l, t.specular = some l → l.type ≠ .BLEND) :
    ∀ st ∈ lightingStates env material t layers, st.sortPosition = .SORT_INTERACTION →
      ∀ l, st.stage0 = some l ∨ st.stage1 = some l ∨ st.stage2 = some l → l.type ≠ .BLEND := by
  induction layers generalizing t with
  | nil =>
    intro st hst hsort l hl
    simp only [lightingStates] at hst
    split at hst
    · obtain ⟨h0, h1, h2⟩ := interactionStates_stages env t st hst hsort
      rcases hl with hl | hl | hl
      · exact htd l (h0 ▸ hl)
      · exact htb l (h1 ▸ hl)
      · exact hts l (h2 ▸ hl)
    · simp at hst
  | cons layer rest ih =>
    have flush : ∀ st ∈ interactionStates env t, st.sortPosition = .SORT_INTERACTION →
        ∀ l, st.stage0 = some l ∨ st.stage1 = some l ∨ st.stage2 = some l →
          l.type ≠ .BLEND := by
      intro st hst hsort l hl
      obtain ⟨h0, h1, h2⟩ := interactionStates_stages env t st hst hsort
      rcases hl with hl | hl | hl
      · exact htd l (h0 ▸ hl)
      · exact htb l (h1 ▸ hl)
      · exact hts l (h2 ▸ hl)
    have hreset : ∀ l : ShaderLayer, (none : Option ShaderLayer) = some l → l.type ≠ .BLEND := by
      intro l h; cases h
    have hlayer : layer.type ≠ .BLEND → ∀ l, some layer = some l → l.type ≠ .BLEND := by
      intro h2 l h
      cases h
      exact h2
    intro st hst
    cases hty : layer.type <;> simp only [lightingStates, hty] at hst <;> split at hst
    · rcases List.mem_append.1 hst with h | h
      · exact flush st h
      · exact ih ⟨some layer, none, none, false⟩ (hlayer (by simp [hty])) hreset hreset st h
    · exact ih ⟨some layer, t.bump, t.specular, t.needDepthFill⟩ (hlayer (by simp [hty]))
        htb hts st hst
    · rcases List.mem_append.1 hst with h | h
      · exact flush st h
      · exact ih ⟨none, some layer, none, false⟩ hreset (hlayer (by simp [hty])) hreset st h
    · exact ih ⟨t.diffuse, some layer, t.specular, t.needDepthFill⟩ htd
        (hlayer (by simp [hty])) hts st hst
    · rcases List.mem_append.1 hst with h | h
      · exact flush st h
      · exact ih ⟨none, none, some layer, false⟩ hreset hreset (hlayer (by simp [hty])) st h
    · exact ih ⟨t.diffuse, t.bump, some layer, t.needDepthFill⟩ htd htb
        (hlayer (by simp [hty])) st hst
    · rcases List.mem_append.1 hst with h | h
      · exact flush st h
      · rcases List.mem_cons.1 h with h | h
        · intro hsort
          rw [h, configureBlend_sort] at hsort
          split at hsort <;> cases hsort
        · exact ih _ hreset hreset hreset st h
    · rcases List.mem_cons.1 hst with h | h
      · intro hsort
        rw [h, configureBlend_sort] at hsort
        split at hsort <;> cases hsort
      · exact ih _ htd htb hts st h

/-- One iteration of the loop appends passes to the shader, namely those the
list of states foresees for this layer. -/
theorem lightingStep_emits (env : Env) (material : Material) (s : OpenGLShader)
    (t : DBSTriplet) (layer : ShaderLayer) :
    ∃ emitted, (lightingStep env material (s, t) layer).1 = s.appendStates emitted ∧
      ∀ rest, lightingStates env material t (layer :: rest) =
        emitted ++ lightingStates env material (lightingStep env material (s, t) layer).2 rest := by
  cases hty : layer.type
  · by_cases hp : t.diffuse.isSome = true
    · refine ⟨interactionStates env t, ?_, fun rest => ?_⟩
      · simp only [lightingStep, hty, hp, if_true, appendInteractionLayer_eq]
      · simp only [lightingStep, lightingStates, hty, hp, if_true]
    · refine ⟨[], ?_, fun rest => ?_⟩
      · simp only [lightingStep, hty, hp]; rfl
      · simp only [lightingStep, lightingStates, hty, hp]; rfl
  · by_cases hp : t.bump.isSome = true
    · refine ⟨interactionStates env t, ?_, fun rest => ?_⟩
      · simp only [lightingStep, hty, hp, if_true, appendInteractionLayer_eq]
      · simp only [lightingStep, lightingStates, hty, hp, if_true]
    · refine ⟨[], ?_, fun rest => ?_⟩
      · simp only [lightingStep, hty, hp]; rfl
      · simp only [lightingStep, lightingStates, hty, hp]; rfl
  · by_cases hp : t.specular.isSome = true
    · refine ⟨interactionStates env t, ?_, fun rest => ?_⟩
      · simp only [lightingStep, hty, hp, if_true, appendInteractionLayer_eq]
      · simp only [lightingStep, lightingStates, hty, hp, if_true]
    · refine ⟨[], ?_, fun rest => ?_⟩
      · simp only [lightingStep, hty, hp]; rfl
      · simp only [lightingStep, lightingStates, hty, hp]; rfl
  · by_cases hp : t.pending = true
    · refine ⟨interactionStates env t ++ [configureBlend env material layer env.defaultState],
        ?_, fun rest => ?_⟩
      · simp only [lightingStep, hty, hp, if_true, appendInteractionLayer_eq, appendBlendLayer,
          appendDefaultPass_eq, appendStates_append]
      · simp only [lightingStep, lightingStates, hty, hp, if_true, List.append_assoc,
          List.singleton_append]
    · refine ⟨[configureBlend env material layer env.defaultState], ?_, fun rest => ?_⟩
      · simp only [lightingStep, hty, hp, appendBlendLayer, appendDefaultPass_eq]; rfl
      · simp only [lightingStep, lightingStates, hty, hp]; rfl

/-- The loop only appends passes, and what it has appended when a prefix of the
layers has been consumed is a prefix of what it appends in the end. -/
theorem lightingStep_foldl_prefix (env : Env) (material : Material) (pre : List ShaderLayer)
    (s : OpenGLShader) (t : DBSTriplet) :
    ∃ emitted, (pre.foldl (lightingStep env material) (s, t)).1 = s.appendStates emitted ∧
      ∀ rest, lightingStates env material t (pre ++ rest) =
        emitted ++ lightingStates env material
          (pre.foldl (lightingStep env material) (s, t)).2 rest := by
  induction pre generalizing s t with
  | nil => exact ⟨[], rfl, fun rest => rfl⟩
  | cons layer pre ih =>
    obtain ⟨e, he, hr⟩ := lightingStep_emits env material s t layer
    obtain ⟨e', he', hr'⟩ := ih (lightingStep env material (s, t) layer).1
      (lightingStep env material (s, t) layer).2
    refine ⟨e ++ e', ?_, fun rest => ?_⟩
    · rw [List.foldl_cons, ← appendStates_append, ← he]
      exact he'
    · rw [List.foldl_cons, List.cons_append, hr, List.append_assoc]
      exact congrArg _ (hr' rest)

/-- With an alpha-tested diffuse layer the sample material gets the two passes
only. -/
theorem diffuse_blend_passes_witness :
    (sampleLayer 1 .DIFFUSE (1 / 2)).type = .DIFFUSE ∧ (sampleLayer 2 .BLEND 0).type = .BLEND ∧
      ∃ new, (constructLightingPassesFromMaterial (sampleEnv [])
          (sampleShaderWith [sampleLayer 1 .DIFFUSE (1 / 2), sampleLayer 2 .BLEND 0])).shaderPasses =
            [] ++ new ∧
        new.length = 2 := by
  obtain ⟨new, h, _, h2, _⟩ := diffuse_blend_passes (sampleEnv [])
    (sampleShaderWith [sampleLayer 1 .DIFFUSE (1 / 2), sampleLayer 2 .BLEND 0])
    (sampleMaterial "textures/sample" [sampleLayer 1 .DIFFUSE (1 / 2), sampleLayer 2 .BLEND 0])
    (sampleLayer 1 .DIFFUSE (1 / 2)) (sampleLayer 2 .BLEND 0) rfl rfl rfl rfl
  exact ⟨rfl, rfl, new, h, h2 (show (0 : ℚ) < 1 / 2 by simp)⟩

/-- C7: for every layer list, the passes of the lighting construction other
than depth-fill and interaction passes are exactly the blend passes of the
BLEND layers, one per layer in declared order, each with its layer as `stage0`;
no interaction pass refers to a BLEND layer; and when a BLEND layer is reached
while the triplet holds some layer, the interaction pass of that triplet sits
right before the pass of that BLEND layer. -/
theorem blend_layers_become_independent_passes (env : Env) (s : OpenGLShader)
    (material : Material) (hm : s.material = some material) :
    ∃ new, (constructLightingPassesFromMaterial env s).shaderPasses = s.shaderPasses ++ new ∧
      (new.filter fun p => !p.state.isTripletPass).map (fun p => p.state) =
        (material.layers.filter fun l => decide (l.type = .BLEND)).map
          (fun l => configureBlend env material l env.defaultState) ∧
      (new.filter fun p => !p.state.isTripletPass).map (fun p => p.state.stage0) =
        (material.layers.filter fun l => decide (l.type = .BLEND)).map some ∧
      (∀ p ∈ new, p.state.sortPosition = .SORT_INTERACTION →
        ∀ l, p.state.stage0 = some l ∨ p.state.stage1 = some l ∨ p.state.stage2 = some l →
          l.type ≠ .BLEND) ∧
      ∀ pre b post, material.layers = pre ++ b :: post → b.type = .BLEND →
        ∀ t, t = (pre.foldl (lightingStep env material) (s, DBSTriplet.init)).2 →
          t.pending = true →
          ∃ before i rest,
            new.map (fun p => p.state) =
              before ++ i :: configureBlend env material b env.defaultState :: rest ∧
            i.sortPosition = .SORT_INTERACTION ∧
            i.stage0 = t.diffuse ∧ i.stage1 = t.bump ∧ i.stage2 = t.specular := by
  refine ⟨_, constructLighting_fresh env s material hm, ?_, ?_, ?_, ?_⟩
  · have h := lightingStates_filter env material material.layers DBSTriplet.init
    rw [← h]
    conv_rhs => rw [← freshPasses_map_state s.renderSystem.passesCreated
      (lightingStates env material DBSTriplet.init material.layers)]
    rw [List.filter_map]
    rfl
  · have h := lightingStates_filter env material material.layers DBSTriplet.init
    have h2 : (List.filter (fun p => !p.state.isTripletPass)
        (freshPasses s.renderSystem.passesCreated
          (lightingStates env material DBSTriplet.init material.layers))).map
          (fun p => p.state) =
        (material.layers.filter fun l => decide (l.type = .BLEND)).map
          (fun l => configureBlend env material l env.defaultState) := by
      rw [← h]
      conv_rhs => rw [← freshPasses_map_state s.renderSystem.passesCreated
        (lightingStates env material DBSTriplet.init material.layers)]
      rw [List.filter_map]
      rfl
    have h3 := congrArg (List.map fun st : OpenGLState => st.stage0) h2
    simp only [List.map_map] at h3
    rw [show (fun p : OpenGLShaderPass => p.state.stage0) =
      (fun st : OpenGLState => st.stage0) ∘ fun p => p.state from rfl, h3]
    apply List.map_congr_left
    intro l _
    exact configureBlend_stage0 env material l env.defaultState
  · intro p hp
    have hmem : p.state ∈ lightingStates env material DBSTriplet.init material.layers := by
      have := List.mem_map_of_mem (fun p : OpenGLShaderPass => p.state) hp
      rwa [freshPasses_map_state] at this
    exact lightingStates_no_blend env material material.layers DBSTriplet.init
      (fun l h => by cases h) (fun l h => by cases h) (fun l h => by cases h) p.state hmem
  · intro pre b post hl hb t ht hp
    obtain ⟨e, _, hr⟩ := lightingStep_foldl_prefix env material pre s DBSTriplet.init
    rw [freshPasses_map_state, hl, hr (b :: post), ← ht]
    have hflush : lightingStates env material t (b :: post) =
        interactionStates env t ++ configureBlend env material b env.defaultState ::
          lightingStates env material t.reset post := by
      simp only [lightingStates, hb, hp, if_true]
    rw [hflush]
    refine ⟨e ++ (if t.needDepthFill && decide (t.alphaTest ≤ 0) then
        [configureDepthFill env.defaultState] else []),
      configureInteraction env t env.defaultState, lightingStates env material t.reset post,
      ?_, rfl, configureInteraction_stages env t⟩
    simp [interactionStates]

/-- The blend layer of the sample material `[DIFFUSE, BLEND]` is the `stage0` of
the one pass that is not a triplet pass. -/
theorem blend_layers_become_independent_passes_witness :
    (sampleShaderWith [sampleLayer 1 .DIFFUSE 0, sampleLayer 2 .BLEND 0]).material =
        some (sampleMaterial "textures/sample" [sampleLayer 1 .DIFFUSE 0, sampleLayer 2 .BLEND 0]) ∧
      ∃ new, (constructLightingPassesFromMaterial (sampleEnv [])
          (sampleShaderWith [sampleLayer 1 .DIFFUSE 0, sampleLayer 2 .BLEND 0])).shaderPasses =
            [] ++ new ∧
        (new.filter fun p => !p.state.isTripletPass).map (fun p => p.state.stage0) =
          [some (sampleLayer 2 .BLEND 0)] := by
  obtain ⟨new, h, _, h0, _⟩ := blend_layers_become_independent_passes (sampleEnv [])
    (sampleShaderWith [sampleLayer 1 .DIFFUSE 0, sampleLayer 2 .BLEND 0])
    (sampleMaterial "textures/sample" [sampleLayer 1 .DIFFUSE 0, sampleLayer 2 .BLEND 0]) rfl
  exact ⟨rfl, new, h, h0⟩

end OpenGLShader

/-! ## The registry of sorted states -/

theorem mem_insertByRank (e x : SortedState) (l : List SortedState) :
    x ∈ insertByRank e l ↔ x = e ∨ x ∈ l := by
  induction l with
  | nil => simp [insertByRank]
  | cons y ys ih =>
    unfold insertByRank
    split
    · simp only [List.mem_cons, ih]
      tauto
    · simp only [List.mem_cons]

theorem insertByRank_sorted (e : SortedState) (l : List SortedState)
    (h : l.Pairwise fun a b => a.sortPosition.rank ≤ b.sortPosition.rank) :
    (insertByRank e l).Pairwise fun a b => a.sortPosition.rank ≤ b.sortPosition.rank := by
  induction l with
  | nil => simp [insertByRank]
  | cons y ys ih =>
    rw [List.pairwise_cons] at h
    unfold insertByRank
    split
    · next hle =>
      rw [List.pairwise_cons]
      refine ⟨?_, ih h.2⟩
      intro x hx
      rcases (mem_insertByRank e x ys).1 hx with rfl | hx
      · exact hle
      · exact h.1 x hx
    · next hlt =>
      have hlt' : e.sortPosition.rank ≤ y.sortPosition.rank := by omega
      rw [List.pairwise_cons]
      refine ⟨?_, List.pairwise_cons.2 h⟩
      intro x hx
      rcases List.mem_cons.1 hx with rfl | hx
      · exact hlt'
      · exact le_trans hlt' (h.1 x hx)

theorem insertByRank_keys (e : SortedState) (l : List SortedState)
    (hnew : ∀ x ∈ l, x.pass ≠ e.pass) (h : (l.map fun x => x.pass).Nodup) :
    ((insertByRank e l).map fun x => x.pass).Nodup := by
  induction l with
  | nil => simp [insertByRank]
  | cons y ys ih =>
    simp only [List.map_cons, List.nodup_cons, List.mem_map, not_exists, not_and] at h
    unfold insertByRank
    split
    · simp only [List.map_cons, List.nodup_cons, List.mem_map, not_exists, not_and]
      refine ⟨?_, ih (fun x hx => hnew x (List.mem_cons_of_mem _ hx)) h.2⟩
      intro x hx
      rcases (mem_insertByRank e x ys).1 hx with rfl | hx
      · exact fun hxy => hnew y (List.mem_cons_self _ _) hxy.symm
      · exact h.1 x hx
    · simp only [List.map_cons, List.nodup_cons, List.mem_cons, List.mem_map, not_exists,
        not_and, not_or]
      refine ⟨⟨fun hey => hnew y (List.mem_cons_self _ _) hey.symm, ?_⟩, h.1, h.2⟩
      intro x hx hxe
      exact hnew x (List.mem_cons_of_mem _ hx) hxe

namespace OpenGLRenderSystem

theorem mem_insertSortedState (rs : OpenGLRenderSystem) (e x : SortedState) :
    x ∈ (rs.insertSortedState e).sortedStates ↔
      x ∈ rs.sortedStates ∨ (x = e ∧ ∀ y ∈ rs.sortedStates, y.pass ≠ e.pass) := by
  unfold insertSortedState
  split
  · next h =>
    simp only [List.any_eq_true, beq_iff_eq] at h
    obtain ⟨y, hy, hye⟩ := h
    constructor
    · exact Or.inl
    · rintro (h | ⟨_, h⟩)
      · exact h
      · exact absurd hye (h y hy)
  · next h =>
    simp only [List.any_eq_true, beq_iff_eq, not_exists, not_and] at h
    simp only [mem_insertByRank]
    constructor
    · rintro (rfl | hx)
      · exact Or.inr ⟨rfl, h⟩
      · exact Or.inl hx
    · rintro (hx | ⟨rfl, _⟩)
      · exact Or.inr hx
      · exact Or.inl rfl

theorem insertSortedState_sorted (rs : OpenGLRenderSystem) (e : SortedState)
    (h : rs.sortedStates.Pairwise fun a b => a.sortPosition.rank ≤ b.sortPosition.rank) :
    (rs.insertSortedState e).sortedStates.Pairwise
      fun a b => a.sortPosition.rank ≤ b.sortPosition.rank := by
  unfold insertSortedState
  split
  · exact h
  · exact insertByRank_sorted e _ h

theorem insertSortedState_keys (rs : OpenGLRenderSystem) (e : SortedState)
    (h : (rs.sortedStates.map fun x => x.pass).Nodup) :
    ((rs.insertSortedState e).sortedStates.map fun x => x.pass).Nodup := by
  unfold insertSortedState
  split
  · exact h
  · next hn =>
    simp only [List.any_eq_true, beq_iff_eq, not_exists, not_and] at hn
    exact insertByRank_keys e _ hn h

theorem insertSortedState_created (rs : OpenGLRenderSystem) (e : SortedState) :
    (rs.insertSortedState e).passesCreated = rs.passesCreated := by
  unfold insertSortedState
  split <;> rfl

theorem mem_eraseSortedState (rs : OpenGLRenderSystem) (k : Nat) (x : SortedState) :
    x ∈ (rs.eraseSortedState k).sortedStates ↔ x ∈ rs.sortedStates ∧ x.pass ≠ k := by
  simp [eraseSortedState]

theorem eraseSortedState_sorted (rs : OpenGLRenderSystem) (k : Nat)
    (h : rs.sortedStates.Pairwise fun a b => a.sortPosition.rank ≤ b.sortPosition.rank) :
    (rs.eraseSortedState k).sortedStates.Pairwise
      fun a b => a.sortPosition.rank ≤ b.sortPosition.rank :=
  List.Pairwise.filter _ h

theorem eraseSortedState_keys (rs : OpenGLRenderSystem) (k : Nat)
    (h : (rs.sortedStates.map fun x => x.pass).Nodup) :
    ((rs.eraseSortedState k).sortedStates.map fun x => x.pass).Nodup := by
  unfold eraseSortedState
  exact h.sublist ((List.filter_sublist _).map _)

end OpenGLRenderSystem

namespace OpenGLShader

/-! ### `insertPasses` and `removePasses` as folds over the registry -/

theorem foldl_insert_created (ps : List OpenGLShaderPass) (rs : OpenGLRenderSystem) :
    (ps.foldl (fun rs p => rs.insertSortedState p.sortedState) rs).passesCreated =
      rs.passesCreated := by
  induction ps generalizing rs with
  | nil => rfl
  | cons p ps ih => rw [List.foldl_cons, ih, OpenGLRenderSystem.insertSortedState_created]

theorem foldl_insert_sorted (ps : List OpenGLShaderPass) (rs : OpenGLRenderSystem)
    (h : rs.sortedStates.Pairwise fun a b => a.sortPosition.rank ≤ b.sortPosition.rank) :
    (ps.foldl (fun rs p => rs.insertSortedState p.sortedState) rs).sortedStates.Pairwise
      fun a b => a.sortPosition.rank ≤ b.sortPosition.rank := by
  induction ps generalizing rs with
  | nil => exact h
  | cons p ps ih =>
    rw [List.foldl_cons]
    exact ih _ (OpenGLRenderSystem.insertSortedState_sorted rs _ h)

theorem foldl_insert_keys (ps : List OpenGLShaderPass) (rs : OpenGLRenderSystem)
    (h : (rs.sortedStates.map fun x => x.pass).Nodup) :
    ((ps.foldl (fun rs p => rs.insertSortedState p.sortedState) rs).sortedStates.map
      fun x => x.pass).Nodup := by
  induction ps generalizing rs with
  | nil => exact h
  | cons p ps ih =>
    rw [List.foldl_cons]
    exact ih _ (OpenGLRenderSystem.insertSortedState_keys rs _ h)

theorem foldl_insert_mono (ps : List OpenGLShaderPass) (rs : OpenGLRenderSystem)
    (x : SortedState) (hx : x ∈ rs.sortedStates) :
    x ∈ (ps.foldl (fun rs p => rs.insertSortedState p.sortedState) rs).sortedStates := by
  induction ps generalizing rs with
  | nil => exact hx
  | cons p ps ih =>
    rw [List.foldl_cons]
    exact ih _ ((OpenGLRenderSystem.mem_insertSortedState rs _ x).2 (Or.inl hx))

theorem foldl_insert_sub (ps : List OpenGLShaderPass) (rs : OpenGLRenderSystem)
    (x : SortedState)
    (hx : x ∈ (ps.foldl (fun rs p => rs.insertSortedState p.sortedState) rs).sortedStates) :
    x ∈ rs.sortedStates ∨ ∃ p ∈ ps, x = p.sortedState := by
  induction ps generalizing rs with
  | nil => exact Or.inl hx
  | cons p ps ih =>
    rw [List.foldl_cons] at hx
    rcases ih _ hx with h | ⟨q, hq, hxq⟩
    · rcases (OpenGLRenderSystem.mem_insertSortedState rs _ x).1 h with h | ⟨h, _⟩
      · exact Or.inl h
      · exact Or.inr ⟨p, List.mem_cons_self _ _, h⟩
    · exact Or.inr ⟨q, List.mem_cons_of_mem _ hq, hxq⟩

/-- Every pass handed to `insertPasses` is registered afterwards, provided the
passes are told apart by their identity and the entries already registered
under the identity of one of them are the entries of these passes. -/
theorem foldl_insert_all (ps : List OpenGLShaderPass) (rs : OpenGLRenderSystem)
    (hinj : ∀ p ∈ ps, ∀ q ∈ ps, p.id = q.id → p.sortedState = q.sortedState)
    (hcons : ∀ x ∈ rs.sortedStates, ∀ p ∈ ps, x.pass = p.id → x = p.sortedState) :
    ∀ p ∈ ps,
      p.sortedState ∈
        (ps.foldl (fun rs p => rs.insertSortedState p.sortedState) rs).sortedStates := by
  induction ps generalizing rs with
  | nil => intro p hp; cases hp
  | cons p₀ ps ih =>
    have h₀ : p₀.sortedState ∈ (rs.insertSortedState p₀.sortedState).sortedStates := by
      rw [OpenGLRenderSystem.mem_insertSortedState]
      by_cases h : ∀ y ∈ rs.sortedStates, y.pass ≠ p₀.sortedState.pass
      · exact Or.inr ⟨rfl, h⟩
      · simp only [not_forall, not_not] at h
        obtain ⟨y, hy, hyq⟩ := h
        have := hcons y hy p₀ (List.mem_cons_self _ _) hyq
        exact Or.inl (this ▸ hy)
    intro p hp
    rw [List.foldl_cons]
    rcases List.mem_cons.1 hp with rfl | hp
    · exact foldl_insert_mono ps _ _ h₀
    · refine ih _ (fun a ha b hb => hinj a (List.mem_cons_of_mem _ ha) b
        (List.mem_cons_of_mem _ hb)) ?_ p hp
      intro x hx q hq hxq
      rcases (OpenGLRenderSystem.mem_insertSortedState rs _ x).1 hx with hx | ⟨rfl, _⟩
      · exact hcons x hx q (List.mem_cons_of_mem _ hq) hxq
      · exact hinj p₀ (List.mem_cons_self _ _) q (List.mem_cons_of_mem _ hq) hxq

theorem foldl_erase_created (ps : List OpenGLShaderPass) (rs : OpenGLRenderSystem) :
    (ps.foldl (fun rs p => rs.eraseSortedState p.id) rs).passesCreated = rs.passesCreated := by
  induction ps generalizing rs with
  | nil => rfl
  | cons p ps ih => rw [List.foldl_cons, ih]; rfl

theorem foldl_erase_sorted (ps : List OpenGLShaderPass) (rs : OpenGLRenderSystem)
    (h : rs.sortedStates.Pairwise fun a b => a.sortPosition.rank ≤ b.sortPosition.rank) :
    (ps.foldl (fun rs p => rs.eraseSortedState p.id) rs).sortedStates.Pairwise
      fun a b => a.sortPosition.rank ≤ b.sortPosition.rank := by
  induction ps generalizing rs with
  | nil => exact h
  | cons p ps ih =>
    rw [List.foldl_cons]
    exact ih _ (OpenGLRenderSystem.eraseSortedState_sorted rs _ h)

theorem foldl_erase_keys (ps : List OpenGLShaderPass) (rs : OpenGLRenderSystem)
    (h : (rs.sortedStates.map fun x => x.pass).Nodup) :
    ((ps.foldl (fun rs p => rs.eraseSortedState p.id) rs).sortedStates.map
      fun x => x.pass).Nodup := by
  induction ps generalizing rs with
  | nil => exact h
  | cons p ps ih =>
    rw [List.foldl_cons]
    exact ih _ (OpenGLRenderSystem.eraseSortedState_keys rs _ h)

theorem mem_foldl_erase (ps : List OpenGLShaderPass) (rs : OpenGLRenderSystem)
    (x : SortedState) :
    x ∈ (ps.foldl (fun rs p => rs.eraseSortedState p.id) rs).sortedStates ↔
      x ∈ rs.sortedStates ∧ ∀ p ∈ ps, x.pass ≠ p.id := by
  induction ps generalizing rs with
  | nil => simp
  | cons p ps ih =>
    rw [List.foldl_cons, ih, OpenGLRenderSystem.mem_eraseSortedState]
    simp only [List.mem_cons, forall_eq_or_imp]
    tauto

/-! ### What `construct` does to the shader -/

theorem appendStates_material (s : OpenGLShader) (m : Option Material)
    (states : List OpenGLState) :
    OpenGLShader.appendStates { s with material := m } states =
      { s.appendStates states with material := m } := by
  rw [appendStates_eq, appendStates_eq]

theorem appends_ite (s a b : OpenGLShader) (c : Prop) [Decidable c]
    (ha : ∃ states, a = s.appendStates states) (hb : ∃ states, b = s.appendStates states) :
    ∃ states, (if c then a else b) = s.appendStates states := by
  split
  · exact ha
  · exact hb

theorem constructBuiltIn_appends (env : Env) (s : OpenGLShader) (name : String) :
    ∃ states, constructBuiltIn env s name = s.appendStates states := by
  unfold constructBuiltIn
  repeat' first
    | apply appends_ite
    | exact ⟨[_], rfl⟩
    | exact ⟨[_, _], rfl⟩

theorem construct_appends (env : Env) (s : OpenGLShader) (name : String) :
    ∃ states m, construct env s name =
      OpenGLShader.appendStates { s with material := m } states := by
  unfold construct
  split
  · exact ⟨[_], s.material, appendDefaultPass_eq env s _⟩
  · exact ⟨[_], s.material, appendDefaultPass_eq env s _⟩
  · exact ⟨[_], s.material, appendDefaultPass_eq env s _⟩
  · obtain ⟨states, h⟩ := constructBuiltIn_appends env s name
    exact ⟨states, s.material, h⟩
  · unfold constructNormalShader
    simp only []
    split
    · exact ⟨_, _, constructLighting_eq env _ _ rfl⟩
    · unfold constructEditorPreviewPassFromMaterial
      exact ⟨[_], _, appendDefaultPass_eq env _ _⟩

/-- What `construct` leaves alone, and the passes it appends. -/
theorem construct_fields (env : Env) (s : OpenGLShader) (name : String) :
    ∃ states,
      (construct env s name).shaderPasses =
        s.shaderPasses ++ freshPasses s.renderSystem.passesCreated states ∧
      (construct env s name).renderSystem =
        { s.renderSystem with passesCreated := s.renderSystem.passesCreated + states.length } ∧
      (construct env s name).isVisible = s.isVisible ∧
      (construct env s name).useCount = s.useCount ∧
      (construct env s name).observers = s.observers ∧
      (construct env s name).notifications = s.notifications := by
  obtain ⟨states, m, h⟩ := construct_appends env s name
  rw [h, appendStates_eq]
  exact ⟨states, rfl, rfl, rfl, rfl, rfl, rfl⟩

/-! ## The lifecycle calls and the registry -/

/-- The passes, the registry and the visibility flag after `realise`. -/
theorem realise_fields (env : Env) (s : OpenGLShader) (name : String) :
    ∃ states,
      (realise env s name).shaderPasses =
        s.shaderPasses ++ freshPasses s.renderSystem.passesCreated states ∧
      (realise env s name).renderSystem =
        (s.shaderPasses ++ freshPasses s.renderSystem.passesCreated states).foldl
          (fun rs p => rs.insertSortedState p.sortedState)
          { s.renderSystem with
            passesCreated := s.renderSystem.passesCreated + states.length } ∧
      (realise env s name).isVisible = s.isVisible := by
  obtain ⟨states, hp, hr, hv, -⟩ := construct_fields env s name
  refine ⟨states, ?_, ?_, ?_⟩
  · rw [← hp]
    unfold realise
    simp only []
    split <;> rfl
  · rw [← hp, ← hr]
    unfold realise
    simp only []
    split <;> rfl
  · rw [← hv]
    unfold realise
    simp only []
    split <;> rfl

theorem freshPasses_ids (c : Nat) (states : List OpenGLState) :
    ∀ p ∈ freshPasses c states, c ≤ p.id ∧ p.id < c + states.length := by
  intro p hp
  have h : p.id ∈ (freshPasses c states).map (fun p => p.id) := List.mem_map_of_mem _ hp
  rw [freshPasses_map_id, List.mem_range'_1] at h
  exact h

theorem eq_of_id_eq (ps : List OpenGLShaderPass) (h : (ps.map fun p => p.id).Nodup)
    (p q : OpenGLShaderPass) (hp : p ∈ ps) (hq : q ∈ ps) (hid : p.id = q.id) : p = q :=
  List.inj_on_of_nodup_map h hp hq hid

/-- The invariant makes `insertPasses` register every pass of the shader. -/
theorem insertPasses_all (ps : List OpenGLShaderPass) (rs : OpenGLRenderSystem)
    (hids : (ps.map fun p => p.id).Nodup)
    (howned : ∀ e ∈ rs.sortedStates, ∃ p ∈ ps, e = p.sortedState) :
    ∀ p ∈ ps,
      p.sortedState ∈
        (ps.foldl (fun rs p => rs.insertSortedState p.sortedState) rs).sortedStates := by
  apply foldl_insert_all
  · intro p hp q hq hid
    rw [eq_of_id_eq ps hids p q hp hq hid]
  · intro x hx p hp hxp
    obtain ⟨q, hq, rfl⟩ := howned x hx
    rw [eq_of_id_eq ps hids q p hq hp hxp]

theorem create_invariant (rs : OpenGLRenderSystem) (h : rs.sortedStates = []) :
    RegistryInvariant (create rs) where
  keys := by simp [create, h]
  owned := by simp [create, h]
  shown := by simp [create]
  ids := by simp [create]
  created := by simp [create]

theorem realise_invariant (env : Env) (s : OpenGLShader) (name : String)
    (h : RegistryInvariant s) : RegistryInvariant (realise env s name) := by
  obtain ⟨states, hp, hr, hv⟩ := realise_fields env s name
  have hids : ((s.shaderPasses ++ freshPasses s.renderSystem.passesCreated states).map
      fun p => p.id).Nodup := by
    rw [List.map_append, List.nodup_append]
    refine ⟨h.ids, ?_, ?_⟩
    · rw [freshPasses_map_id]; exact List.nodup_range' _ _
    · intro a ha hb
      rw [List.mem_map] at ha
      obtain ⟨p, hp, rfl⟩ := ha
      rw [freshPasses_map_id, List.mem_range'_1] at hb
      have := h.created p hp
      omega
  have howned : ∀ e ∈ s.renderSystem.sortedStates,
      ∃ p ∈ s.shaderPasses ++ freshPasses s.renderSystem.passesCreated states,
        e = p.sortedState := by
    intro e he
    obtain ⟨p, hp, rfl⟩ := h.owned e he
    exact ⟨p, List.mem_append_left _ hp, rfl⟩
  constructor
  · rw [hr]
    exact foldl_insert_keys _ _ h.keys
  · intro e he
    rw [hr] at he
    rw [hp]
    rcases foldl_insert_sub _ _ e he with he | he
    · exact howned e he
    · exact he
  · intro _ p hpm
    rw [hp] at hpm
    rw [hr]
    exact insertPasses_all _
      { s.renderSystem with passesCreated := s.renderSystem.passesCreated + states.length }
      hids howned p hpm
  · rw [hp]; exact hids
  · intro p hpm
    rw [hp] at hpm
    rw [hr, foldl_insert_created]
    rcases List.mem_append.1 hpm with hpm | hpm
    · have := h.created p hpm
      show p.id < s.renderSystem.passesCreated + states.length
      omega
    · exact (freshPasses_ids _ _ p hpm).2

theorem unrealise_invariant (s : OpenGLShader) (h : RegistryInvariant s) :
    RegistryInvariant (unrealise s) := by
  have hempty : ∀ e, e ∉ (unrealise s).renderSystem.sortedStates := by
    intro e he
    have he' : e ∈ (s.shaderPasses.foldl (fun rs p => rs.eraseSortedState p.id)
        s.renderSystem).sortedStates := he
    rw [mem_foldl_erase] at he'
    obtain ⟨p, hp, rfl⟩ := h.owned e he'.1
    exact he'.2 p hp rfl
  constructor
  · exact foldl_erase_keys _ _ h.keys
  · intro e he
    exact absurd he (hempty e)
  · intro _ p hp
    cases hp
  · exact List.nodup_nil
  · intro p hp
    cases hp

theorem setVisible_invariant (s : OpenGLShader) (visible : Bool) (h : RegistryInvariant s) :
    RegistryInvariant (s.setVisible visible) := by
  cases hv : s.isVisible <;> cases visible
  · -- hidden, stays hidden
    have e : s.setVisible false = s := by
      unfold setVisible
      simp only [hv]
      cases s
      simp_all
    rw [e]; exact h
  · -- hidden, shown: the passes are inserted
    have e : s.setVisible true = { s.insertPasses with isVisible := true } := by
      unfold setVisible
      simp [hv]
    rw [e]
    constructor
    · exact foldl_insert_keys _ _ h.keys
    · intro x hx
      rcases foldl_insert_sub _ _ x hx with hx | hx
      · exact h.owned x hx
      · exact hx
    · intro _ p hp
      exact insertPasses_all _ _ h.ids h.owned p hp
    · exact h.ids
    · intro p hp
      show p.id < (s.shaderPasses.foldl (fun rs p => rs.insertSortedState p.sortedState)
        s.renderSystem).passesCreated
      rw [foldl_insert_created]
      exact h.created p hp
  · -- visible, hidden: the passes are removed
    have e : s.setVisible false = { s.removePasses with isVisible := false } := by
      unfold setVisible
      simp [hv]
    rw [e]
    constructor
    · exact foldl_erase_keys _ _ h.keys
    · intro x hx
      have hx' : x ∈ (s.shaderPasses.foldl (fun rs p => rs.eraseSortedState p.id)
          s.renderSystem).sortedStates := hx
      rw [mem_foldl_erase] at hx'
      exact h.owned x hx'.1
    · intro hf
      cases hf
    · exact h.ids
    · intro p hp
      show p.id < (s.shaderPasses.foldl (fun rs p => rs.eraseSortedState p.id)
        s.renderSystem).passesCreated
      rw [foldl_erase_created]
      exact h.created p hp
  · -- visible, stays visible
    have e : s.setVisible true = s := by
      unfold setVisible
      simp only [hv]
      cases s
      simp_all
    rw [e]; exact h

theorem runCalls_invariant (env : Env) (calls : List LifecycleCall) (s : OpenGLShader)
    (h : RegistryInvariant s) : RegistryInvariant (runCalls env s calls) := by
  induction calls generalizing s with
  | nil => exact h
  | cons c cs ih =>
    unfold runCalls
    rw [List.foldl_cons]
    apply ih
    cases c with
    | realise name => exact realise_invariant env s name h
    | unrealise => exact unrealise_invariant s h
    | setVisible visible => exact setVisible_invariant s visible h

theorem realise_sorted (env : Env) (s : OpenGLShader) (name : String)
    (h : s.renderSystem.sortedStates.Pairwise
      fun a b => a.sortPosition.rank ≤ b.sortPosition.rank) :
    (realise env s name).renderSystem.sortedStates.Pairwise
      fun a b => a.sortPosition.rank ≤ b.sortPosition.rank := by
  obtain ⟨states, -, hr, -⟩ := realise_fields env s name
  rw [hr]
  exact foldl_insert_sorted _ _ h

theorem unrealise_sorted (s : OpenGLShader)
    (h : s.renderSystem.sortedStates.Pairwise
      fun a b => a.sortPosition.rank ≤ b.sortPosition.rank) :
    (unrealise s).renderSystem.sortedStates.Pairwise
      fun a b => a.sortPosition.rank ≤ b.sortPosition.rank :=
  foldl_erase_sorted _ _ h

theorem setVisible_sorted (s : OpenGLShader) (visible : Bool)
    (h : s.renderSystem.sortedStates.Pairwise
      fun a b => a.sortPosition.rank ≤ b.sortPosition.rank) :
    (s.setVisible visible).renderSystem.sortedStates.Pairwise
      fun a b => a.sortPosition.rank ≤ b.sortPosition.rank := by
  unfold setVisible
  simp only []
  split
  · exact foldl_insert_sorted _ _ h
  · split
    · exact foldl_erase_sorted _ _ h
    · exact h

theorem runCalls_sorted (env : Env) (calls : List LifecycleCall) (s : OpenGLShader)
    (h : s.renderSystem.sortedStates.Pairwise
      fun a b => a.sortPosition.rank ≤ b.sortPosition.rank) :
    (runCalls env s calls).renderSystem.sortedStates.Pairwise
      fun a b => a.sortPosition.rank ≤ b.sortPosition.rank := by
  induction calls generalizing s with
  | nil => exact h
  | cons c cs ih =>
    unfold runCalls
    rw [List.foldl_cons]
    apply ih
    cases c with
    | realise name => exact realise_sorted env s name h
    | unrealise => exact unrealise_sorted s h
    | setVisible visible => exact setVisible_sorted s visible h

theorem chain'_iff_pairwise_rank (l : List SortedState) :
    l.Chain' (fun a b => a.sortPosition.rank ≤ b.sortPosition.rank) ↔
      l.Pairwise fun a b => a.sortPosition.rank ≤ b.sortPosition.rank :=
  @List.chain'_iff_pairwise SortedState
    (fun a b => a.sortPosition.rank ≤ b.sortPosition.rank) ⟨fun _ _ _ => le_trans⟩ l

/-- C8 (failing input): `setVisible(false)` then `realise("textures/sample")` on
a freshly constructed shader and an empty registry. The shader ends hidden
and realised with its two passes in the registry: `realise` calls
`insertPasses()` whatever the visibility flag is, while `setVisible` keeps the
passes of a hidden shader out of the registry. -/
theorem hidden_shader_registered_by_realise :
    (runCalls (sampleEnv [sampleLayer 1 .DIFFUSE 0]) sampleShader
        [.setVisible false, .realise "textures/sample"]).isVisible = false ∧
      (runCalls (sampleEnv [sampleLayer 1 .DIFFUSE 0]) sampleShader
        [.setVisible false, .realise "textures/sample"]).isRealised = true ∧
      (runCalls (sampleEnv [sampleLayer 1 .DIFFUSE 0]) sampleShader
        [.setVisible false, .realise "textures/sample"]).shaderPasses.map
          (fun p => p.sortedState) = [⟨0, .SORT_ZFILL⟩, ⟨1, .SORT_INTERACTION⟩] ∧
      (runCalls (sampleEnv [sampleLayer 1 .DIFFUSE 0]) sampleShader
        [.setVisible false, .realise "textures/sample"]).renderSystem.sortedStates =
          [⟨0, .SORT_ZFILL⟩, ⟨1, .SORT_INTERACTION⟩] := by
  decide

/-- C9: whatever realise, unrealise and setVisible calls are made on a shader
whose registry is in order (an empty one in particular), the registry is
iterated in non-decreasing sort position afterwards: any two consecutive
entries `a`, `b` have `rank a <= rank b`. -/
theorem registry_iterated_in_sort_order (env : Env) (s : OpenGLShader)
    (calls : List LifecycleCall)
    (h : s.renderSystem.sortedStates.Chain'
      fun a b => a.sortPosition.rank ≤ b.sortPosition.rank) :
    (runCalls env s calls).renderSystem.sortedStates.Chain'
      fun a b => a.sortPosition.rank ≤ b.sortPosition.rank :=
  (chain'_iff_pairwise_rank _).2
    (runCalls_sorted env calls s ((chain'_iff_pairwise_rank _).1 h))

/-- From the empty registry, a run of calls on the sample shader that inserts
passes of five buckets out of order. -/
theorem registry_iterated_in_sort_order_witness :
    sampleShader.renderSystem.sortedStates.Chain'
        (fun a b => a.sortPosition.rank ≤ b.sortPosition.rank) ∧
      (runCalls (sampleEnv []) sampleShader
        [.realise "$CAM_OVERLAY", .setVisible false, .realise "$WIRE_OVERLAY",
          .setVisible true, .realise "(1 0 0)"]).renderSystem.sortedStates.Chain'
        fun a b => a.sortPosition.rank ≤ b.sortPosition.rank := by
  refine ⟨List.chain'_nil, ?_⟩
  apply registry_iterated_in_sort_order
  exact List.chain'_nil

/-- C10: on a visible shader reached by realise, unrealise and setVisible
calls from a freshly constructed shader and an empty registry (a realised one
in particular), `setVisible(false)` followed by `setVisible(true)` leaves the
registry with exactly the entries it had, none twice, and leaves the pass list
as it was; in between, the pass list is intact and none of its passes is
registered. -/
theorem setVisible_round_trip (env : Env) (rs : OpenGLRenderSystem)
    (hrs : rs.sortedStates = []) (calls : List LifecycleCall) (s : OpenGLShader)
    (hs : s = runCalls env (create rs) calls) (hvis : s.isVisible = true) :
    (∀ e, e ∈ ((s.setVisible false).setVisible true).renderSystem.sortedStates ↔
        e ∈ s.renderSystem.sortedStates) ∧
      (((s.setVisible false).setVisible true).renderSystem.sortedStates.map
        fun e => e.pass).Nodup ∧
      ((s.setVisible false).setVisible true).shaderPasses = s.shaderPasses ∧
      (s.setVisible false).shaderPasses = s.shaderPasses ∧
      ∀ p ∈ s.shaderPasses, p.sortedState ∉ (s.setVisible false).renderSystem.sortedStates := by
  have h : RegistryInvariant s := hs ▸ runCalls_invariant env calls _ (create_invariant rs hrs)
  have e₁ : s.setVisible false = { s.removePasses with isVisible := false } := by
    unfold setVisible
    simp [hvis]
  have e₂ : (s.setVisible false).setVisible true =
      { (s.setVisible false).insertPasses with isVisible := true } := by
    rw [e₁]
    unfold setVisible
    simp
  have hreg₁ : ∀ e, e ∈ (s.setVisible false).renderSystem.sortedStates ↔
      e ∈ s.renderSystem.sortedStates ∧ ∀ p ∈ s.shaderPasses, e.pass ≠ p.id := by
    intro e
    rw [e₁]
    exact mem_foldl_erase _ _ e
  have hnone : ∀ e, e ∉ (s.setVisible false).renderSystem.sortedStates := by
    intro e he
    obtain ⟨he, hne⟩ := (hreg₁ e).1 he
    obtain ⟨p, hp, rfl⟩ := h.owned e he
    exact hne p hp rfl
  have hp₁ : (s.setVisible false).shaderPasses = s.shaderPasses := by rw [e₁]; rfl
  have hreg₂ : ((s.setVisible false).setVisible true).renderSystem.sortedStates =
      (s.shaderPasses.foldl (fun rs p => rs.insertSortedState p.sortedState)
        (s.setVisible false).renderSystem).sortedStates := by
    rw [e₂]
    show (List.foldl (fun rs p => rs.insertSortedState p.sortedState)
      (s.setVisible false).renderSystem (s.setVisible false).shaderPasses).sortedStates = _
    rw [hp₁]
  refine ⟨?_, ?_, ?_, hp₁, fun p _ => hnone _⟩
  · intro e
    rw [hreg₂]
    constructor
    · intro he
      rcases foldl_insert_sub _ _ e he with he | ⟨p, hp, rfl⟩
      · exact absurd he (hnone e)
      · exact h.shown hvis p hp
    · intro he
      obtain ⟨p, hp, rfl⟩ := h.owned e he
      exact insertPasses_all _ _ h.ids (fun x hx => absurd hx (hnone x)) p hp
  · rw [hreg₂]
    apply foldl_insert_keys
    rw [e₁]
    exact foldl_erase_keys _ _ h.keys
  · rw [e₂]
    exact hp₁

/-- The realised, visible sample shader keeps its passes over the round
trip. -/
theorem setVisible_round_trip_witness :
    (OpenGLRenderSystem.empty true .SHADER_PROGRAM_INTERACTION).sortedStates = [] ∧
      (runCalls (sampleEnv [sampleLayer 1 .DIFFUSE 0])
        (create (OpenGLRenderSystem.empty true .SHADER_PROGRAM_INTERACTION))
        [.realise "textures/sample"]).isVisible = true ∧
      (((runCalls (sampleEnv [sampleLayer 1 .DIFFUSE 0])
        (create (OpenGLRenderSystem.empty true .SHADER_PROGRAM_INTERACTION))
        [.realise "textures/sample"]).setVisible false).setVisible true).shaderPasses =
        (runCalls (sampleEnv [sampleLayer 1 .DIFFUSE 0])
          (create (OpenGLRenderSystem.empty true .SHADER_PROGRAM_INTERACTION))
          [.realise "textures/sample"]).shaderPasses :=
  ⟨rfl, rfl, (setVisible_round_trip (sampleEnv [sampleLayer 1 .DIFFUSE 0])
    (OpenGLRenderSystem.empty true .SHADER_PROGRAM_INTERACTION) rfl
    [.realise "textures/sample"] _ rfl rfl).2.2.1⟩

end OpenGLShader

/-! ## Rounding to the nearest `double` -/

/-- With enough fuel, `halvings` is the binary logarithm. -/
theorem halvings_eq_log (fuel n : Nat) (h : n ≤ fuel) : halvings fuel n = Nat.log 2 n := by
  induction fuel generalizing n with
  | zero =>
    have : n = 0 := by omega
    subst this
    simp [halvings]
  | succ fuel ih =>
    unfold halvings
    by_cases h2 : 2 ≤ n
    · rw [if_pos h2, ih (n / 2) (by omega), Nat.log_of_one_lt_of_le (by decide) h2]
    · rw [if_neg h2, Nat.log_of_lt (by omega)]

/-- The integer `roundHalfEven` gives is within a half of the quotient. -/
theorem roundHalfEven_near (num den : Nat) (hd : 0 < den) :
    |((roundHalfEven num den : Nat) : ℚ) - (num : ℚ) / den| ≤ 1 / 2 := by
  have hdq : (0 : ℚ) < den := by exact_mod_cast hd
  have hdiv : (num : ℚ) = den * (num / den : Nat) + (num % den : Nat) := by
    exact_mod_cast (Nat.div_add_mod num den).symm
  have hmod : ((num % den : Nat) : ℚ) < den := by exact_mod_cast Nat.mod_lt num hd
  have hmod0 : (0 : ℚ) ≤ ((num % den : Nat) : ℚ) := by positivity
  have key : (num : ℚ) / den = (num / den : Nat) + ((num % den : Nat) : ℚ) / den := by
    rw [div_eq_iff hdq.ne.symm]
    rw [add_mul, div_mul_cancel₀ _ hdq.ne.symm]
    linarith
  have ht0 : (0 : ℚ) ≤ ((num % den : Nat) : ℚ) / den := by positivity
  have ht1 : ((num % den : Nat) : ℚ) / den < 1 := by rw [div_lt_one hdq]; exact hmod
  rw [key]
  unfold roundHalfEven
  simp only []
  rw [abs_le]
  split_ifs with h1 h2 h3
  · have h : (2 : ℚ) * ((num % den : Nat) : ℚ) < den := by exact_mod_cast h1
    have ht : ((num % den : Nat) : ℚ) / den < 1 / 2 := by
      rw [div_lt_iff₀ hdq]; linarith
    constructor <;> linarith
  · have h : (den : ℚ) < 2 * ((num % den : Nat) : ℚ) := by exact_mod_cast h2
    have ht : 1 / 2 < ((num % den : Nat) : ℚ) / den := by
      rw [lt_div_iff₀ hdq]; linarith
    push_cast
    constructor <;> linarith
  · have h : (2 : ℚ) * ((num % den : Nat) : ℚ) = den := by
      have : 2 * (num % den) = den := by omega
      exact_mod_cast this
    have ht : ((num % den : Nat) : ℚ) / den = 1 / 2 := by
      rw [div_eq_iff hdq.ne.symm]; linarith
    constructor <;> linarith
  · have h : (2 : ℚ) * ((num % den : Nat) : ℚ) = den := by
      have : 2 * (num % den) = den := by omega
      exact_mod_cast this
    have ht : ((num % den : Nat) : ℚ) / den = 1 / 2 := by
      rw [div_eq_iff hdq.ne.symm]; linarith
    push_cast
    constructor <;> linarith

/-- A quotient that is an integer is left as it is. -/
theorem roundHalfEven_exact (k den : Nat) (hd : 0 < den) : roundHalfEven (k * den) den = k := by
  unfold roundHalfEven
  simp only []
  rw [Nat.mul_mod_left, Nat.mul_div_cancel _ hd]
  simp [hd]

/-- The leading binary digit of a positive number. -/
theorem halvings_bounds (n : Nat) (hn : 0 < n) :
    2 ^ halvings n n ≤ n ∧ n < 2 ^ (halvings n n + 1) := by
  rw [halvings_eq_log n n le_rfl]
  exact ⟨Nat.pow_log_le_self 2 hn.ne.symm, Nat.lt_pow_succ_log_self (by decide) n⟩

/-- The test of `binaryExponent`, over the rationals. -/
theorem binaryExponent_test (n d : Nat) (hd : 0 < d) (k : Int) :
    (if 0 ≤ k then d * 2 ^ k.toNat ≤ n else d ≤ n * 2 ^ (-k).toNat) ↔
      (2 : ℚ) ^ k ≤ (n : ℚ) / d := by
  have hdq : (0 : ℚ) < d := by exact_mod_cast hd
  by_cases hk : 0 ≤ k
  · rw [if_pos hk]
    obtain ⟨t, rfl⟩ := Int.eq_ofNat_of_zero_le hk
    rw [Int.toNat_ofNat, zpow_natCast, le_div_iff₀ hdq]
    constructor
    · intro h
      have : ((d * 2 ^ t : Nat) : ℚ) ≤ n := by exact_mod_cast h
      push_cast at this
      linarith
    · intro h
      have : ((d * 2 ^ t : Nat) : ℚ) ≤ n := by push_cast; linarith
      exact_mod_cast this
  · rw [if_neg hk]
    obtain ⟨t, ht⟩ := Int.eq_ofNat_of_zero_le (show 0 ≤ -k by omega)
    have hk' : k = -(t : Int) := by omega
    subst hk'
    rw [neg_neg, Int.toNat_ofNat, zpow_neg, zpow_natCast, le_div_iff₀ hdq]
    have h2 : (0 : ℚ) < 2 ^ t := by positivity
    rw [inv_mul_le_iff₀ h2]
    constructor
    · intro h
      have : ((d : Nat) : ℚ) ≤ ((n * 2 ^ t : Nat) : ℚ) := by exact_mod_cast h
      push_cast at this
      linarith
    · intro h
      have : ((d : Nat) : ℚ) ≤ ((n * 2 ^ t : Nat) : ℚ) := by push_cast; linarith
      exact_mod_cast this

/-- The number `binaryExponent` gives is the position of the leading binary
digit of the quotient. -/
theorem binaryExponent_bounds (n d : Nat) (hn : 0 < n) (hd : 0 < d) :
    (2 : ℚ) ^ binaryExponent n d ≤ (n : ℚ) / d ∧
      (n : ℚ) / d < 2 ^ (binaryExponent n d + 1) := by
  have hdq : (0 : ℚ) < d := by exact_mod_cast hd
  have hnq : (0 : ℚ) < n := by exact_mod_cast hn
  obtain ⟨hn1, hn2⟩ := halvings_bounds n hn
  obtain ⟨hd1, hd2⟩ := halvings_bounds d hd
  have qn1 : (2 : ℚ) ^ halvings n n ≤ n := by exact_mod_cast hn1
  have qn2 : (n : ℚ) < 2 ^ (halvings n n + 1) := by exact_mod_cast hn2
  have qd1 : (2 : ℚ) ^ halvings d d ≤ d := by exact_mod_cast hd1
  have qd2 : (d : ℚ) < 2 ^ (halvings d d + 1) := by exact_mod_cast hd2
  have two : (2 : ℚ) ≠ 0 := by norm_num
  have hup : (n : ℚ) / d < 2 ^ ((halvings n n : Int) - (halvings d d : Int) + 1) := by
    rw [div_lt_iff₀ hdq, zpow_add₀ two, zpow_sub₀ two, zpow_natCast, zpow_natCast, zpow_one]
    have hp : (0 : ℚ) < 2 ^ halvings d d := by positivity
    have hpn : (0 : ℚ) < 2 ^ halvings n n := by positivity
    calc (n : ℚ) < 2 ^ (halvings n n + 1) := qn2
      _ = 2 ^ halvings n n / 2 ^ halvings d d * 2 * 2 ^ halvings d d := by
        field_simp
        ring
      _ ≤ 2 ^ halvings n n / 2 ^ halvings d d * 2 * d := by
        apply mul_le_mul_of_nonneg_left qd1
        positivity
  have hlow : (2 : ℚ) ^ ((halvings n n : Int) - (halvings d d : Int) - 1) ≤ (n : ℚ) / d := by
    rw [le_div_iff₀ hdq, zpow_sub₀ two, zpow_sub₀ two, zpow_natCast, zpow_natCast, zpow_one]
    have hp : (0 : ℚ) < 2 ^ halvings d d := by positivity
    calc (2 : ℚ) ^ halvings n n / 2 ^ halvings d d / 2 * d
        ≤ 2 ^ halvings n n / 2 ^ halvings d d / 2 * 2 ^ (halvings d d + 1) := by
          apply mul_le_mul_of_nonneg_left qd2.le
          positivity
      _ = 2 ^ halvings n n := by
        field_simp
        ring
      _ ≤ n := qn1
  unfold binaryExponent
  simp only []
  by_cases hq : (2 : ℚ) ^ ((halvings n n : Int) - (halvings d d : Int)) ≤ (n : ℚ) / d
  · rw [if_pos ((binaryExponent_test n d hd _).2 hq)]
    exact ⟨hq, hup⟩
  · rw [if_neg (mt (binaryExponent_test n d hd _).1 hq)]
    rw [not_le] at hq
    refine ⟨hlow, ?_⟩
    rw [sub_add_cancel]
    exact hq

/-- The significand of `nearestDouble` is within a half of the number in
units of `2 ^ e`. -/
theorem scaled_near (n d : Nat) (hd : 0 < d) (e : Int) :
    |(((if 0 ≤ e then roundHalfEven n (d * 2 ^ e.toNat)
        else roundHalfEven (n * 2 ^ (-e).toNat) d : Nat)) : ℚ) - (n : ℚ) / d / 2 ^ e| ≤ 1 / 2 := by
  have hdq : (0 : ℚ) < d := by exact_mod_cast hd
  by_cases he : 0 ≤ e
  · rw [if_pos he]
    obtain ⟨t, rfl⟩ := Int.eq_ofNat_of_zero_le he
    rw [Int.toNat_ofNat, zpow_natCast]
    have h := roundHalfEven_near n (d * 2 ^ t) (by positivity)
    rw [Nat.cast_mul, Nat.cast_pow, Nat.cast_ofNat] at h
    rw [div_div]
    exact h
  · rw [if_neg he]
    obtain ⟨t, ht⟩ := Int.eq_ofNat_of_zero_le (show 0 ≤ -e by omega)
    have he' : e = -(t : Int) := by omega
    subst he'
    rw [neg_neg, Int.toNat_ofNat, zpow_neg, zpow_natCast, div_inv_eq_mul]
    have h := roundHalfEven_near (n * 2 ^ t) d hd
    rw [Nat.cast_mul, Nat.cast_pow, Nat.cast_ofNat] at h
    rw [div_mul_eq_mul_div]
    exact h

/-- The magnitude `nearestDouble` builds is the significand times `2 ^ e`. -/
theorem magnitude_eq (m : Nat) (e : Int) :
    (if 0 ≤ e then mkRat (m * 2 ^ e.toNat : Nat) 1 else mkRat m (2 ^ (-e).toNat)) =
      (m : ℚ) * 2 ^ e := by
  by_cases he : 0 ≤ e
  · rw [if_pos he]
    obtain ⟨t, rfl⟩ := Int.eq_ofNat_of_zero_le he
    rw [Int.toNat_ofNat, zpow_natCast, Rat.mkRat_eq_div]
    push_cast
    ring
  · rw [if_neg he]
    obtain ⟨t, ht⟩ := Int.eq_ofNat_of_zero_le (show 0 ≤ -e by omega)
    have he' : e = -(t : Int) := by omega
    subst he'
    rw [neg_neg, Int.toNat_ofNat, zpow_neg, zpow_natCast, Rat.mkRat_eq_div]
    push_cast
    ring

/-- The number `nearestDouble` gives for a positive quotient is a double, and a
nearest one: it is `m * 2 ^ e` with a significand `m` of at most 53 bits, of
exactly 53 bits unless `e` is the least exponent `-1074`, and it is within half
a unit `2 ^ e` of the quotient. -/
theorem nearestDouble_nearest (negative : Bool) (n d : Nat) (hn : 0 < n) (hd : 0 < d) :
    ∃ (m : Nat) (e : Int), -1074 ≤ e ∧ m ≤ 2 ^ 53 ∧ (2 ^ 52 ≤ m ∨ e = -1074) ∧
      nearestDouble negative n d = (if negative then -1 else 1) * ((m : ℚ) * 2 ^ e) ∧
      |(m : ℚ) * 2 ^ e - (n : ℚ) / d| ≤ 2 ^ e / 2 := by
  obtain ⟨hlow, hup⟩ := binaryExponent_bounds n d hn hd
  have hnear := scaled_near n d hd (max (binaryExponent n d - 52) (-1074))
  have hmax1 := le_max_left (binaryExponent n d - 52) (-1074)
  have hmax2 := le_max_right (binaryExponent n d - 52) (-1074)
  have hmax3 : ¬ binaryExponent n d - 52 ≤ -1074 →
      max (binaryExponent n d - 52) (-1074) = binaryExponent n d - 52 :=
    fun h => max_eq_left (by omega)
  have hmax4 : binaryExponent n d - 52 ≤ -1074 →
      max (binaryExponent n d - 52) (-1074) = -1074 := max_eq_right
  have hdef : nearestDouble negative n d = (if negative then -1 else 1) *
      (((if 0 ≤ max (binaryExponent n d - 52) (-1074) then
        roundHalfEven n (d * 2 ^ (max (binaryExponent n d - 52) (-1074)).toNat)
        else roundHalfEven (n * 2 ^ (-max (binaryExponent n d - 52) (-1074)).toNat) d : Nat) : ℚ)
        * 2 ^ max (binaryExponent n d - 52) (-1074)) := by
    unfold nearestDouble
    rw [if_neg (by omega)]
    simp only []
    rw [magnitude_eq]
    cases negative
    · simp only [Bool.false_eq_true, if_false, one_mul]
    · simp only [if_true, neg_one_mul]
  generalize max (binaryExponent n d - 52) (-1074) = E at hnear hmax1 hmax2 hmax3 hmax4 hdef
  generalize (if 0 ≤ E then roundHalfEven n (d * 2 ^ E.toNat)
    else roundHalfEven (n * 2 ^ (-E).toNat) d) = M at hnear hdef
  have hpos : (0 : ℚ) < 2 ^ E := by positivity
  have two : (2 : ℚ) ≠ 0 := by norm_num
  obtain ⟨h1, h2⟩ := abs_le.1 hnear
  refine ⟨M, E, hmax2, ?_, ?_, hdef, ?_⟩
  · have hy : (n : ℚ) / d / 2 ^ E < 2 ^ (53 : Int) := by
      rw [div_lt_iff₀ hpos, ← zpow_add₀ two]
      exact lt_of_lt_of_le hup (zpow_le_zpow_right₀ (by norm_num) (by omega))
    have e53 : (2 : ℚ) ^ (53 : Int) = 2 ^ 53 := by norm_cast
    rw [e53] at hy
    have hm : (M : ℚ) < ((2 ^ 53 + 1 : Nat) : ℚ) := by
      push_cast
      linarith
    exact Nat.lt_succ_iff.1 (by exact_mod_cast hm)
  · by_cases hs : binaryExponent n d - 52 ≤ -1074
    · right
      exact hmax4 hs
    · left
      have hE := hmax3 hs
      have hy : (2 : ℚ) ^ (52 : Int) ≤ (n : ℚ) / d / 2 ^ E := by
        rw [le_div_iff₀ hpos, ← zpow_add₀ two]
        have : (52 : Int) + E = binaryExponent n d := by omega
        rw [this]
        exact hlow
      have e52 : (2 : ℚ) ^ (52 : Int) = 2 ^ 52 := by norm_cast
      rw [e52] at hy
      have hm : ((2 ^ 52 - 1 : Nat) : ℚ) < (M : ℚ) := by
        push_cast
        linarith
      have := Nat.cast_lt.1 hm
      omega
  · rw [abs_le]
    have e1 : (n : ℚ) / d = (n : ℚ) / d / 2 ^ E * 2 ^ E := by
      rw [div_mul_cancel₀ _ hpos.ne.symm]
    constructor
    · nlinarith [h1, h2]
    · nlinarith [h1, h2]

/-- The number of a run of digits that continues a number already read. -/
theorem digitsNat_foldl (ds : List (Fin 10)) (c : Nat) :
    ds.foldl (fun n d => 10 * n + d.val) c = c * 10 ^ ds.length + digitsNat ds := by
  induction ds generalizing c with
  | nil => simp [digitsNat]
  | cons d ds ih =>
    unfold digitsNat
    rw [List.foldl_cons, List.foldl_cons, ih, ih (10 * 0 + d.val), List.length_cons]
    ring

/-- The digits of the whole part and of the fraction, read as one number. -/
theorem digitsNat_append (ws fs : List (Fin 10)) :
    digitsNat (ws ++ fs) = digitsNat ws * 10 ^ fs.length + digitsNat fs := by
  unfold digitsNat
  rw [List.foldl_append]
  exact digitsNat_foldl fs _

/-- The number a decimal number stands for, as one quotient. -/
theorem Decimal.value_eq_div (x : Decimal) :
    x.value = (if x.negative then -1 else 1) *
      ((digitsNat (x.whole ++ x.fraction) : ℚ) / 10 ^ x.fraction.length) := by
  unfold Decimal.value
  rw [digitsNat_append]
  push_cast
  have h : (10 : ℚ) ^ x.fraction.length ≠ 0 := by positivity
  field_simp

/-- The `double` of a decimal number other than zero is a double nearest to
it: `m * 2 ^ e` with the sign of the number, a significand `m` of at most 53
bits, of exactly 53 bits unless `e` is the least exponent `-1074`, and within
half a unit `2 ^ e` of the number. -/
theorem Decimal.double_nearest (x : Decimal) (h : 0 < digitsNat (x.whole ++ x.fraction)) :
    ∃ (m : Nat) (e : Int), -1074 ≤ e ∧ m ≤ 2 ^ 53 ∧ (2 ^ 52 ≤ m ∨ e = -1074) ∧
      x.double = (if x.negative then -1 else 1) * ((m : ℚ) * 2 ^ e) ∧
      |x.double - x.value| ≤ 2 ^ e / 2 := by
  obtain ⟨m, e, he, hm, hn, hd, herr⟩ := nearestDouble_nearest x.negative
    (digitsNat (x.whole ++ x.fraction)) (10 ^ x.fraction.length) h (by positivity)
  refine ⟨m, e, he, hm, hn, hd, ?_⟩
  have hd' : x.double = (if x.negative then -1 else 1) * ((m : ℚ) * 2 ^ e) := hd
  rw [hd', Decimal.value_eq_div, ← mul_sub, abs_mul]
  have hs : |(if x.negative then (-1 : ℚ) else 1)| = 1 := by
    cases x.negative <;> simp
  rw [hs, one_mul]
  push_cast at herr
  exact herr

/-- The `double` of a decimal zero is zero. -/
theorem Decimal.double_zero (x : Decimal) (h : digitsNat (x.whole ++ x.fraction) = 0) :
    x.double = 0 ∧ x.value = 0 := by
  constructor
  · unfold Decimal.double nearestDouble
    rw [if_pos (Or.inl h)]
  · rw [Decimal.value_eq_div, h]
    simp

/-! ## Scanning the numbers of a literal colour name -/

/-- The digit characters are digits, not blanks and not signs, and stand for
their digit. -/
theorem digitChar_isDigit : ∀ d : Fin 10, (digitChar d).isDigit = true := by decide
theorem digitChar_not_space : ∀ d : Fin 10, isSpace (digitChar d) = false := by decide
theorem digitChar_ne_minus : ∀ d : Fin 10, digitChar d ≠ '-' := by decide
theorem digitChar_ne_plus : ∀ d : Fin 10, digitChar d ≠ '+' := by decide
theorem digitChar_value : ∀ d : Fin 10, (digitChar d).toNat - '0'.toNat = d.val := by decide

theorem digitsValue_digits (ds : List (Fin 10)) :
    digitsValue (ds.map digitChar) = digitsNat ds := by
  unfold digitsValue digitsNat
  generalize 0 = acc
  induction ds generalizing acc with
  | nil => rfl
  | cons d ds ih => simp only [List.map_cons, List.foldl_cons, digitChar_value, ih]

theorem span_digits (ds : List (Fin 10)) (c : Char) (rest : List Char)
    (hc : c.isDigit = false) :
    (ds.map digitChar ++ c :: rest).span Char.isDigit = (ds.map digitChar, c :: rest) := by
  rw [List.span_eq_take_drop]
  induction ds with
  | nil => simp [List.takeWhile_cons, List.dropWhile_cons, hc]
  | cons d ds ih =>
    simp only [List.map_cons, List.cons_append, List.takeWhile_cons, List.dropWhile_cons,
      digitChar_isDigit, if_true]
    simp only [Prod.mk.injEq] at ih ⊢
    exact ⟨congrArg _ ih.1, ih.2⟩

theorem scanExponent_none (c : Char) (rest : List Char) (he : c ≠ 'e') (hE : c ≠ 'E') :
    scanExponent (c :: rest) = (0, c :: rest) := by
  simp [scanExponent, he, hE]

theorem scanSign_digit (d : Fin 10) (tail : List Char) :
    scanSign (digitChar d :: tail) = (false, digitChar d :: tail) := by
  unfold scanSign
  split
  · next h => exact absurd (List.cons.inj h).1 (digitChar_ne_minus d)
  · next h => exact absurd (List.cons.inj h).1 (digitChar_ne_plus d)
  · rfl

theorem scanFraction_none (c : Char) (rest : List Char) (hc : c ≠ '.') :
    scanFraction (c :: rest) = ([], c :: rest) := by
  unfold scanFraction
  split
  · next h => exact absurd (List.cons.inj h).1 hc
  · rfl

theorem scanFraction_digits (ds : List (Fin 10)) (c : Char) (rest : List Char)
    (hc : c.isDigit = false) :
    scanFraction ('.' :: (ds.map digitChar ++ c :: rest)) = (ds.map digitChar, c :: rest) := by
  show (ds.map digitChar ++ c :: rest).span Char.isDigit = _
  exact span_digits ds c rest hc

/-- The digits of a decimal number and what `%lf` leaves behind them. -/
theorem scanDouble_body (whole fraction : List (Fin 10)) (c : Char) (rest : List Char)
    (hc : Terminator c) :
    (whole.map digitChar ++ ((if fraction.isEmpty then [] else '.' :: fraction.map digitChar) ++
        c :: rest)).span Char.isDigit =
      (whole.map digitChar,
        (if fraction.isEmpty then [] else '.' :: fraction.map digitChar) ++ c :: rest) ∧
    scanFraction ((if fraction.isEmpty then [] else '.' :: fraction.map digitChar) ++ c :: rest) =
      (fraction.map digitChar, c :: rest) := by
  cases fraction with
  | nil =>
    simp only [List.isEmpty_nil, if_true, List.nil_append, List.map_nil]
    exact ⟨span_digits whole c rest hc.digit, scanFraction_none c rest hc.point⟩
  | cons f fs =>
    simp only [List.isEmpty_cons, Bool.false_eq_true, if_false, List.cons_append]
    exact ⟨span_digits whole '.' _ (by decide), scanFraction_digits (f :: fs) c rest hc.digit⟩

theorem text_dropWhile (x : Decimal) (hw : x.whole ≠ []) (tail : List Char) :
    (x.text ++ tail).dropWhile isSpace = x.text ++ tail := by
  obtain ⟨negative, whole, fraction⟩ := x
  obtain ⟨w, ws, rfl⟩ := List.exists_cons_of_ne_nil (show whole ≠ [] from hw)
  cases negative
  · simp [Decimal.text, List.dropWhile_cons, digitChar_not_space]
  · simp [Decimal.text, List.dropWhile_cons, isSpace]

/-- `%lf` reads a decimal number that is followed by a blank or a bracket. -/
theorem scanDouble_decimal (x : Decimal) (hw : x.whole ≠ []) (c : Char) (rest : List Char)
    (hc : Terminator c) : scanDouble (x.text ++ c :: rest) = some (x.double, c :: rest) := by
  unfold scanDouble
  rw [text_dropWhile x hw]
  obtain ⟨negative, whole, fraction⟩ := x
  obtain ⟨hspan, hfrac⟩ := scanDouble_body whole fraction c rest hc
  obtain ⟨w, ws, rfl⟩ := List.exists_cons_of_ne_nil (show whole ≠ [] from hw)
  have hsign : scanSign (Decimal.text ⟨negative, w :: ws, fraction⟩ ++ c :: rest) =
      (negative, (w :: ws).map digitChar ++
        ((if fraction.isEmpty then [] else '.' :: fraction.map digitChar) ++ c :: rest)) := by
    cases negative
    · simp only [Decimal.text, Bool.false_eq_true, if_false, List.nil_append, List.map_cons,
        List.cons_append, List.append_assoc]
      exact scanSign_digit w _
    · simp only [Decimal.text, if_true, List.singleton_append, List.cons_append,
        List.append_assoc]
      rfl
  simp only [hsign, hspan, hfrac, scanExponent_none c rest hc.lower hc.upper]
  simp only [List.map_cons, List.isEmpty_cons, Bool.false_and, Bool.false_eq_true, if_false]
  rw [← List.map_cons, ← List.map_append, digitsValue_digits, List.length_map]
  unfold Decimal.double
  cases fraction with
  | nil => simp
  | cons f fs =>
    have hneg : ¬ (0 : Int) ≤ 0 - ((f :: fs).length : Int) := by
      simp only [List.length_cons]
      omega
    rw [if_neg hneg]
    simp

theorem terminator_blank : Terminator ' ' := ⟨by decide, by decide, by decide, by decide⟩
theorem terminator_round : Terminator ')' := ⟨by decide, by decide, by decide, by decide⟩
theorem terminator_square : Terminator ']' := ⟨by decide, by decide, by decide, by decide⟩

theorem blank_text_dropWhile (x : Decimal) (hw : x.whole ≠ []) (tail : List Char) :
    (' ' :: (x.text ++ tail)).dropWhile isSpace = x.text ++ tail := by
  rw [List.dropWhile_cons, if_pos (by decide)]
  exact text_dropWhile x hw tail

/-- The three numbers of a literal colour name, as `sscanf` stores them. -/
theorem sscanfColour_colourName (opening closing : Char) (hc : Terminator closing)
    (r g b : Decimal) (hr : r.whole ≠ []) (hg : g.whole ≠ []) (hb : b.whole ≠ [])
    (colour : Colour4) :
    sscanfColour opening (colourName opening closing r g b) colour =
      ⟨r.double, g.double, b.double, colour.a⟩ := by
  unfold sscanfColour colourName
  show (match opening :: (r.text ++ ' ' :: (g.text ++ ' ' :: (b.text ++ [closing]))) with
    | c :: rest => _
    | [] => colour) = _
  simp only [if_true, scanDouble_decimal r hr ' ' _ terminator_blank,
    blank_text_dropWhile g hg, scanDouble_decimal g hg ' ' _ terminator_blank,
    blank_text_dropWhile b hb, scanDouble_decimal b hb closing [] hc]

/-! ## Render flags of the built-in shaders -/

/-- A flag that has just been set tests as set. -/
theorem testRenderFlag_set_self (st : OpenGLState) (k : Nat) :
    (st.setRenderFlag (1 <<< k)).testRenderFlag (1 <<< k) = true := by
  rw [testRenderFlag_bit]
  simp [OpenGLState.setRenderFlag, Nat.testBit_or, Nat.one_shiftLeft, Nat.testBit_two_pow_self]

/-- Setting a flag keeps the flags that were set. -/
theorem testRenderFlag_set_of (st : OpenGLState) (f : RenderStateFlags) (k : Nat)
    (h : st.testRenderFlag (1 <<< k) = true) :
    (st.setRenderFlag f).testRenderFlag (1 <<< k) = true := by
  rw [testRenderFlag_bit] at h ⊢
  simp [OpenGLState.setRenderFlag, Nat.testBit_or, h]

/-- The sort position is not part of the flags. -/
theorem testRenderFlag_setSortPosition (st : OpenGLState) (p : SortPosition)
    (f : RenderStateFlags) :
    (st.setSortPosition p).testRenderFlag f = st.testRenderFlag f := rfl

/-- Testing a flag of a state whose bitmask is known. -/
theorem testRenderFlag_mask (st : OpenGLState) (mask f : RenderStateFlags)
    (h : st.renderFlags = mask) : st.testRenderFlag f = ((mask &&& f) != 0) := by
  subst h; rfl

namespace OpenGLShader

/-! ## The use count -/

/-- One `incrementUsed()` from a count that is not negative. -/
theorem incrementUsed_step (s : OpenGLShader) (material : Material) (k : Nat)
    (hm : s.material = some material) (hc : s.useCount = (k : Int))
    (hf : material.inUse = decide (1 ≤ k)) :
    ∃ material', (incrementUsed s).material = some material' ∧
      (incrementUsed s).useCount = ((k + 1 : Nat) : Int) ∧
      material'.inUse = decide (1 ≤ k + 1) := by
  unfold incrementUsed
  simp only [hc, hm]
  by_cases h : (k : Int) + 1 = 1
  · rw [if_pos h]
    exact ⟨_, rfl, by push_cast; rfl, by simp⟩
  · rw [if_neg h]
    refine ⟨material, rfl, by push_cast; rfl, ?_⟩
    have hk : 1 ≤ k := by omega
    simp [hf, hk]

/-- One `decrementUsed()` from a positive count. -/
theorem decrementUsed_step (s : OpenGLShader) (material : Material) (k : Nat)
    (hm : s.material = some material) (hc : s.useCount = ((k + 1 : Nat) : Int))
    (hf : material.inUse = decide (1 ≤ k + 1)) :
    ∃ material', (decrementUsed s).material = some material' ∧
      (decrementUsed s).useCount = (k : Int) ∧
      material'.inUse = decide (1 ≤ k) := by
  unfold decrementUsed
  simp only [hc, hm]
  by_cases h : ((k + 1 : Nat) : Int) - 1 = 0
  · rw [if_pos h]
    have hk : k = 0 := by omega
    exact ⟨_, rfl, by show ((k + 1 : Nat) : Int) - 1 = k; omega, by simp [hk]⟩
  · rw [if_neg h]
    refine ⟨material, rfl, by show ((k + 1 : Nat) : Int) - 1 = k; omega, ?_⟩
    have hk : 1 ≤ k := by omega
    simp [hf, hk]

/-- A run of `incrementUsed()` calls from a count that is not negative. -/
theorem incrementUsed_iterate (n : Nat) (s : OpenGLShader) (material : Material) (k : Nat)
    (hm : s.material = some material) (hc : s.useCount = (k : Int))
    (hf : material.inUse = decide (1 ≤ k)) :
    ∃ material', (incrementUsed^[n] s).material = some material' ∧
      (incrementUsed^[n] s).useCount = ((k + n : Nat) : Int) ∧
      material'.inUse = decide (1 ≤ k + n) := by
  induction n generalizing s material k with
  | zero => exact ⟨material, hm, hc, hf⟩
  | succ n ih =>
    obtain ⟨m', hm', hc', hf'⟩ := incrementUsed_step s material k hm hc hf
    obtain ⟨m₃, h1, h2, h3⟩ := ih (incrementUsed s) m' (k + 1) hm' hc' hf'
    refine ⟨m₃, ?_, ?_, ?_⟩
    · rw [Function.iterate_succ_apply]; exact h1
    · rw [Function.iterate_succ_apply, h2]; congr 1; omega
    · rw [h3]; congr 1; exact propext ⟨fun _ => by omega, fun _ => by omega⟩

/-- A run of `decrementUsed()` calls that does not go below zero. -/
theorem decrementUsed_iterate (m : Nat) (s : OpenGLShader) (material : Material) (k : Nat)
    (hm : s.material = some material) (hc : s.useCount = ((k + m : Nat) : Int))
    (hf : material.inUse = decide (1 ≤ k + m)) :
    ∃ material', (decrementUsed^[m] s).material = some material' ∧
      (decrementUsed^[m] s).useCount = (k : Int) ∧
      material'.inUse = decide (1 ≤ k) := by
  induction m generalizing s material with
  | zero => exact ⟨material, hm, hc, hf⟩
  | succ m ih =>
    obtain ⟨m', hm', hc', hf'⟩ := decrementUsed_step s material (k + m) hm hc hf
    obtain ⟨m₃, h1, h2, h3⟩ := ih (decrementUsed s) m' hm' hc' hf'
    exact ⟨m₃, by rw [Function.iterate_succ_apply]; exact h1,
      by rw [Function.iterate_succ_apply]; exact h2, h3⟩

/-- C11: on a shader holding a material, with use count 0 and the material's
in-use flag clear, `n` calls of `incrementUsed` followed by `m <= n` calls of
`decrementUsed` leave the in-use flag set if and only if `n > m`, and the use
count at `n - m`. -/
theorem in_use_iff_more_increments (s : OpenGLShader) (material : Material) (n m : Nat)
    (hm : s.material = some material) (hc : s.useCount = 0) (hf : material.inUse = false)
    (hle : m ≤ n) :
    (decrementUsed^[m] (incrementUsed^[n] s)).materialInUse = decide (n > m) ∧
      (decrementUsed^[m] (incrementUsed^[n] s)).useCount = ((n - m : Nat) : Int) := by
  obtain ⟨m₁, h1, h2, h3⟩ := incrementUsed_iterate n s material 0 hm (by simpa using hc)
    (by simpa using hf)
  obtain ⟨m₂, h4, h5, h6⟩ := decrementUsed_iterate m (incrementUsed^[n] s) m₁ (n - m) h1
    (by rw [h2]; congr 1; omega)
    (by rw [h3]; congr 1; exact propext ⟨fun _ => by omega, fun _ => by omega⟩)
  refine ⟨?_, h5⟩
  unfold materialInUse
  rw [h4]
  simp only [h6]
  congr 1
  exact propext ⟨fun h => by omega, fun h => by omega⟩

/-- Two increments and one decrement leave the flag set; two increments and two
decrements clear it. -/
theorem in_use_iff_more_increments_witness :
    (sampleShaderWith []).material = some (sampleMaterial "textures/sample" []) ∧
      (sampleShaderWith []).useCount = 0 ∧
      (sampleMaterial "textures/sample" []).inUse = false ∧
      ((decrementUsed^[1] (incrementUsed^[2] (sampleShaderWith []))).materialInUse =
          decide (2 > 1) ∧
        (decrementUsed^[1] (incrementUsed^[2] (sampleShaderWith []))).useCount =
          ((2 - 1 : Nat) : Int)) ∧
      ((decrementUsed^[2] (incrementUsed^[2] (sampleShaderWith []))).materialInUse =
          decide (2 > 2) ∧
        (decrementUsed^[2] (incrementUsed^[2] (sampleShaderWith []))).useCount =
          ((2 - 2 : Nat) : Int)) :=
  ⟨rfl, rfl, rfl,
    in_use_iff_more_increments (sampleShaderWith []) (sampleMaterial "textures/sample" []) 2 1
      rfl rfl rfl (by decide),
    in_use_iff_more_increments (sampleShaderWith []) (sampleMaterial "textures/sample" []) 2 2
      rfl rfl rfl (by decide)⟩

/-- C12, as stated, fails: on the sample shader, whose use count is 0,
`decrementUsed` leaves a use count that is not 0, and the `incrementUsed`
that follows neither reaches 1 nor sets the in-use flag of the material. -/
theorem decrementUsed_does_not_saturate :
    (sampleShaderWith []).useCount = 0 ∧
      (decrementUsed (sampleShaderWith [])).useCount ≠ 0 ∧
      (incrementUsed (decrementUsed (sampleShaderWith []))).useCount ≠ 1 ∧
      (incrementUsed (decrementUsed (sampleShaderWith []))).materialInUse = false := by
  decide

/-- C12, amended: `decrementUsed` has no guard at zero. On a shader whose use
count is 0 it leaves a use count that is not 0 and leaves the material alone;
the `incrementUsed` that follows does not reach the count 1 and leaves the
material alone as well, the in-use flag included. -/
theorem decrementUsed_at_zero (s : OpenGLShader) (hc : s.useCount = 0) :
    (decrementUsed s).useCount ≠ 0 ∧ (decrementUsed s).material = s.material ∧
      (incrementUsed (decrementUsed s)).useCount ≠ 1 ∧
      (incrementUsed (decrementUsed s)).material = s.material := by
  have h1 : decrementUsed s = { s with useCount := -1 } := by
    unfold decrementUsed
    simp [hc]
  rw [h1]
  refine ⟨?_, rfl, ?_, ?_⟩ <;> simp [incrementUsed]

/-- The sample shader, whose use count is 0. -/
theorem decrementUsed_at_zero_witness :
    (sampleShaderWith []).useCount = 0 ∧
      (decrementUsed (sampleShaderWith [])).useCount ≠ 0 ∧
      (decrementUsed (sampleShaderWith [])).material = (sampleShaderWith []).material ∧
      (incrementUsed (decrementUsed (sampleShaderWith []))).useCount ≠ 1 ∧
      (incrementUsed (decrementUsed (sampleShaderWith []))).material =
        (sampleShaderWith []).material :=
  ⟨rfl, decrementUsed_at_zero (sampleShaderWith []) rfl⟩

/-! ## The literal colour shaders -/

/-- C13, as stated, fails: for the name `(0.1 0.2 0.3)` the colour of the pass
is not `(0.1, 0.2, 0.3, 1)`. Its components are doubles: the first is
`3602879701896397 / 2 ^ 55`, the double nearest to `1 / 10`. -/
theorem fill_colour_is_rounded :
    colourName '(' ')' ⟨false, [0], [1]⟩ ⟨false, [0], [2]⟩ ⟨false, [0], [3]⟩ =
        "(0.1 0.2 0.3)" ∧
      (Decimal.mk false [0] [1]).value = 1 / 10 ∧
      ((construct (sampleEnv []) sampleShader "(0.1 0.2 0.3)").shaderPasses.map
        fun p => p.state.colour.r) = [mkRat 3602879701896397 36028797018963968] ∧
      mkRat 3602879701896397 36028797018963968 ≠ (1 / 10 : ℚ) := by
  refine ⟨by decide, by simp [Decimal.value, digitsNat], by decide, ?_⟩
  rw [Rat.mkRat_eq_div]
  norm_num

/-- C13, amended: for the name `(r g b)` of three decimal numbers within the
range of `double`, `construct` appends exactly one pass; its colour is
`(r', g', b', 1)` with `r'`, `g'`, `b'` the doubles nearest to `r`, `g`, `b`,
the flags FILL, LIGHTING, DEPTHTEST, CULLFACE and DEPTHWRITE are set, the sort
bucket is FULLBRIGHT, and the material reference is left as it was (null on a
fresh shader). -/
theorem fill_colour_shader (env : Env) (s : OpenGLShader) (r g b : Decimal)
    (hr : r.Finite) (hg : g.Finite) (hb : b.Finite) :
    ∃ p, (construct env s (colourName '(' ')' r g b)).shaderPasses = s.shaderPasses ++ [p] ∧
      p.state.colour = ⟨r.double, g.double, b.double, 1⟩ ∧
      p.state.testRenderFlag RENDER_FILL = true ∧
      p.state.testRenderFlag RENDER_LIGHTING = true ∧
      p.state.testRenderFlag RENDER_DEPTHTEST = true ∧
      p.state.testRenderFlag RENDER_CULLFACE = true ∧
      p.state.testRenderFlag RENDER_DEPTHWRITE = true ∧
      p.state.sortPosition = .SORT_FULLBRIGHT ∧
      (construct env s (colourName '(' ')' r g b)).material = s.material := by
  refine ⟨_, rfl, ?_, ?_, ?_, ?_, ?_, ?_, rfl, rfl⟩
  · show Colour4.mk (sscanfColour '(' (colourName '(' ')' r g b) env.colour4Default).r
      (sscanfColour '(' (colourName '(' ')' r g b) env.colour4Default).g
      (sscanfColour '(' (colourName '(' ')' r g b) env.colour4Default).b 1 = _
    rw [sscanfColour_colourName '(' ')' terminator_round r g b hr.digit hg.digit hb.digit]
  all_goals
    simp only []
    rw [testRenderFlag_setSortPosition]
    repeat first
      | exact testRenderFlag_set_self _ _
      | apply testRenderFlag_set_of

/-- The name `(1 0 0)` gives the colour `(1, 0, 0, 1)`: 1 and 0 are doubles. -/
theorem fill_colour_shader_witness :
    (Decimal.mk false [1] []).Finite ∧ (Decimal.mk false [0] []).Finite ∧
      colourName '(' ')' ⟨false, [1], []⟩ ⟨false, [0], []⟩ ⟨false, [0], []⟩ = "(1 0 0)" ∧
      ∃ p, (construct (sampleEnv []) sampleShader "(1 0 0)").shaderPasses = [] ++ [p] ∧
        p.state.colour = ⟨1, 0, 0, 1⟩ := by
  have h1 : (Decimal.mk false [1] []).Finite := ⟨by decide, by decide⟩
  have h0 : (Decimal.mk false [0] []).Finite := ⟨by decide, by decide⟩
  obtain ⟨p, h, hc, _⟩ := fill_colour_shader (sampleEnv []) sampleShader ⟨false, [1], []⟩
    ⟨false, [0], []⟩ ⟨false, [0], []⟩ h1 h0 h0
  have e1 : (Decimal.mk false [1] []).double = 1 := by decide
  have e0 : (Decimal.mk false [0] []).double = 0 := by decide
  rw [e1, e0] at hc
  exact ⟨h1, h0, by decide, p, h, hc⟩

/-- C14, as stated, fails: for the name `[0.1 0.2 0.3]` the colour of the pass
is not `(0.1, 0.2, 0.3, 0.5)`. Its components are doubles: the first is
`3602879701896397 / 2 ^ 55`, the double nearest to `1 / 10`. -/
theorem translucent_colour_is_rounded :
    colourName '[' ']' ⟨false, [0], [1]⟩ ⟨false, [0], [2]⟩ ⟨false, [0], [3]⟩ =
        "[0.1 0.2 0.3]" ∧
      (Decimal.mk false [0] [1]).value = 1 / 10 ∧
      ((construct (sampleEnv []) sampleShader "[0.1 0.2 0.3]").shaderPasses.map
        fun p => p.state.colour.r) = [mkRat 3602879701896397 36028797018963968] ∧
      mkRat 3602879701896397 36028797018963968 ≠ (1 / 10 : ℚ) := by
  refine ⟨by decide, by simp [Decimal.value, digitsNat], by decide, ?_⟩
  rw [Rat.mkRat_eq_div]
  norm_num

/-- C14, amended: for the name `[r g b]` of three decimal numbers within the
range of `double`, `construct` appends exactly one pass; its colour is
`(r', g', b', 1/2)` with `r'`, `g'`, `b'` the doubles nearest to `r`, `g`,
`b`, RENDER_BLEND is set next to the flags of the fill pass of `(r g b)`, and
the sort bucket is TRANSLUCENT. -/
theorem translucent_colour_shader (env : Env) (s : OpenGLShader) (r g b : Decimal)
    (hr : r.Finite) (hg : g.Finite) (hb : b.Finite) :
    ∃ p, (construct env s (colourName '[' ']' r g b)).shaderPasses = s.shaderPasses ++ [p] ∧
      p.state.colour = ⟨r.double, g.double, b.double, 1 / 2⟩ ∧
      p.state.testRenderFlag RENDER_BLEND = true ∧
      p.state.testRenderFlag RENDER_FILL = true ∧
      p.state.testRenderFlag RENDER_LIGHTING = true ∧
      p.state.testRenderFlag RENDER_DEPTHTEST = true ∧
      p.state.testRenderFlag RENDER_CULLFACE = true ∧
      p.state.testRenderFlag RENDER_DEPTHWRITE = true ∧
      p.state.sortPosition = .SORT_TRANSLUCENT ∧
      (construct env s (colourName '[' ']' r g b)).material = s.material := by
  refine ⟨_, rfl, ?_, ?_, ?_, ?_, ?_, ?_, ?_, rfl, rfl⟩
  · show Colour4.mk (sscanfColour '[' (colourName '[' ']' r g b) env.colour4Default).r
      (sscanfColour '[' (colourName '[' ']' r g b) env.colour4Default).g
      (sscanfColour '[' (colourName '[' ']' r g b) env.colour4Default).b (1 / 2) = _
    rw [sscanfColour_colourName '[' ']' terminator_square r g b hr.digit hg.digit hb.digit]
  all_goals
    simp only []
    rw [testRenderFlag_setSortPosition]
    repeat first
      | exact testRenderFlag_set_self _ _
      | apply testRenderFlag_set_of

/-- The name `[0 1 0]` gives the colour `(0, 1, 0, 1/2)`: 0 and 1 are doubles. -/
theorem translucent_colour_shader_witness :
    (Decimal.mk false [1] []).Finite ∧ (Decimal.mk false [0] []).Finite ∧
      colourName '[' ']' ⟨false, [0], []⟩ ⟨false, [1], []⟩ ⟨false, [0], []⟩ = "[0 1 0]" ∧
      ∃ p, (construct (sampleEnv []) sampleShader "[0 1 0]").shaderPasses = [] ++ [p] ∧
        p.state.colour = ⟨0, 1, 0, 1 / 2⟩ ∧
        p.state.sortPosition = .SORT_TRANSLUCENT := by
  have h1 : (Decimal.mk false [1] []).Finite := ⟨by decide, by decide⟩
  have h0 : (Decimal.mk false [0] []).Finite := ⟨by decide, by decide⟩
  obtain ⟨p, h, hc, _, _, _, _, _, _, hs, _⟩ := translucent_colour_shader (sampleEnv [])
    sampleShader ⟨false, [0], []⟩ ⟨false, [1], []⟩ ⟨false, [0], []⟩ h0 h1 h0
  have e1 : (Decimal.mk false [1] []).double = 1 := by decide
  have e0 : (Decimal.mk false [0] []).double = 0 := by decide
  rw [e1, e0] at hc
  exact ⟨h1, h0, by decide, p, h, hc, hs⟩

/-! ## The `$` shaders -/

/-- The pass appended for one state. -/
theorem appendStates_one (s t : OpenGLShader) (a : OpenGLState)
    (h : t = s.appendStates [a]) :
    ∃ p, t.shaderPasses = s.shaderPasses ++ [p] ∧ p.state = a := by
  subst h
  rw [appendStates_eq]
  exact ⟨_, rfl, rfl⟩

/-- The passes appended for two states. -/
theorem appendStates_two (s t : OpenGLShader) (a b : OpenGLState)
    (h : t = s.appendStates [a, b]) :
    ∃ p q, t.shaderPasses = s.shaderPasses ++ [p, q] ∧ p.state = a ∧ q.state = b := by
  subst h
  rw [appendStates_eq]
  exact ⟨_, _, rfl, rfl, rfl⟩

/-- The two states of `$PIVOT`. -/
theorem pivot_states (env : Env) (s : OpenGLShader) :
    ∃ a b, construct env s "$PIVOT" = s.appendStates [a, b] ∧
      a.renderFlags = RENDER_DEPTHTEST ||| RENDER_DEPTHWRITE ∧
      b.renderFlags = RENDER_DEPTHTEST ||| RENDER_LINESTIPPLE ∧
      a.m_depthfunc = GL_LEQUAL ∧ b.m_depthfunc = GL_GREATER :=
  ⟨_, _, rfl, rfl, rfl, rfl, rfl⟩

/-- The two states of `$CAM_OVERLAY`; the first keeps the depth function of a
fresh state. -/
theorem cam_overlay_states (env : Env) (s : OpenGLShader) :
    ∃ a b, construct env s "$CAM_OVERLAY" = s.appendStates [a, b] ∧
      a.renderFlags = RENDER_OFFSETLINE ||| RENDER_DEPTHTEST ∧
      b.renderFlags =
        RENDER_CULLFACE ||| RENDER_DEPTHTEST ||| RENDER_OFFSETLINE ||| RENDER_LINESTIPPLE ∧
      a.m_depthfunc = env.defaultState.m_depthfunc ∧ b.m_depthfunc = GL_GREATER :=
  ⟨_, _, rfl, rfl, rfl, rfl, rfl⟩

/-- The two states of `$WIRE_OVERLAY`. -/
theorem wire_overlay_states (env : Env) (s : OpenGLShader) :
    ∃ a b, construct env s "$WIRE_OVERLAY" = s.appendStates [a, b] ∧
      a.renderFlags =
        RENDER_DEPTHWRITE ||| RENDER_DEPTHTEST ||| RENDER_OVERRIDE ||| RENDER_VERTEX_COLOUR ∧
      b.renderFlags =
        RENDER_DEPTHWRITE ||| RENDER_DEPTHTEST ||| RENDER_OVERRIDE ||| RENDER_LINESTIPPLE |||
          RENDER_VERTEX_COLOUR ∧
      a.m_depthfunc = GL_LEQUAL ∧ b.m_depthfunc = GL_GREATER :=
  ⟨_, _, rfl, rfl, rfl, rfl, rfl⟩

/-- The two states of `$FLATSHADE_OVERLAY`; the second is polygon-stippled. -/
theorem flatshade_overlay_states (env : Env) (s : OpenGLShader) :
    ∃ a b, construct env s "$FLATSHADE_OVERLAY" = s.appendStates [a, b] ∧
      a.renderFlags =
        RENDER_CULLFACE ||| RENDER_LIGHTING ||| RENDER_SMOOTH ||| RENDER_SCALED |||
          RENDER_FILL ||| RENDER_DEPTHWRITE ||| RENDER_DEPTHTEST ||| RENDER_OVERRIDE ∧
      b.renderFlags =
        RENDER_CULLFACE ||| RENDER_LIGHTING ||| RENDER_SMOOTH ||| RENDER_SCALED |||
          RENDER_FILL ||| RENDER_DEPTHWRITE ||| RENDER_DEPTHTEST ||| RENDER_OVERRIDE |||
          RENDER_POLYGONSTIPPLE ∧
      a.m_depthfunc = GL_LEQUAL ∧ b.m_depthfunc = GL_GREATER :=
  ⟨_, _, rfl, rfl, rfl, rfl, rfl⟩

/-- The two states of `$AAS_AREA`. -/
theorem aas_area_states (env : Env) (s : OpenGLShader) :
    ∃ a b, construct env s "$AAS_AREA" = s.appendStates [a, b] ∧
      a.renderFlags = RENDER_DEPTHWRITE ||| RENDER_DEPTHTEST ||| RENDER_OVERRIDE ∧
      b.renderFlags =
        RENDER_DEPTHWRITE ||| RENDER_DEPTHTEST ||| RENDER_OVERRIDE ||| RENDER_LINESTIPPLE ∧
      a.m_depthfunc = GL_LEQUAL ∧ b.m_depthfunc = GL_GREATER :=
  ⟨_, _, rfl, rfl, rfl, rfl, rfl⟩

/-- C15: `construct("$PIVOT")` appends exactly two passes: the first has depth
function GL_LEQUAL, the second, the hidden-line pass, has depth function
GL_GREATER and RENDER_LINESTIPPLE set. -/
theorem pivot_shader_passes (env : Env) (s : OpenGLShader) :
    ∃ p q, (construct env s "$PIVOT").shaderPasses = s.shaderPasses ++ [p, q] ∧
      p.state.m_depthfunc = GL_LEQUAL ∧ q.state.m_depthfunc = GL_GREATER ∧
      q.state.testRenderFlag RENDER_LINESTIPPLE = true := by
  obtain ⟨a, b, h, _, hb, ha', hb'⟩ := pivot_states env s
  obtain ⟨p, q, hpq, rfl, rfl⟩ := appendStates_two s _ a b h
  exact ⟨p, q, hpq, ha', hb', (testRenderFlag_mask _ _ _ hb).trans (by decide)⟩

/-- C16, as stated, fails: the second pass of `$FLATSHADE_OVERLAY` does not
have RENDER_LINESTIPPLE set, and the first pass of `$CAM_OVERLAY` keeps the
depth function of a fresh state, GL_LESS in the sample environment, not
GL_LEQUAL. -/
theorem flatshade_hidden_pass_not_line_stippled :
    "$FLATSHADE_OVERLAY" ∈ hiddenLineNames ∧ "$CAM_OVERLAY" ∈ hiddenLineNames ∧
      (construct (sampleEnv []) sampleShader "$FLATSHADE_OVERLAY").shaderPasses.map
        (fun p => p.state.testRenderFlag RENDER_LINESTIPPLE) = [false, false] ∧
      (construct (sampleEnv []) sampleShader "$CAM_OVERLAY").shaderPasses.map
        (fun p => p.state.m_depthfunc) = [GL_LESS, GL_GREATER] ∧
      GL_LESS ≠ GL_LEQUAL := by
  decide

/-- C16, amended: for each of `$PIVOT`, `$CAM_OVERLAY`, `$WIRE_OVERLAY`,
`$FLATSHADE_OVERLAY` and `$AAS_AREA`, `construct` appends exactly two passes,
both with RENDER_DEPTHTEST set, the second with depth function GL_GREATER. The
first has depth function GL_LEQUAL, except for `$CAM_OVERLAY`, whose first pass
keeps the depth function of a fresh state. The second has RENDER_LINESTIPPLE
set, except for `$FLATSHADE_OVERLAY`, whose second pass has
RENDER_POLYGONSTIPPLE set instead. Every other recognised `$` name appends
exactly one pass. -/
theorem hidden_line_shaders (env : Env) (s : OpenGLShader) (name : String) :
    (name ∈ hiddenLineNames →
      ∃ p q, (construct env s name).shaderPasses = s.shaderPasses ++ [p, q] ∧
        p.state.testRenderFlag RENDER_DEPTHTEST = true ∧
        q.state.testRenderFlag RENDER_DEPTHTEST = true ∧
        q.state.m_depthfunc = GL_GREATER ∧
        (name ≠ "$CAM_OVERLAY" → p.state.m_depthfunc = GL_LEQUAL) ∧
        (name = "$CAM_OVERLAY" → p.state.m_depthfunc = env.defaultState.m_depthfunc) ∧
        (name ≠ "$FLATSHADE_OVERLAY" → q.state.testRenderFlag RENDER_LINESTIPPLE = true) ∧
        (name = "$FLATSHADE_OVERLAY" → q.state.testRenderFlag RENDER_LINESTIPPLE = false ∧
          q.state.testRenderFlag RENDER_POLYGONSTIPPLE = true)) ∧
    (name ∈ builtInNames → name ∉ hiddenLineNames →
      ∃ p, (construct env s name).shaderPasses = s.shaderPasses ++ [p]) := by
  constructor
  · intro h
    simp only [hiddenLineNames, List.mem_cons, List.mem_singleton, List.not_mem_nil,
      or_false] at h
    rcases h with rfl | rfl | rfl | rfl | rfl
    · obtain ⟨a, b, h, ha, hb, ha', hb'⟩ := pivot_states env s
      obtain ⟨p, q, hpq, rfl, rfl⟩ := appendStates_two s _ a b h
      exact ⟨p, q, hpq, (testRenderFlag_mask _ _ _ ha).trans (by decide),
        (testRenderFlag_mask _ _ _ hb).trans (by decide), hb', fun _ => ha',
        fun h => absurd h (by decide),
        fun _ => (testRenderFlag_mask _ _ _ hb).trans (by decide),
        fun h => absurd h (by decide)⟩
    · obtain ⟨a, b, h, ha, hb, ha', hb'⟩ := cam_overlay_states env s
      obtain ⟨p, q, hpq, rfl, rfl⟩ := appendStates_two s _ a b h
      exact ⟨p, q, hpq, (testRenderFlag_mask _ _ _ ha).trans (by decide),
        (testRenderFlag_mask _ _ _ hb).trans (by decide), hb', fun h => absurd rfl h,
        fun _ => ha',
        fun _ => (testRenderFlag_mask _ _ _ hb).trans (by decide),
        fun h => absurd h (by decide)⟩
    · obtain ⟨a, b, h, ha, hb, ha', hb'⟩ := wire_overlay_states env s
      obtain ⟨p, q, hpq, rfl, rfl⟩ := appendStates_two s _ a b h
      exact ⟨p, q, hpq, (testRenderFlag_mask _ _ _ ha).trans (by decide),
        (testRenderFlag_mask _ _ _ hb).trans (by decide), hb', fun _ => ha',
        fun h => absurd h (by decide),
        fun _ => (testRenderFlag_mask _ _ _ hb).trans (by decide),
        fun h => absurd h (by decide)⟩
    · obtain ⟨a, b, h, ha, hb, ha', hb'⟩ := flatshade_overlay_states env s
      obtain ⟨p, q, hpq, rfl, rfl⟩ := appendStates_two s _ a b h
      exact ⟨p, q, hpq, (testRenderFlag_mask _ _ _ ha).trans (by decide),
        (testRenderFlag_mask _ _ _ hb).trans (by decide), hb', fun _ => ha',
        fun h => absurd h (by decide),
        fun h => absurd rfl h,
        fun _ => ⟨(testRenderFlag_mask _ _ _ hb).trans (by decide),
          (testRenderFlag_mask _ _ _ hb).trans (by decide)⟩⟩
    · obtain ⟨a, b, h, ha, hb, ha', hb'⟩ := aas_area_states env s
      obtain ⟨p, q, hpq, rfl, rfl⟩ := appendStates_two s _ a b h
      exact ⟨p, q, hpq, (testRenderFlag_mask _ _ _ ha).trans (by decide),
        (testRenderFlag_mask _ _ _ hb).trans (by decide), hb', fun _ => ha',
        fun h => absurd h (by decide),
        fun _ => (testRenderFlag_mask _ _ _ hb).trans (by decide),
        fun h => absurd h (by decide)⟩
  · intro h hn
    simp only [builtInNames, hiddenLineNames, List.mem_cons, List.mem_singleton,
      List.not_mem_nil, or_false, not_or] at h hn
    rcases h with rfl | rfl | rfl | rfl | rfl | rfl | rfl | rfl | rfl | rfl | rfl | rfl | rfl |
      rfl | rfl | rfl
    all_goals first
      | exact ⟨_, rfl⟩
      | exact absurd rfl hn.1
      | exact absurd rfl hn.2.1
      | exact absurd rfl hn.2.2.1
      | exact absurd rfl hn.2.2.2.1
      | exact absurd rfl hn.2.2.2.2

theorem hidden_line_shaders_witness :
    "$WIRE_OVERLAY" ∈ hiddenLineNames ∧ "$POINT" ∈ builtInNames ∧
      "$POINT" ∉ hiddenLineNames ∧
      (∃ p q, (construct (sampleEnv []) sampleShader "$WIRE_OVERLAY").shaderPasses =
          sampleShader.shaderPasses ++ [p, q] ∧
        p.state.testRenderFlag RENDER_DEPTHTEST = true ∧
        q.state.testRenderFlag RENDER_DEPTHTEST = true ∧
        q.state.m_depthfunc = GL_GREATER) ∧
      ∃ p, (construct (sampleEnv []) sampleShader "$POINT").shaderPasses =
        sampleShader.shaderPasses ++ [p] := by
  refine ⟨by decide, by decide, by decide, ?_,
    (hidden_line_shaders (sampleEnv []) sampleShader "$POINT").2 (by decide) (by decide)⟩
  obtain ⟨p, q, h, h1, h2, h3, _⟩ :=
    (hidden_line_shaders (sampleEnv []) sampleShader "$WIRE_OVERLAY").1 (by decide)
  exact ⟨p, q, h, h1, h2, h3⟩

/-- A name starting with `$` is handled by the `$` branch. -/
theorem construct_dollar (env : Env) (s : OpenGLShader) (name : String)
    (hd : name.toList.head? = some '$') :
    construct env s name = constructBuiltIn env s name := by
  unfold construct
  rw [hd]
  rfl

/-- The `$` branch on a name that none of its comparisons matches: the pass has
been appended and named, and nothing else is done to it. -/
theorem constructBuiltIn_unknown (env : Env) (s : OpenGLShader) (name : String)
    (hn : name ∉ builtInNames) :
    constructBuiltIn env s name = appendDefaultPass env s fun state => state.setName name := by
  simp only [builtInNames, List.mem_cons, List.mem_singleton, List.not_mem_nil, or_false,
    not_or] at hn
  obtain ⟨h1, h2, h3, h4, h5, h6, h7, h8, h9, h10, h11, h12, h13, h14, h15, h16⟩ := hn
  unfold constructBuiltIn
  rw [if_neg h1, if_neg h2, if_neg h3, if_neg h4, if_neg h5, if_neg h6, if_neg h7, if_neg h8,
    if_neg h9, if_neg h10, if_neg h11, if_neg h12, if_neg h13, if_neg h14, if_neg h15,
    if_neg h16]

/-- C17, as stated, fails: the pass of the unknown name `$UNKNOWN` has the
colour of a fresh state, white in the sample environment, which is also the
colour of the pass of `$WIREFRAME`; it is not magenta. -/
theorem unknown_builtin_pass_not_magenta :
    "$UNKNOWN".toList.head? = some '$' ∧ "$UNKNOWN" ∉ builtInNames ∧
      (construct (sampleEnv []) sampleShader "$UNKNOWN").shaderPasses.map
        (fun p => p.state.colour) = [⟨1, 1, 1, 1⟩] ∧
      (construct (sampleEnv []) sampleShader "$UNKNOWN").shaderPasses.map
        (fun p => p.state.colour) =
      (construct (sampleEnv []) sampleShader "$WIREFRAME").shaderPasses.map
        (fun p => p.state.colour) ∧
      (⟨1, 1, 1, 1⟩ : Colour4) ≠ ⟨1, 0, 1, 1⟩ := by
  decide

/-- C17, amended: with assertions compiled out, for every name that starts
with `$` and is not one of the recognised built-in names, `construct` completes
and appends a single pass that carries the name and is otherwise the state of a
fresh pass; no colour is set, and the material reference is left as it was. -/
theorem unknown_builtin_default_pass (env : Env) (s : OpenGLShader) (name : String)
    (hd : name.toList.head? = some '$') (hn : name ∉ builtInNames) :
    ∃ p, (construct env s name).shaderPasses = s.shaderPasses ++ [p] ∧
      p.state = env.defaultState.setName name ∧
      (construct env s name).material = s.material := by
  rw [construct_dollar env s name hd, constructBuiltIn_unknown env s name hn]
  exact ⟨_, rfl, rfl, rfl⟩

theorem unknown_builtin_default_pass_witness :
    "$UNKNOWN".toList.head? = some '$' ∧ "$UNKNOWN" ∉ builtInNames ∧
      ∃ p, (construct (sampleEnv []) sampleShader "$UNKNOWN").shaderPasses =
          sampleShader.shaderPasses ++ [p] ∧
        p.state = (sampleEnv []).defaultState.setName "$UNKNOWN" ∧
        (construct (sampleEnv []) sampleShader "$UNKNOWN").material = sampleShader.material :=
  ⟨by decide, by decide,
    unknown_builtin_default_pass (sampleEnv []) sampleShader "$UNKNOWN" (by decide) (by decide)⟩

/-! ## Realised, material and passes -/

/-- A name that is not a built-in literal is handled by
`constructNormalShader`. -/
theorem construct_normal (env : Env) (s : OpenGLShader) (name : String)
    (h : isBuiltInLiteral name = false) :
    construct env s name = constructNormalShader env s name := by
  simp only [isBuiltInLiteral, Bool.or_eq_false_iff, decide_eq_false_iff_not] at h
  obtain ⟨⟨⟨h1, h2⟩, h3⟩, h4⟩ := h
  unfold construct
  split
  · rename_i heq; exact absurd heq h1
  · rename_i heq; exact absurd heq h2
  · rename_i heq; exact absurd heq h3
  · rename_i heq; exact absurd heq h4
  · rfl

/-- A submitted triplet yields at least the interaction pass. -/
theorem interactionStates_ne_nil (env : Env) (t : DBSTriplet) :
    interactionStates env t ≠ [] := by
  unfold interactionStates
  simp

/-- The lighting construction yields a pass as soon as a layer is pending or
still to come. -/
theorem lightingStates_ne_nil (env : Env) (material : Material) (layers : List ShaderLayer) :
    ∀ t : DBSTriplet, t.pending = true ∨ layers ≠ [] →
      lightingStates env material t layers ≠ [] := by
  induction layers with
  | nil =>
    intro t h
    rcases h with h | h
    · simp only [lightingStates, h, if_true]
      exact interactionStates_ne_nil env t
    · exact absurd rfl h
  | cons layer rest ih =>
    intro t _
    unfold lightingStates
    split
    · split
      · simp [interactionStates_ne_nil]
      · exact ih _ (Or.inl (by simp [DBSTriplet.pending]))
    · split
      · simp [interactionStates_ne_nil]
      · exact ih _ (Or.inl (by simp [DBSTriplet.pending]))
    · split
      · simp [interactionStates_ne_nil]
      · exact ih _ (Or.inl (by simp [DBSTriplet.pending]))
    · split
      · simp [interactionStates_ne_nil]
      · simp


/-- Which construction `constructNormalShader` uses: the two render system
members `canUseLightingMode` reads. -/
theorem insertSortedState_programs (rs : OpenGLRenderSystem) (e : SortedState) :
    (rs.insertSortedState e).shaderProgramsAvailable = rs.shaderProgramsAvailable ∧
      (rs.insertSortedState e).currentShaderProgram = rs.currentShaderProgram := by
  unfold OpenGLRenderSystem.insertSortedState
  split <;> exact ⟨rfl, rfl⟩

theorem foldl_insert_programs (ps : List OpenGLShaderPass) (rs : OpenGLRenderSystem) :
    (ps.foldl (fun rs p => rs.insertSortedState p.sortedState) rs).shaderProgramsAvailable =
        rs.shaderProgramsAvailable ∧
      (ps.foldl (fun rs p => rs.insertSortedState p.sortedState) rs).currentShaderProgram =
        rs.currentShaderProgram := by
  induction ps generalizing rs with
  | nil => exact ⟨rfl, rfl⟩
  | cons p ps ih =>
    rw [List.foldl_cons]
    exact ⟨(ih _).1.trans (insertSortedState_programs rs _).1,
      (ih _).2.trans (insertSortedState_programs rs _).2⟩

theorem foldl_erase_programs (ps : List OpenGLShaderPass) (rs : OpenGLRenderSystem) :
    (ps.foldl (fun rs p => rs.eraseSortedState p.id) rs).shaderProgramsAvailable =
        rs.shaderProgramsAvailable ∧
      (ps.foldl (fun rs p => rs.eraseSortedState p.id) rs).currentShaderProgram =
        rs.currentShaderProgram := by
  induction ps generalizing rs with
  | nil => exact ⟨rfl, rfl⟩
  | cons p ps ih =>
    rw [List.foldl_cons]
    exact ⟨(ih _).1, (ih _).2⟩

theorem insertPasses_lighting (s : OpenGLShader) :
    s.insertPasses.canUseLightingMode = s.canUseLightingMode := by
  unfold canUseLightingMode insertPasses
  simp only []
  rw [(foldl_insert_programs _ _).1, (foldl_insert_programs _ _).2]

theorem removePasses_lighting (s : OpenGLShader) :
    s.removePasses.canUseLightingMode = s.canUseLightingMode := by
  unfold canUseLightingMode removePasses
  simp only []
  rw [(foldl_erase_programs _ _).1, (foldl_erase_programs _ _).2]

theorem realise_lighting (env : Env) (s : OpenGLShader) (name : String) :
    (realise env s name).canUseLightingMode = s.canUseLightingMode := by
  obtain ⟨states, -, hr, -⟩ := realise_fields env s name
  unfold canUseLightingMode
  rw [hr, (foldl_insert_programs _ _).1, (foldl_insert_programs _ _).2]

theorem unrealise_lighting (s : OpenGLShader) :
    s.unrealise.canUseLightingMode = s.canUseLightingMode :=
  removePasses_lighting (s.notifyObservers false)

theorem setVisible_lighting (s : OpenGLShader) (visible : Bool) :
    (s.setVisible visible).canUseLightingMode = s.canUseLightingMode := by
  unfold setVisible
  simp only []
  split
  · exact insertPasses_lighting s
  · split
    · exact removePasses_lighting s
    · rfl

theorem realise_shaderPasses (env : Env) (s : OpenGLShader) (name : String) :
    (realise env s name).shaderPasses = (construct env s name).shaderPasses := by
  unfold realise
  simp only []
  split <;> rfl

theorem realise_isRealised (env : Env) (s : OpenGLShader) (name : String) :
    (realise env s name).isRealised = (construct env s name).isRealised := by
  unfold realise isRealised
  simp only []
  split
  · rename_i material h
    rw [h]; rfl
  · rfl

theorem constructNormalShader_isRealised (env : Env) (s : OpenGLShader) (name : String) :
    (constructNormalShader env s name).isRealised = true := by
  unfold constructNormalShader isRealised
  simp only []
  split
  · rw [constructLighting_eq env _ _ rfl, appendStates_eq]; rfl
  · rfl

theorem freshPasses_ne_nil (c : Nat) (states : List OpenGLState) (h : states ≠ []) :
    freshPasses c states ≠ [] := by
  cases states with
  | nil => exact absurd rfl h
  | cons st rest => simp [freshPasses]

theorem constructNormalShader_passes (env : Env) (s : OpenGLShader) (name : String)
    (h : s.canUseLightingMode = true → (env.getMaterialForName name).layers ≠ []) :
    (constructNormalShader env s name).shaderPasses ≠ [] := by
  unfold constructNormalShader
  simp only []
  split
  · rename_i hl
    rw [constructLighting_fresh env _ _ rfl]
    intro hnil
    exact freshPasses_ne_nil _ _ (lightingStates_ne_nil env _ _ _ (Or.inr (h hl)))
      (List.append_eq_nil.1 hnil).2
  · intro hnil
    have := (List.append_eq_nil.1 hnil).2
    simp at this

/-- The constructions used on a material without layers in lighting mode:
no pass is appended. -/
theorem constructNormalShader_no_layers (env : Env) (s : OpenGLShader) (name : String)
    (hl : s.canUseLightingMode = true) (h : (env.getMaterialForName name).layers = []) :
    (constructNormalShader env s name).shaderPasses = s.shaderPasses := by
  unfold constructNormalShader
  simp only []
  have hl' : ({ s with material := some (env.getMaterialForName name) } :
      OpenGLShader).canUseLightingMode = true := hl
  rw [if_pos hl', constructLighting_fresh env _ _ rfl, h]
  simp [lightingStates, DBSTriplet.pending, DBSTriplet.init, freshPasses]

/-- What holds in every state the calls reach: the material reference is set
exactly when there are passes. -/
theorem runCalls_material_iff_passes (env : Env) (calls : List LifecycleCall) :
    ∀ s : OpenGLShader, (s.isRealised = true ↔ s.shaderPasses ≠ []) →
      (∀ name, LifecycleCall.realise name ∈ calls → isBuiltInLiteral name = false) →
      (s.canUseLightingMode = true → ∀ name, LifecycleCall.realise name ∈ calls →
        (env.getMaterialForName name).layers ≠ []) →
      ((runCalls env s calls).isRealised = true ↔ (runCalls env s calls).shaderPasses ≠ []) := by
  induction calls with
  | nil => intro s h _ _; exact h
  | cons c cs ih =>
    intro s h hnames hlayers
    unfold runCalls
    rw [List.foldl_cons]
    apply ih
    · cases c with
      | realise name =>
        show (realise env s name).isRealised = true ↔ (realise env s name).shaderPasses ≠ []
        rw [realise_isRealised, realise_shaderPasses,
          construct_normal env s name (hnames name (List.mem_cons_self _ _))]
        exact ⟨fun _ => constructNormalShader_passes env s name
            (fun hl => hlayers hl name (List.mem_cons_self _ _)),
          fun _ => constructNormalShader_isRealised env s name⟩
      | unrealise =>
        show (unrealise s).isRealised = true ↔ (unrealise s).shaderPasses ≠ []
        exact ⟨fun h => absurd h (by simp [unrealise, destroy, isRealised]),
          fun h => absurd rfl h⟩
      | setVisible visible =>
        have e₁ : (s.setVisible visible).isRealised = s.isRealised := by
          unfold setVisible isRealised; simp only []; split
          · rfl
          · split <;> rfl
        have e₂ : (s.setVisible visible).shaderPasses = s.shaderPasses := by
          unfold setVisible; simp only []; split
          · rfl
          · split <;> rfl
        show (s.setVisible visible).isRealised = true ↔ (s.setVisible visible).shaderPasses ≠ []
        rw [e₁, e₂]; exact h
    · exact fun name hmem => hnames name (List.mem_cons_of_mem _ hmem)
    · intro hl name hmem
      have e : (LifecycleCall.apply env s c).canUseLightingMode = s.canUseLightingMode := by
        cases c with
        | realise name => exact realise_lighting env s name
        | unrealise => exact unrealise_lighting s
        | setVisible visible => exact setVisible_lighting s visible
      exact hlayers (e ▸ hl) name (List.mem_cons_of_mem _ hmem)

/-- C18, as stated, fails: realising a material without layers in lighting
mode leaves the shader realised, its material reference set, and its pass list
empty. -/
theorem realised_without_passes :
    isBuiltInLiteral "textures/sample" = false ∧
      (realise (sampleEnv []) sampleShader "textures/sample").isRealised = true ∧
      (realise (sampleEnv []) sampleShader "textures/sample").material ≠ none ∧
      (realise (sampleEnv []) sampleShader "textures/sample").shaderPasses = [] := by
  decide

/-- C18, amended: in every state reached from a freshly constructed shader by
realise, unrealise and setVisible calls whose names are not built-in literals,
`isRealised()` is true exactly when the material reference is non-null; the
pass list is non-empty exactly then as well, provided that, when the lighting
construction is used, every realised material has at least one layer. Under
the same proviso all three hold after `realise(name)`, and none holds after
`unrealise()`. -/
theorem realised_iff_material_iff_passes (env : Env) (rs : OpenGLRenderSystem)
    (calls : List LifecycleCall)
    (hnames : ∀ name, LifecycleCall.realise name ∈ calls → isBuiltInLiteral name = false)
    (hlayers : (create rs).canUseLightingMode = true →
      ∀ name, LifecycleCall.realise name ∈ calls →
        (env.getMaterialForName name).layers ≠ []) :
    ((runCalls env (create rs) calls).isRealised = true ↔
        (runCalls env (create rs) calls).material ≠ none) ∧
      ((runCalls env (create rs) calls).material ≠ none ↔
        (runCalls env (create rs) calls).shaderPasses ≠ []) ∧
      (∀ name, isBuiltInLiteral name = false →
        ((create rs).canUseLightingMode = true → (env.getMaterialForName name).layers ≠ []) →
        ((runCalls env (create rs) calls).realise env name).isRealised = true ∧
          ((runCalls env (create rs) calls).realise env name).material ≠ none ∧
          ((runCalls env (create rs) calls).realise env name).shaderPasses ≠ []) ∧
      ((runCalls env (create rs) calls).unrealise.isRealised = false ∧
        (runCalls env (create rs) calls).unrealise.material = none ∧
        (runCalls env (create rs) calls).unrealise.shaderPasses = []) := by
  have hiff : ∀ t : OpenGLShader, t.isRealised = true ↔ t.material ≠ none := by
    intro t
    unfold isRealised
    cases t.material <;> simp
  have hrun := runCalls_material_iff_passes env calls (create rs)
    ⟨fun h => absurd h (by simp [create, isRealised]), fun h => absurd rfl h⟩ hnames hlayers
  have hlight : ∀ (cs : List LifecycleCall) (s : OpenGLShader),
      (runCalls env s cs).canUseLightingMode = s.canUseLightingMode := by
    intro cs
    induction cs with
    | nil => intro s; rfl
    | cons c cs ih =>
      intro s
      unfold runCalls
      rw [List.foldl_cons]
      refine (ih _).trans ?_
      cases c with
      | realise name => exact realise_lighting env s name
      | unrealise => exact unrealise_lighting s
      | setVisible visible => exact setVisible_lighting s visible
  refine ⟨hiff _, (hiff _).symm.trans hrun, ?_, rfl, rfl, rfl⟩
  intro name hname hl
  have hr : ((runCalls env (create rs) calls).realise env name).isRealised = true := by
    rw [realise_isRealised, construct_normal env _ name hname]
    exact constructNormalShader_isRealised env _ name
  refine ⟨hr, (hiff _).1 hr, ?_⟩
  rw [realise_shaderPasses, construct_normal env _ name hname]
  exact constructNormalShader_passes env _ name (fun h => hl ((hlight calls _) ▸ h))

theorem realised_iff_material_iff_passes_witness :
    (∀ name, LifecycleCall.realise name ∈
        [LifecycleCall.realise "textures/sample", .unrealise, .realise "textures/other"] →
        isBuiltInLiteral name = false) ∧
      ((runCalls (sampleEnv [sampleLayer 1 .DIFFUSE 0]) sampleShader
          [.realise "textures/sample", .unrealise, .realise "textures/other"]).isRealised = true ↔
        (runCalls (sampleEnv [sampleLayer 1 .DIFFUSE 0]) sampleShader
          [.realise "textures/sample", .unrealise, .realise "textures/other"]).material ≠
            none) ∧
      ((runCalls (sampleEnv [sampleLayer 1 .DIFFUSE 0]) sampleShader
          [.realise "textures/sample", .unrealise, .realise "textures/other"]).material ≠ none ↔
        (runCalls (sampleEnv [sampleLayer 1 .DIFFUSE 0]) sampleShader
          [.realise "textures/sample", .unrealise, .realise "textures/other"]).shaderPasses ≠
            []) := by
  have hn : ∀ name, LifecycleCall.realise name ∈
      [LifecycleCall.realise "textures/sample", .unrealise, .realise "textures/other"] →
      isBuiltInLiteral name = false := by
    intro name h
    simp only [List.mem_cons, List.mem_singleton, List.not_mem_nil, or_false] at h
    rcases h with h | h | h
    · cases h; decide
    · cases h
    · cases h; decide
  have h := realised_iff_material_iff_passes (sampleEnv [sampleLayer 1 .DIFFUSE 0])
    (OpenGLRenderSystem.empty true .SHADER_PROGRAM_INTERACTION)
    [.realise "textures/sample", .unrealise, .realise "textures/other"] hn
    (fun _ _ _ => by simp [sampleEnv, sampleMaterial])
  exact ⟨hn, h.1, h.2.1⟩

/-! ## The order of the effects of `realise` and `unrealise` -/

/-- After `insertSortedState` the state is registered. -/
theorem insertSortedState_key (rs : OpenGLRenderSystem) (e : SortedState) :
    ∃ x ∈ (rs.insertSortedState e).sortedStates, x.pass = e.pass := by
  by_cases h : ∀ y ∈ rs.sortedStates, y.pass ≠ e.pass
  · exact ⟨e, (OpenGLRenderSystem.mem_insertSortedState rs e e).2 (Or.inr ⟨rfl, h⟩), rfl⟩
  · simp only [not_forall, not_not] at h
    obtain ⟨y, hy, hye⟩ := h
    exact ⟨y, (OpenGLRenderSystem.mem_insertSortedState rs e y).2 (Or.inl hy), hye⟩

/-- After `insertPasses` the state of every pass is registered. -/
theorem foldl_insert_keys_all (ps : List OpenGLShaderPass) (rs : OpenGLRenderSystem) :
    ∀ p ∈ ps, ∃ x ∈ (ps.foldl (fun rs p => rs.insertSortedState p.sortedState)
      rs).sortedStates, x.pass = p.id := by
  induction ps generalizing rs with
  | nil => intro p hp; cases hp
  | cons p₀ ps ih =>
    intro p hp
    rw [List.foldl_cons]
    rcases List.mem_cons.1 hp with rfl | hp
    · obtain ⟨x, hx, hxp⟩ := insertSortedState_key rs p.sortedState
      exact ⟨x, foldl_insert_mono ps _ x hx, hxp⟩
    · exact ih _ p hp

/-- The material after `realise`: that of `construct` with the filter
system's visibility decision, and in use when the use count is not zero. -/
theorem realise_material (env : Env) (s : OpenGLShader) (name : String) :
    (realise env s name).material =
      (construct env s name).material.map fun material =>
        if (construct env s name).useCount ≠ 0 then
          { material with visible := env.filterIsVisible name, inUse := true }
        else { material with visible := env.filterIsVisible name } := by
  unfold realise
  simp only []
  split
  · rename_i material h
    rw [h]
    rfl
  · rename_i h
    rw [h]
    exact h

/-- The render system after `realise`: that of `construct` with the passes
inserted. -/
theorem realise_renderSystem (env : Env) (s : OpenGLShader) (name : String) :
    (realise env s name).renderSystem = (construct env s name).insertPasses.renderSystem := by
  unfold realise
  simp only []
  split <;> rfl

/-- The callbacks of `realise`: every observer, each seeing the final
shader. -/
theorem realise_notifications (env : Env) (s : OpenGLShader) (name : String) :
    (realise env s name).notifications =
      s.notifications ++ s.observers.map fun o =>
        { observer := o, realised := true, material := (realise env s name).material,
          shaderPasses := (realise env s name).shaderPasses,
          sortedStates := (realise env s name).renderSystem.sortedStates } := by
  obtain ⟨states, -, -, -, -, ho, hn⟩ := construct_fields env s name
  rw [← ho, ← hn]
  unfold realise
  simp only []
  split <;> rfl

/-- What the observers see: `realise(name)` calls `onShaderRealised` on every observer last: each
observer sees the passes `construct` built, the material with the filter
system's visibility decision (and in use when the use count is not zero), and
a registry in which every pass is registered. `unrealise()` calls
`onShaderUnrealised` on every observer first: each sees the material, the pass
list and the registry as they were before the call; afterwards no pass of the
shader is registered, the material reference is null and the pass list is
empty. -/
theorem realise_unrealise_snapshots (env : Env) (s : OpenGLShader) (name : String) :
    ((realise env s name).shaderPasses = (construct env s name).shaderPasses ∧
      ((realise env s name).material =
        (construct env s name).material.map fun material =>
          if (construct env s name).useCount ≠ 0 then
            { material with visible := env.filterIsVisible name, inUse := true }
          else { material with visible := env.filterIsVisible name }) ∧
      (realise env s name).renderSystem = (construct env s name).insertPasses.renderSystem ∧
      (∀ p ∈ (realise env s name).shaderPasses,
        ∃ e ∈ (realise env s name).renderSystem.sortedStates, e.pass = p.id) ∧
      (realise env s name).notifications =
        s.notifications ++ s.observers.map fun o =>
          { observer := o, realised := true, material := (realise env s name).material,
            shaderPasses := (realise env s name).shaderPasses,
            sortedStates := (realise env s name).renderSystem.sortedStates }) ∧
    ((unrealise s).notifications =
        s.notifications ++ s.observers.map (fun o =>
          { observer := o, realised := false, material := s.material,
            shaderPasses := s.shaderPasses,
            sortedStates := s.renderSystem.sortedStates }) ∧
      (unrealise s).renderSystem = s.removePasses.renderSystem ∧
      (∀ p ∈ s.shaderPasses, ∀ e ∈ (unrealise s).renderSystem.sortedStates, e.pass ≠ p.id) ∧
      (unrealise s).material = none ∧ (unrealise s).shaderPasses = []) := by
  refine ⟨⟨?_, realise_material env s name, realise_renderSystem env s name, ?_,
    realise_notifications env s name⟩, rfl, rfl, ?_, rfl, rfl⟩
  · unfold realise
    simp only []
    split <;> rfl
  · rw [realise_renderSystem]
    have hp : (realise env s name).shaderPasses = (construct env s name).shaderPasses := by
      unfold realise
      simp only []
      split <;> rfl
    rw [hp]
    exact foldl_insert_keys_all _ _
  · intro p hp e he
    exact ((mem_foldl_erase s.shaderPasses s.renderSystem e).1 he).2 p hp

/-- The loop of `insertPasses` over any list of passes. -/
theorem traced_insert_foldl (ps : List OpenGLShaderPass) (t : TracedShader) :
    ps.foldl
      (fun (t : TracedShader) p =>
        { shader := { t.shader with
            renderSystem := t.shader.renderSystem.insertSortedState p.sortedState },
          effects := t.effects ++ [.insertSortedState p.sortedState] }) t =
      { shader := { t.shader with
          renderSystem := ps.foldl (fun rs p => rs.insertSortedState p.sortedState)
            t.shader.renderSystem },
        effects := t.effects ++ ps.map fun p => Effect.insertSortedState p.sortedState } := by
  induction ps generalizing t with
  | nil => simp
  | cons p ps ih =>
    rw [List.foldl_cons, ih]
    simp

/-- The loop of `removePasses` over any list of passes. -/
theorem traced_erase_foldl (ps : List OpenGLShaderPass) (t : TracedShader) :
    ps.foldl
      (fun (t : TracedShader) p =>
        { shader := { t.shader with
            renderSystem := t.shader.renderSystem.eraseSortedState p.id },
          effects := t.effects ++ [.eraseSortedState p.id] }) t =
      { shader := { t.shader with
          renderSystem := ps.foldl (fun rs p => rs.eraseSortedState p.id)
            t.shader.renderSystem },
        effects := t.effects ++ ps.map fun p => Effect.eraseSortedState p.id } := by
  induction ps generalizing t with
  | nil => simp
  | cons p ps ih =>
    rw [List.foldl_cons, ih]
    simp

/-- The loop over the observers, for any list of observers. -/
theorem traced_notify_foldl (realised : Bool) (os : List Nat) (t : TracedShader) :
    os.foldl
      (fun (t : TracedShader) o =>
        { shader := { t.shader with notifications := t.shader.notifications ++
            [{ observer := o, realised := realised, material := t.shader.material,
               shaderPasses := t.shader.shaderPasses,
               sortedStates := t.shader.renderSystem.sortedStates }] },
          effects := t.effects ++
            [if realised then .onShaderRealised o else .onShaderUnrealised o] }) t =
      { shader := { t.shader with notifications := t.shader.notifications ++ os.map fun o =>
          { observer := o, realised := realised, material := t.shader.material,
            shaderPasses := t.shader.shaderPasses,
            sortedStates := t.shader.renderSystem.sortedStates } },
        effects := t.effects ++ os.map fun o =>
          if realised then Effect.onShaderRealised o else Effect.onShaderUnrealised o } := by
  induction os generalizing t with
  | nil => simp
  | cons o os ih =>
    rw [List.foldl_cons, ih]
    simp

/-- The traced `insertPasses` is `insertPasses`, with one `insertSortedState`
for each pass, in the order of the pass list. -/
theorem traced_insertPasses (t : TracedShader) :
    t.insertPasses =
      { shader := t.shader.insertPasses,
        effects := t.effects ++
          t.shader.shaderPasses.map fun p => Effect.insertSortedState p.sortedState } :=
  traced_insert_foldl _ t

/-- The traced `removePasses` is `removePasses`, with one `eraseSortedState`
for each pass, in the order of the pass list. -/
theorem traced_removePasses (t : TracedShader) :
    t.removePasses =
      { shader := t.shader.removePasses,
        effects := t.effects ++
          t.shader.shaderPasses.map fun p => Effect.eraseSortedState p.id } :=
  traced_erase_foldl _ t

/-- The traced loop over the observers is `notifyObservers`, with one callback
for each observer, in the order of the set. -/
theorem traced_notifyObservers (t : TracedShader) (realised : Bool) :
    t.notifyObservers realised =
      { shader := t.shader.notifyObservers realised,
        effects := t.effects ++ t.shader.observers.map fun o =>
          if realised then Effect.onShaderRealised o else Effect.onShaderUnrealised o } :=
  traced_notify_foldl realised _ t

/-- The calls of `realise(name)`, in order, and the shader it leaves. -/
theorem traced_realise (env : Env) (s : OpenGLShader) (name : String)
    (effects : List Effect) :
    TracedShader.realise env ⟨s, effects⟩ name =
      { shader := realise env s name,
        effects := effects ++ [Effect.construct name] ++
          (if (construct env s name).material.isSome then
            Effect.materialSetVisible (env.filterIsVisible name) ::
              (if s.useCount ≠ 0 then [Effect.materialSetInUse true] else [])
           else []) ++
          ((construct env s name).shaderPasses.map fun p =>
            Effect.insertSortedState p.sortedState) ++
          s.observers.map Effect.onShaderRealised } := by
  obtain ⟨states, -, -, -, hu, ho, -⟩ := construct_fields env s name
  rw [← hu, ← ho]
  unfold TracedShader.realise realise
  simp only [traced_notifyObservers, traced_insertPasses, TracedShader.construct]
  cases hmat : (construct env s name).material with
  | none =>
    simp only [Option.isSome_none, Bool.false_eq_true, if_false, List.append_nil, if_true]
    rfl
  | some material =>
    simp only [Option.isSome_some, if_true, TracedShader.materialSetVisible, hmat]
    by_cases hc : (construct env s name).useCount = 0
    · simp only [hc, ne_eq, not_true_eq_false, if_false, List.append_assoc]
      rfl
    · simp only [hc, ne_eq, not_false_eq_true, if_true, TracedShader.materialSetInUse,
        List.append_assoc]
      rfl

/-- The calls of `unrealise()`, in order, and the shader it leaves. -/
theorem traced_unrealise (s : OpenGLShader) (effects : List Effect) :
    TracedShader.unrealise ⟨s, effects⟩ =
      { shader := unrealise s,
        effects := effects ++ s.observers.map Effect.onShaderUnrealised ++
          (s.shaderPasses.map fun p => Effect.eraseSortedState p.id) ++ [Effect.destroy] } := by
  unfold TracedShader.unrealise unrealise
  simp only [traced_notifyObservers, traced_removePasses, TracedShader.destroy]
  simp only [Bool.false_eq_true, if_false]
  rfl

/-- C19: the calls of `realise(name)` are, in this order, `construct(name)`;
with a material, `setVisible` with the filter system's decision and then, when
the use count is not zero, `SetInUse(true)`; one `insertSortedState` for each
pass; and, last, `onShaderRealised` on every observer, each seeing the passes
`construct` built, the material with the visibility decision (and in use when
the use count is not zero) and a registry in which every pass is registered.
The calls of `unrealise()` are, in this order, `onShaderUnrealised` on every
observer, each seeing the material, the pass list and the registry as they
were before the call; one `eraseSortedState` for each pass; and `destroy()`.
Afterwards no pass of the shader is registered, the material reference is null
and the pass list is empty. -/
theorem realise_effects_in_order (env : Env) (s : OpenGLShader) (name : String)
    (effects : List Effect) :
    (TracedShader.realise env ⟨s, effects⟩ name =
        { shader := realise env s name,
          effects := effects ++ [Effect.construct name] ++
            (if (construct env s name).material.isSome then
              Effect.materialSetVisible (env.filterIsVisible name) ::
                (if s.useCount ≠ 0 then [Effect.materialSetInUse true] else [])
             else []) ++
            ((construct env s name).shaderPasses.map fun p =>
              Effect.insertSortedState p.sortedState) ++
            s.observers.map Effect.onShaderRealised } ∧
      (realise env s name).shaderPasses = (construct env s name).shaderPasses ∧
      ((realise env s name).material =
        (construct env s name).material.map fun material =>
          if (construct env s name).useCount ≠ 0 then
            { material with visible := env.filterIsVisible name, inUse := true }
          else { material with visible := env.filterIsVisible name }) ∧
      (realise env s name).renderSystem = (construct env s name).insertPasses.renderSystem ∧
      (∀ p ∈ (realise env s name).shaderPasses,
        ∃ e ∈ (realise env s name).renderSystem.sortedStates, e.pass = p.id) ∧
      (realise env s name).notifications =
        s.notifications ++ s.observers.map fun o =>
          { observer := o, realised := true, material := (realise env s name).material,
            shaderPasses := (realise env s name).shaderPasses,
            sortedStates := (realise env s name).renderSystem.sortedStates }) ∧
    (TracedShader.unrealise ⟨s, effects⟩ =
        { shader := unrealise s,
          effects := effects ++ s.observers.map Effect.onShaderUnrealised ++
            (s.shaderPasses.map fun p => Effect.eraseSortedState p.id) ++ [Effect.destroy] } ∧
      (unrealise s).notifications =
        s.notifications ++ s.observers.map (fun o =>
          { observer := o, realised := false, material := s.material,
            shaderPasses := s.shaderPasses,
            sortedStates := s.renderSystem.sortedStates }) ∧
      (unrealise s).renderSystem = s.removePasses.renderSystem ∧
      (∀ p ∈ s.shaderPasses, ∀ e ∈ (unrealise s).renderSystem.sortedStates, e.pass ≠ p.id) ∧
      (unrealise s).material = none ∧ (unrealise s).shaderPasses = []) :=
  ⟨⟨traced_realise env s name effects, (realise_unrealise_snapshots env s name).1⟩,
    traced_unrealise s effects, (realise_unrealise_snapshots env s name).2⟩

/-- The sample shader with one observer and one use realises a material with a
DIFFUSE layer, and is unrealised again. -/
theorem realise_effects_in_order_witness :
    (TracedShader.realise (sampleEnv [sampleLayer 1 .DIFFUSE 0])
        ⟨(sampleShader.attachObserver 7).incrementUsed, []⟩ "textures/sample").effects =
        [.construct "textures/sample", .materialSetVisible true, .materialSetInUse true,
          .insertSortedState ⟨0, .SORT_ZFILL⟩, .insertSortedState ⟨1, .SORT_INTERACTION⟩,
          .onShaderRealised 7] ∧
      (TracedShader.unrealise
        ⟨(sampleShader.attachObserver 7).incrementUsed.realise
          (sampleEnv [sampleLayer 1 .DIFFUSE 0]) "textures/sample", []⟩).effects =
        [.onShaderUnrealised 7, .eraseSortedState 0, .eraseSortedState 1, .destroy] ∧
      (((sampleShader.attachObserver 7).incrementUsed.realise
        (sampleEnv [sampleLayer 1 .DIFFUSE 0]) "textures/sample").unrealise.notifications.map
          fun n => (n.observer, n.realised, n.shaderPasses.length, n.sortedStates.length)) =
        [(7, true, 2, 2), (7, false, 2, 2)] := by
  have h := realise_effects_in_order (sampleEnv [sampleLayer 1 .DIFFUSE 0])
    (sampleShader.attachObserver 7).incrementUsed "textures/sample" []
  have h' := realise_effects_in_order (sampleEnv [sampleLayer 1 .DIFFUSE 0])
    ((sampleShader.attachObserver 7).incrementUsed.realise
      (sampleEnv [sampleLayer 1 .DIFFUSE 0]) "textures/sample") "textures/sample" []
  rw [h.1.1, h'.2.1, h'.2.2.1, h.1.2.2.2.2.2]
  decide

/-! ## What leaves the passes alone -/

/-- Queuing submissions on a pass changes neither its identity nor its
state. -/
theorem foldl_addRenderable_frame (renderable : OpenGLRenderable) (modelview : Matrix4)
    (entity : Option IRenderEntity) (lights : LightList) (pass : OpenGLShaderPass) :
    (lights.foldl (fun p light => p.addRenderable renderable modelview (some light) entity)
        pass).id = pass.id ∧
      (lights.foldl (fun p light => p.addRenderable renderable modelview (some light) entity)
        pass).state = pass.state := by
  rw [foldl_addRenderable]
  exact ⟨rfl, rfl⟩

theorem addRenderable_frame (s : OpenGLShader) (renderable : OpenGLRenderable)
    (modelview : Matrix4) (lights : Option LightList) :
    (s.addRenderable renderable modelview lights).shaderPasses.map (fun p => (p.id, p.state)) =
      s.shaderPasses.map fun p => (p.id, p.state) := by
  unfold addRenderable
  split
  · rfl
  · simp only [List.map_map]
    apply List.map_congr_left
    intro p _
    simp only [Function.comp]
    split
    · cases lights with
      | none => rfl
      | some ls =>
        simp only []
        rw [(foldl_addRenderable_frame renderable modelview none ls p).1,
          (foldl_addRenderable_frame renderable modelview none ls p).2]
    · rfl

theorem addRenderableEntity_frame (s : OpenGLShader) (renderable : OpenGLRenderable)
    (modelview : Matrix4) (entity : IRenderEntity) (lights : Option LightList) :
    (s.addRenderableEntity renderable modelview entity lights).shaderPasses.map
        (fun p => (p.id, p.state)) =
      s.shaderPasses.map fun p => (p.id, p.state) := by
  unfold addRenderableEntity
  split
  · rfl
  · simp only [List.map_map]
    apply List.map_congr_left
    intro p _
    simp only [Function.comp]
    split
    · cases lights with
      | none => rfl
      | some ls =>
        simp only []
        rw [(foldl_addRenderable_frame renderable modelview (some entity) ls p).1,
          (foldl_addRenderable_frame renderable modelview (some entity) ls p).2]
    · rfl

theorem setVisible_shaderPasses (s : OpenGLShader) (visible : Bool) :
    (s.setVisible visible).shaderPasses = s.shaderPasses := by
  unfold setVisible
  simp only []
  split
  · rfl
  · split <;> rfl

theorem incrementUsed_shaderPasses (s : OpenGLShader) :
    s.incrementUsed.shaderPasses = s.shaderPasses := by
  unfold incrementUsed
  simp only []
  split
  · split <;> rfl
  · rfl

theorem decrementUsed_shaderPasses (s : OpenGLShader) :
    s.decrementUsed.shaderPasses = s.shaderPasses := by
  unfold decrementUsed
  simp only []
  split
  · split <;> rfl
  · rfl

theorem attachObserver_shaderPasses (s : OpenGLShader) (observer : Nat) :
    (s.attachObserver observer).shaderPasses = s.shaderPasses := by
  unfold attachObserver
  simp only []
  split <;> split <;> rfl

theorem detachObserver_shaderPasses (s : OpenGLShader) (observer : Nat) :
    (s.detachObserver observer).shaderPasses = s.shaderPasses := by
  unfold detachObserver
  simp only []
  split <;> rfl

/-- C20: `addRenderable` (both overloads) leaves the pass objects of the list
and the state of each, the sort position included, as they were; `setVisible`,
`incrementUsed`, `decrementUsed`, `attachObserver` and `detachObserver` leave
the pass list itself as it was. -/
theorem sortPosition_fixed_after_construct (s : OpenGLShader) (renderable : OpenGLRenderable)
    (modelview : Matrix4) (entity : IRenderEntity) (lights : Option LightList)
    (visible : Bool) (observer : Nat) :
    ((s.addRenderable renderable modelview lights).shaderPasses.map (fun p => (p.id, p.state)) =
        s.shaderPasses.map fun p => (p.id, p.state)) ∧
      ((s.addRenderableEntity renderable modelview entity lights).shaderPasses.map
          (fun p => (p.id, p.state)) =
        s.shaderPasses.map fun p => (p.id, p.state)) ∧
      ((s.addRenderable renderable modelview lights).shaderPasses.map
          (fun p => p.state.sortPosition) =
        s.shaderPasses.map fun p => p.state.sortPosition) ∧
      ((s.addRenderableEntity renderable modelview entity lights).shaderPasses.map
          (fun p => p.state.sortPosition) =
        s.shaderPasses.map fun p => p.state.sortPosition) ∧
      (s.setVisible visible).shaderPasses = s.shaderPasses ∧
      s.incrementUsed.shaderPasses = s.shaderPasses ∧
      s.decrementUsed.shaderPasses = s.shaderPasses ∧
      (s.attachObserver observer).shaderPasses = s.shaderPasses ∧
      (s.detachObserver observer).shaderPasses = s.shaderPasses := by
  have h₁ := addRenderable_frame s renderable modelview lights
  have h₂ := addRenderableEntity_frame s renderable modelview entity lights
  refine ⟨h₁, h₂, ?_, ?_, setVisible_shaderPasses s visible, incrementUsed_shaderPasses s,
    decrementUsed_shaderPasses s, attachObserver_shaderPasses s observer,
    detachObserver_shaderPasses s observer⟩
  · have := congrArg (List.map fun x : Nat × OpenGLState => x.2.sortPosition) h₁
    simpa only [List.map_map, Function.comp] using this
  · have := congrArg (List.map fun x : Nat × OpenGLState => x.2.sortPosition) h₂
    simpa only [List.map_map, Function.comp] using this

/-! ## The interaction pass, the depth-fill pass and the blend pass -/

/-- What `setGLTexturesFromTriplet` leaves alone. -/
theorem setGLTextures_frame (env : Env) (st : OpenGLState) (t : DBSTriplet) :
    (setGLTexturesFromTriplet env st t).renderFlags = st.renderFlags ∧
      (setGLTexturesFromTriplet env st t).alphaFunc = st.alphaFunc ∧
      (setGLTexturesFromTriplet env st t).alphaThreshold = st.alphaThreshold := by
  unfold setGLTexturesFromTriplet
  rcases t with ⟨d, b, sp, n⟩
  cases d <;> cases b <;> cases sp <;> exact ⟨rfl, rfl, rfl⟩

/-- The flags after `applyAlphaTestToPass`. -/
theorem applyAlphaTest_renderFlags (st : OpenGLState) (a : ℚ) :
    (applyAlphaTestToPass st a).renderFlags =
      if a > 0 then st.renderFlags ||| RENDER_ALPHATEST else st.renderFlags := by
  unfold applyAlphaTestToPass
  split <;> rfl

/-- The alpha function and threshold after `applyAlphaTestToPass`. -/
theorem applyAlphaTest_alpha (st : OpenGLState) (a : ℚ) :
    (applyAlphaTestToPass st a).alphaFunc = (if a > 0 then GL_GEQUAL else st.alphaFunc) ∧
      (applyAlphaTestToPass st a).alphaThreshold =
        (if a > 0 then a else st.alphaThreshold) := by
  unfold applyAlphaTestToPass
  split <;> exact ⟨rfl, rfl⟩

/-- The flags of the DBS pass. -/
theorem configureInteraction_renderFlags (env : Env) (t : DBSTriplet) (st : OpenGLState) :
    (configureInteraction env t st).renderFlags =
      if t.alphaTest > 0 then
        (if t.vcolMode ≠ .VERTEX_COLOUR_NONE then
          (st.renderFlags ||| RENDER_BLEND ||| RENDER_FILL ||| RENDER_TEXTURE_2D |||
            RENDER_CULLFACE ||| RENDER_DEPTHTEST ||| RENDER_SMOOTH ||| RENDER_BUMP |||
            RENDER_PROGRAM) ||| RENDER_VERTEX_COLOUR
        else
          st.renderFlags ||| RENDER_BLEND ||| RENDER_FILL ||| RENDER_TEXTURE_2D |||
            RENDER_CULLFACE ||| RENDER_DEPTHTEST ||| RENDER_SMOOTH ||| RENDER_BUMP |||
            RENDER_PROGRAM) ||| RENDER_ALPHATEST
      else
        if t.vcolMode ≠ .VERTEX_COLOUR_NONE then
          (st.renderFlags ||| RENDER_BLEND ||| RENDER_FILL ||| RENDER_TEXTURE_2D |||
            RENDER_CULLFACE ||| RENDER_DEPTHTEST ||| RENDER_SMOOTH ||| RENDER_BUMP |||
            RENDER_PROGRAM) ||| RENDER_VERTEX_COLOUR
        else
          st.renderFlags ||| RENDER_BLEND ||| RENDER_FILL ||| RENDER_TEXTURE_2D |||
            RENDER_CULLFACE ||| RENDER_DEPTHTEST ||| RENDER_SMOOTH ||| RENDER_BUMP |||
            RENDER_PROGRAM := by
  have key : ∀ st' : OpenGLState,
      (match t.diffuse with
        | some d => st'.setColour d.colour
        | none => st').renderFlags = st'.renderFlags := by
    intro st'
    cases t.diffuse <;> rfl
  unfold configureInteraction
  refine (key (applyAlphaTestToPass _ t.alphaTest)).trans ?_
  rw [applyAlphaTest_renderFlags]
  have inner : ∀ (c₁ c₂ : Prop) [Decidable c₁] [Decidable c₂] (x : OpenGLState),
      (if c₁ then
          if c₂ then (x.setRenderFlag RENDER_VERTEX_COLOUR).setColourInverted true
          else x.setRenderFlag RENDER_VERTEX_COLOUR
        else x).renderFlags =
        if c₁ then x.renderFlags ||| RENDER_VERTEX_COLOUR else x.renderFlags := by
    intro c₁ c₂ _ _ x
    split
    · split <;> rfl
    · rfl
  simp only []
  rw [inner]
  have base : ({ ((((((((((setGLTexturesFromTriplet env st t).setRenderFlag
      RENDER_BLEND).setRenderFlag RENDER_FILL).setRenderFlag RENDER_TEXTURE_2D).setRenderFlag
      RENDER_CULLFACE).setRenderFlag RENDER_DEPTHTEST).setRenderFlag RENDER_SMOOTH).setRenderFlag
      RENDER_BUMP).setRenderFlag RENDER_PROGRAM)) with
        glProgram := some "bumpMap" } : OpenGLState).renderFlags =
      st.renderFlags ||| RENDER_BLEND ||| RENDER_FILL ||| RENDER_TEXTURE_2D |||
        RENDER_CULLFACE ||| RENDER_DEPTHTEST ||| RENDER_SMOOTH ||| RENDER_BUMP |||
        RENDER_PROGRAM := by
    show (setGLTexturesFromTriplet env st t).renderFlags ||| _ ||| _ ||| _ ||| _ ||| _ ||| _ |||
      _ ||| _ = _
    rw [(setGLTextures_frame env st t).1]
  rw [base]

/-- The eight flags `appendInteractionLayer` sets on every DBS pass. -/
theorem configureInteraction_bit (env : Env) (t : DBSTriplet) (st : OpenGLState) (k : Nat)
    (hk : (RENDER_BLEND ||| RENDER_FILL ||| RENDER_TEXTURE_2D ||| RENDER_CULLFACE |||
      RENDER_DEPTHTEST ||| RENDER_SMOOTH ||| RENDER_BUMP ||| RENDER_PROGRAM).testBit k = true) :
    (configureInteraction env t st).testRenderFlag (1 <<< k) = true := by
  rw [testRenderFlag_bit, configureInteraction_renderFlags]
  simp only [Nat.testBit_or, Bool.or_eq_true] at hk
  split <;> split <;> simp only [Nat.testBit_or, Bool.or_eq_true] <;> tauto

/-- The alpha test flag of the DBS pass. -/
theorem configureInteraction_alphatest (env : Env) (t : DBSTriplet) (st : OpenGLState)
    (h : st.testRenderFlag RENDER_ALPHATEST = false) :
    (configureInteraction env t st).testRenderFlag RENDER_ALPHATEST = decide (t.alphaTest > 0) := by
  have ha : RENDER_ALPHATEST = 1 <<< 4 := rfl
  rw [ha, testRenderFlag_bit] at h ⊢
  rw [configureInteraction_renderFlags]
  have h1 : RENDER_BLEND.testBit 4 = false := by decide
  have h2 : RENDER_FILL.testBit 4 = false := by decide
  have h3 : RENDER_TEXTURE_2D.testBit 4 = false := by decide
  have h4 : RENDER_CULLFACE.testBit 4 = false := by decide
  have h5 : RENDER_DEPTHTEST.testBit 4 = false := by decide
  have h6 : RENDER_SMOOTH.testBit 4 = false := by decide
  have h7 : RENDER_BUMP.testBit 4 = false := by decide
  have h8 : RENDER_PROGRAM.testBit 4 = false := by decide
  have h9 : RENDER_VERTEX_COLOUR.testBit 4 = false := by decide
  have h10 : Nat.testBit 16 4 = true := by decide
  split <;> split <;> simp [Nat.testBit_or, h, h1, h2, h3, h4, h5, h6, h7, h8, h9, h10, *]

/-- The alpha function and threshold of the DBS pass. -/
theorem configureInteraction_alpha (env : Env) (t : DBSTriplet) (st : OpenGLState) :
    (configureInteraction env t st).alphaFunc =
        (if t.alphaTest > 0 then GL_GEQUAL else st.alphaFunc) ∧
      (configureInteraction env t st).alphaThreshold =
        (if t.alphaTest > 0 then t.alphaTest else st.alphaThreshold) := by
  have key : ∀ st' : OpenGLState,
      (match t.diffuse with
        | some d => st'.setColour d.colour
        | none => st').alphaFunc = st'.alphaFunc ∧
      (match t.diffuse with
        | some d => st'.setColour d.colour
        | none => st').alphaThreshold = st'.alphaThreshold := by
    intro st'
    cases t.diffuse <;> exact ⟨rfl, rfl⟩
  have inner : ∀ (c₁ c₂ : Prop) [Decidable c₁] [Decidable c₂] (x : OpenGLState),
      (if c₁ then
          if c₂ then (x.setRenderFlag RENDER_VERTEX_COLOUR).setColourInverted true
          else x.setRenderFlag RENDER_VERTEX_COLOUR
        else x).alphaFunc = x.alphaFunc ∧
      (if c₁ then
          if c₂ then (x.setRenderFlag RENDER_VERTEX_COLOUR).setColourInverted true
          else x.setRenderFlag RENDER_VERTEX_COLOUR
        else x).alphaThreshold = x.alphaThreshold := by
    intro c₁ c₂ _ _ x
    split
    · split <;> exact ⟨rfl, rfl⟩
    · exact ⟨rfl, rfl⟩
  unfold configureInteraction
  constructor
  · refine (key (applyAlphaTestToPass _ t.alphaTest)).1.trans ?_
    rw [(applyAlphaTest_alpha _ _).1]
    simp only []
    rw [(inner _ _ _).1]
    show (if t.alphaTest > 0 then GL_GEQUAL else (setGLTexturesFromTriplet env st t).alphaFunc) = _
    rw [(setGLTextures_frame env st t).2.1]
  · refine (key (applyAlphaTestToPass _ t.alphaTest)).2.trans ?_
    rw [(applyAlphaTest_alpha _ _).2]
    simp only []
    rw [(inner _ _ _).2]
    show (if t.alphaTest > 0 then t.alphaTest
      else (setGLTexturesFromTriplet env st t).alphaThreshold) = _
    rw [(setGLTextures_frame env st t).2.2]

/-- The passes `appendInteractionLayer` appends: the depth-fill pass if
requested, then the DBS pass. -/
theorem appendInteractionLayer_passes (env : Env) (s : OpenGLShader) (t : DBSTriplet) :
    ∃ fill p, (appendInteractionLayer env s t).shaderPasses = s.shaderPasses ++ fill ++ [p] ∧
      p.state = configureInteraction env t env.defaultState ∧
      fill.map (fun z => z.state) =
        if t.needDepthFill && decide (t.alphaTest ≤ 0) then [configureDepthFill env.defaultState]
        else [] := by
  rw [appendInteractionLayer_eq, appendStates_eq]
  unfold interactionStates
  by_cases h : (t.needDepthFill && decide (t.alphaTest ≤ 0)) = true
  · rw [if_pos h]
    exact ⟨[⟨s.renderSystem.passesCreated, configureDepthFill env.defaultState, []⟩],
      ⟨s.renderSystem.passesCreated + 1, configureInteraction env t env.defaultState, []⟩,
      by simp [freshPasses], rfl, rfl⟩
  · rw [if_neg h]
    exact ⟨[], ⟨s.renderSystem.passesCreated, configureInteraction env t env.defaultState, []⟩,
      by simp [freshPasses], rfl, rfl⟩

/-- C21: whichever of diffuse, bump and specular the triplet holds, the last
pass `appendInteractionLayer` appends, the interaction pass, has the flags
BLEND, FILL, TEXTURE_2D, CULLFACE, DEPTHTEST, SMOOTH, BUMP and PROGRAM set,
depth function GL_LEQUAL, polygon offset 1/2, blend function (GL_ONE, GL_ONE)
and sort bucket INTERACTION; at most one pass is appended ahead of it. -/
theorem interaction_pass_configuration (env : Env) (s : OpenGLShader) (t : DBSTriplet) :
    ∃ fill p, (appendInteractionLayer env s t).shaderPasses = s.shaderPasses ++ fill ++ [p] ∧
      fill.length ≤ 1 ∧
      p.state.testRenderFlag RENDER_BLEND = true ∧
      p.state.testRenderFlag RENDER_FILL = true ∧
      p.state.testRenderFlag RENDER_TEXTURE_2D = true ∧
      p.state.testRenderFlag RENDER_CULLFACE = true ∧
      p.state.testRenderFlag RENDER_DEPTHTEST = true ∧
      p.state.testRenderFlag RENDER_SMOOTH = true ∧
      p.state.testRenderFlag RENDER_BUMP = true ∧
      p.state.testRenderFlag RENDER_PROGRAM = true ∧
      p.state.m_depthfunc = GL_LEQUAL ∧
      p.state.polygonOffset = 1 / 2 ∧
      p.state.m_blend_src = GL_ONE ∧ p.state.m_blend_dst = GL_ONE ∧
      p.state.sortPosition = .SORT_INTERACTION := by
  obtain ⟨fill, p, hp, hst, hfill⟩ := appendInteractionLayer_passes env s t
  have hlen : fill.length ≤ 1 := by
    have := congrArg List.length hfill
    rw [List.length_map] at this
    rw [this]
    split <;> simp
  refine ⟨fill, p, hp, hlen, ?_, ?_, ?_, ?_, ?_, ?_, ?_, ?_, ?_, ?_, ?_, ?_, ?_⟩
  any_goals (rw [hst]; rfl)
  all_goals
    rw [hst]
    exact configureInteraction_bit env t _ _ (by decide)

/-- The flags of the depth-fill pass. -/
theorem configureDepthFill_renderFlags (st : OpenGLState) :
    (configureDepthFill st).renderFlags =
      st.renderFlags ||| RENDER_MASKCOLOUR ||| RENDER_FILL ||| RENDER_CULLFACE |||
        RENDER_DEPTHTEST ||| RENDER_DEPTHWRITE ||| RENDER_PROGRAM := rfl

/-- The flags `appendInteractionLayer` sets on the depth-fill pass. -/
theorem configureDepthFill_bit (st : OpenGLState) (k : Nat)
    (hk : (RENDER_MASKCOLOUR ||| RENDER_FILL ||| RENDER_CULLFACE ||| RENDER_DEPTHTEST |||
      RENDER_DEPTHWRITE ||| RENDER_PROGRAM).testBit k = true) :
    (configureDepthFill st).testRenderFlag (1 <<< k) = true := by
  rw [testRenderFlag_bit, configureDepthFill_renderFlags]
  simp only [Nat.testBit_or, Bool.or_eq_true] at hk ⊢
  tauto

/-- When the alpha test of a triplet is inactive. -/
theorem alphaTest_inactive (t : DBSTriplet) :
    t.alphaTest ≤ 0 ↔ ∀ d, t.diffuse = some d → d.alphaTest ≤ 0 := by
  unfold DBSTriplet.alphaTest
  cases h : t.diffuse with
  | none => simp
  | some d => simp

/-- C22: for a triplet that still asks for the depth fill, as the first triplet
flushed for a material does, `appendInteractionLayer` appends a depth-fill pass
directly ahead of the interaction pass when the triplet has no diffuse layer
or its diffuse alpha test is `<= 0`, and the interaction pass alone when the
diffuse alpha test is `> 0`. The depth-fill pass has the flags MASKCOLOUR,
FILL, CULLFACE, DEPTHTEST and DEPTHWRITE set and sort bucket ZFILL. -/
theorem depth_fill_iff_alpha_test_inactive (env : Env) (s : OpenGLShader) (t : DBSTriplet)
    (hfirst : t.needDepthFill = true) :
    ((∀ d, t.diffuse = some d → d.alphaTest ≤ 0) →
      ∃ z p, (appendInteractionLayer env s t).shaderPasses = s.shaderPasses ++ [z, p] ∧
        z.state.testRenderFlag RENDER_MASKCOLOUR = true ∧
        z.state.testRenderFlag RENDER_FILL = true ∧
        z.state.testRenderFlag RENDER_CULLFACE = true ∧
        z.state.testRenderFlag RENDER_DEPTHTEST = true ∧
        z.state.testRenderFlag RENDER_DEPTHWRITE = true ∧
        z.state.sortPosition = .SORT_ZFILL ∧
        p.state.sortPosition = .SORT_INTERACTION) ∧
    ((∃ d, t.diffuse = some d ∧ d.alphaTest > 0) →
      ∃ p, (appendInteractionLayer env s t).shaderPasses = s.shaderPasses ++ [p] ∧
        p.state.sortPosition = .SORT_INTERACTION) := by
  obtain ⟨fill, p, hp, hst, hfill⟩ := appendInteractionLayer_passes env s t
  constructor
  · intro h
    have ha := (alphaTest_inactive t).2 h
    rw [hfirst, Bool.true_and, if_pos (by simpa using ha)] at hfill
    cases fill with
    | nil => simp at hfill
    | cons z rest =>
      cases rest with
      | cons y ys => simp at hfill
      | nil =>
        simp only [List.map_cons, List.map_nil, List.cons.injEq, and_true] at hfill
        refine ⟨z, p, by rw [hp]; simp, ?_, ?_, ?_, ?_, ?_, ?_, ?_⟩
        any_goals (rw [hfill]; exact configureDepthFill_bit _ _ (by decide))
        · rw [hfill]; rfl
        · rw [hst]; rfl
  · rintro ⟨d, hd, hpos⟩
    have ha : ¬ t.alphaTest ≤ 0 := by
      intro hle
      have := (alphaTest_inactive t).1 hle d hd
      exact absurd hpos (not_lt.2 this)
    rw [hfirst, Bool.true_and, if_neg (by simpa using ha)] at hfill
    cases fill with
    | cons z rest => simp at hfill
    | nil => exact ⟨p, by rw [hp]; simp, by rw [hst]; rfl⟩

/-- A first triplet with a diffuse layer without alpha test gets the depth-fill
pass; one with alpha test 1 does not. -/
theorem depth_fill_iff_alpha_test_inactive_witness :
    (⟨some (sampleLayer 1 .DIFFUSE 0), none, none, true⟩ : DBSTriplet).needDepthFill = true ∧
      (∀ d, (⟨some (sampleLayer 1 .DIFFUSE 0), none, none, true⟩ : DBSTriplet).diffuse = some d →
        d.alphaTest ≤ 0) ∧
      (∃ z p, (appendInteractionLayer (sampleEnv []) sampleShader
          ⟨some (sampleLayer 1 .DIFFUSE 0), none, none, true⟩).shaderPasses =
            sampleShader.shaderPasses ++ [z, p] ∧
        z.state.sortPosition = .SORT_ZFILL ∧ p.state.sortPosition = .SORT_INTERACTION) ∧
      ∃ p, (appendInteractionLayer (sampleEnv []) sampleShader
          ⟨some (sampleLayer 1 .DIFFUSE 1), none, none, true⟩).shaderPasses =
            sampleShader.shaderPasses ++ [p] ∧
        p.state.sortPosition = .SORT_INTERACTION := by
  have h0 : ∀ d, (⟨some (sampleLayer 1 .DIFFUSE 0), none, none, true⟩ : DBSTriplet).diffuse =
      some d → d.alphaTest ≤ 0 := by
    intro d hd
    cases hd
    exact le_refl _
  refine ⟨rfl, h0, ?_, ?_⟩
  · obtain ⟨z, p, h, _, _, _, _, _, hz, hp⟩ :=
      (depth_fill_iff_alpha_test_inactive (sampleEnv []) sampleShader
        ⟨some (sampleLayer 1 .DIFFUSE 0), none, none, true⟩ rfl).1 h0
    exact ⟨z, p, h, hz, hp⟩
  · exact (depth_fill_iff_alpha_test_inactive (sampleEnv []) sampleShader
      ⟨some (sampleLayer 1 .DIFFUSE 1), none, none, true⟩ rfl).2
        ⟨_, rfl, by simp [sampleLayer]⟩

/-- C23: when a fresh state has RENDER_ALPHATEST clear, the interaction pass
`appendInteractionLayer` appends has RENDER_ALPHATEST set if and only if the
triplet has a diffuse layer whose alpha test is `> 0`; then its alpha function
is GL_GEQUAL and its alpha threshold is that layer's alpha test, and otherwise
its alpha function and threshold are those of a fresh state. -/
theorem interaction_alpha_test (env : Env) (s : OpenGLShader) (t : DBSTriplet)
    (hdef : env.defaultState.testRenderFlag RENDER_ALPHATEST = false) :
    ∃ fill p, (appendInteractionLayer env s t).shaderPasses = s.shaderPasses ++ fill ++ [p] ∧
      p.state.sortPosition = .SORT_INTERACTION ∧
      (p.state.testRenderFlag RENDER_ALPHATEST = true ↔
        ∃ d, t.diffuse = some d ∧ d.alphaTest > 0) ∧
      (∀ d, t.diffuse = some d → d.alphaTest > 0 →
        p.state.alphaFunc = GL_GEQUAL ∧ p.state.alphaThreshold = d.alphaTest) ∧
      ((¬ ∃ d, t.diffuse = some d ∧ d.alphaTest > 0) →
        p.state.alphaFunc = env.defaultState.alphaFunc ∧
          p.state.alphaThreshold = env.defaultState.alphaThreshold) := by
  obtain ⟨fill, p, hp, hst, -⟩ := appendInteractionLayer_passes env s t
  have hiff : t.alphaTest > 0 ↔ ∃ d, t.diffuse = some d ∧ d.alphaTest > 0 := by
    unfold DBSTriplet.alphaTest
    cases h : t.diffuse with
    | none => simp
    | some d => simp
  have ha := configureInteraction_alpha env t env.defaultState
  refine ⟨fill, p, hp, by rw [hst]; rfl, ?_, ?_, ?_⟩
  · rw [hst, configureInteraction_alphatest env t _ hdef, decide_eq_true_iff]
    exact hiff
  · intro d hd hpos
    have h : t.alphaTest > 0 := hiff.2 ⟨d, hd, hpos⟩
    have hv : t.alphaTest = d.alphaTest := by
      unfold DBSTriplet.alphaTest
      rw [hd]
    rw [hst, ha.1, ha.2, if_pos h, if_pos h]
    exact ⟨rfl, hv⟩
  · intro hn
    have h : ¬ t.alphaTest > 0 := fun h => hn (hiff.1 h)
    rw [hst, ha.1, ha.2, if_neg h, if_neg h]
    exact ⟨rfl, rfl⟩

/-- A diffuse layer with alpha test 1 in the sample environment. -/
theorem interaction_alpha_test_witness :
    (sampleEnv []).defaultState.testRenderFlag RENDER_ALPHATEST = false ∧
      ∃ fill p, (appendInteractionLayer (sampleEnv []) sampleShader
          ⟨some (sampleLayer 1 .DIFFUSE 1), none, none, true⟩).shaderPasses =
            sampleShader.shaderPasses ++ fill ++ [p] ∧
        p.state.testRenderFlag RENDER_ALPHATEST = true ∧
        p.state.alphaFunc = GL_GEQUAL ∧ p.state.alphaThreshold = 1 := by
  refine ⟨by decide, ?_⟩
  obtain ⟨fill, p, h, -, h1, h2, -⟩ := interaction_alpha_test (sampleEnv []) sampleShader
    ⟨some (sampleLayer 1 .DIFFUSE 1), none, none, true⟩ (by decide)
  have hpos : (sampleLayer 1 .DIFFUSE 1).alphaTest > 0 := by simp [sampleLayer]
  exact ⟨fill, p, h, h1.2 ⟨_, rfl, hpos⟩, (h2 _ rfl hpos).1, (h2 _ rfl hpos).2⟩

/-- The flags of the pass of a blend layer. -/
theorem configureBlend_renderFlags (env : Env) (material : Material) (layer : ShaderLayer)
    (st : OpenGLState) :
    (configureBlend env material layer st).renderFlags =
      if layer.cubeMapMode = .CUBE_MAP_CAMERA then
        (if layer.blendFunc.src = GL_SRC_ALPHA ∨ layer.blendFunc.dest = GL_SRC_ALPHA ∨
            (layer.blendFunc.src = GL_ONE ∧ layer.blendFunc.dest = GL_ZERO) then
          (st.renderFlags ||| RENDER_FILL ||| RENDER_BLEND ||| RENDER_DEPTHTEST) |||
            RENDER_DEPTHWRITE
        else st.renderFlags ||| RENDER_FILL ||| RENDER_BLEND ||| RENDER_DEPTHTEST) |||
          RENDER_TEXTURE_CUBEMAP
      else
        (if layer.blendFunc.src = GL_SRC_ALPHA ∨ layer.blendFunc.dest = GL_SRC_ALPHA ∨
            (layer.blendFunc.src = GL_ONE ∧ layer.blendFunc.dest = GL_ZERO) then
          (st.renderFlags ||| RENDER_FILL ||| RENDER_BLEND ||| RENDER_DEPTHTEST) |||
            RENDER_DEPTHWRITE
        else st.renderFlags ||| RENDER_FILL ||| RENDER_BLEND ||| RENDER_DEPTHTEST) |||
          RENDER_TEXTURE_2D := by
  unfold configureBlend
  simp only []
  split <;> split <;> split <;> rfl

/-- C24: when a fresh state has RENDER_DEPTHWRITE clear, the pass
`appendBlendLayer` appends for a layer carries the layer's blend function as
(blend src, blend dst) and has RENDER_DEPTHWRITE set if and only if the blend
source is GL_SRC_ALPHA, or the blend destination is GL_SRC_ALPHA, or the blend
function is (GL_ONE, GL_ZERO). -/
theorem blend_pass_depth_write (env : Env) (material : Material) (s : OpenGLShader)
    (layer : ShaderLayer)
    (hdef : env.defaultState.testRenderFlag RENDER_DEPTHWRITE = false) :
    ∃ p, (appendBlendLayer env material s layer).shaderPasses = s.shaderPasses ++ [p] ∧
      p.state.m_blend_src = layer.blendFunc.src ∧
      p.state.m_blend_dst = layer.blendFunc.dest ∧
      (p.state.testRenderFlag RENDER_DEPTHWRITE = true ↔
        (p.state.m_blend_src = GL_SRC_ALPHA ∨ p.state.m_blend_dst = GL_SRC_ALPHA ∨
          (p.state.m_blend_src = GL_ONE ∧ p.state.m_blend_dst = GL_ZERO))) := by
  have hsrc : (configureBlend env material layer env.defaultState).m_blend_src =
      layer.blendFunc.src := by
    unfold configureBlend
    simp only []
    split <;> split <;> split <;> rfl
  have hdst : (configureBlend env material layer env.defaultState).m_blend_dst =
      layer.blendFunc.dest := by
    unfold configureBlend
    simp only []
    split <;> split <;> split <;> rfl
  refine ⟨⟨s.renderSystem.passesCreated, configureBlend env material layer env.defaultState, []⟩,
    rfl, hsrc, hdst, ?_⟩
  show (configureBlend env material layer env.defaultState).testRenderFlag RENDER_DEPTHWRITE =
    true ↔ _
  rw [hsrc, hdst]
  have hw : RENDER_DEPTHWRITE = 1 <<< 6 := rfl
  rw [hw, testRenderFlag_bit] at hdef ⊢
  rw [configureBlend_renderFlags]
  have h1 : RENDER_FILL.testBit 6 = false := by decide
  have h2 : RENDER_BLEND.testBit 6 = false := by decide
  have h3 : RENDER_DEPTHTEST.testBit 6 = false := by decide
  have h4 : RENDER_TEXTURE_CUBEMAP.testBit 6 = false := by decide
  have h5 : RENDER_TEXTURE_2D.testBit 6 = false := by decide
  have h6 : Nat.testBit 64 6 = true := by decide
  split <;> split <;> simp [Nat.testBit_or, hdef, h1, h2, h3, h4, h5, h6, *]

/-- An additive blend layer in the sample environment does not write depth. -/
theorem blend_pass_depth_write_witness :
    (sampleEnv []).defaultState.testRenderFlag RENDER_DEPTHWRITE = false ∧
      ∃ p, (appendBlendLayer (sampleEnv []) (sampleMaterial "textures/sample" []) sampleShader
          (sampleLayer 2 .BLEND 0)).shaderPasses = sampleShader.shaderPasses ++ [p] ∧
        p.state.m_blend_src = GL_ONE ∧ p.state.m_blend_dst = GL_ONE ∧
        p.state.testRenderFlag RENDER_DEPTHWRITE = false := by
  refine ⟨by decide, ?_⟩
  obtain ⟨p, h, h1, h2, h3⟩ := blend_pass_depth_write (sampleEnv [])
    (sampleMaterial "textures/sample" []) sampleShader (sampleLayer 2 .BLEND 0) (by decide)
  refine ⟨p, h, h1, h2, ?_⟩
  cases hw : p.state.testRenderFlag RENDER_DEPTHWRITE with
  | false => rfl
  | true =>
    have := h3.1 hw
    rw [h1, h2] at this
    revert this
    decide

/-! ## The editor preview pass -/

/-- The loop of `determineBlendModeForEditorPass` on layers none of which is a
diffuse layer: nothing happens. -/
theorem determineAlphaTest_no_diffuse (layers : List ShaderLayer) (pass : OpenGLState)
    (b : Bool) (h : ∀ l ∈ layers, l.type ≠ .DIFFUSE) :
    determineAlphaTest layers (b, pass) = (b, pass) := by
  induction layers with
  | nil => rfl
  | cons l rest ih =>
    unfold determineAlphaTest
    rw [if_neg (h l (List.mem_cons_self _ _))]
    exact ih fun x hx => h x (List.mem_cons_of_mem _ hx)

/-- The blend mode of the preview pass of a material without diffuse layer. -/
theorem determineBlendMode_no_diffuse (material : Material) (pass : OpenGLState)
    (layer0 : ShaderLayer) (rest : List ShaderLayer) (hl : material.layers = layer0 :: rest)
    (hnd : ∀ l ∈ material.layers, l.type ≠ .DIFFUSE) (hname : material.name ≠ "_default") :
    determineBlendModeForEditorPass material pass =
      { (pass.setRenderFlag RENDER_BLEND).setSortPosition .SORT_TRANSLUCENT with
        m_blend_src := layer0.blendFunc.src, m_blend_dst := layer0.blendFunc.dest } := by
  unfold determineBlendModeForEditorPass
  rw [determineAlphaTest_no_diffuse material.layers pass false hnd]
  simp only [hl, List.isEmpty_cons, Bool.not_false, Bool.true_and]
  rw [if_pos (by simpa using hname)]

/-- The last steps of `constructEditorPreviewPassFromMaterial`, after the blend
mode has been determined. -/
theorem configureEditorPreview_tail (env : Env) (material : Material) (st : OpenGLState) :
    ∃ X, configureEditorPreview env material st =
      { (if material.sortRequest ≥ env.SORT_DECAL then
          ((determineBlendModeForEditorPass material X).setColour ⟨1, 1, 1, 1⟩).setSortPosition
            .SORT_OVERLAY_FIRST
        else if ((determineBlendModeForEditorPass material X).setColour
            ⟨1, 1, 1, 1⟩).getSortPosition ≠ .SORT_TRANSLUCENT then
          ((determineBlendModeForEditorPass material X).setColour ⟨1, 1, 1, 1⟩).setSortPosition
            .SORT_FULLBRIGHT
        else (determineBlendModeForEditorPass material X).setColour ⟨1, 1, 1, 1⟩) with
        polygonOffset := material.polygonOffset } :=
  ⟨_, rfl⟩

/-- C25, as stated, fails: the material named `_default` whose only layer is
a BLEND layer with blend function (GL_ONE, GL_ONE) has no DIFFUSE layer, yet
its preview pass has RENDER_BLEND clear and the blend function of a fresh
state; a material without layers has RENDER_BLEND clear as well. -/
theorem default_material_preview_not_blended :
    (∀ l ∈ (sampleMaterial "_default" [sampleLayer 1 .BLEND 0]).layers, l.type ≠ .DIFFUSE) ∧
      (sampleLayer 1 .BLEND 0).blendFunc = ⟨GL_ONE, GL_ONE⟩ ∧
      ((constructEditorPreviewPassFromMaterial (sampleEnv [sampleLayer 1 .BLEND 0])
          { sampleShader with
            material := some (sampleMaterial "_default" [sampleLayer 1 .BLEND 0]) }).shaderPasses.map
        fun p => (p.state.testRenderFlag RENDER_BLEND, p.state.m_blend_src, p.state.m_blend_dst)) =
        [(false, GL_SRC_ALPHA, 0x0303)] ∧
      ((constructEditorPreviewPassFromMaterial (sampleEnv [])
          { sampleShader with
            material := some (sampleMaterial "textures/sample" []) }).shaderPasses.map
        fun p => p.state.testRenderFlag RENDER_BLEND) = [false] := by
  decide

/-- C25, amended: in editor-preview construction, for every material that has
no DIFFUSE layer, has at least one layer and is not named `_default`, the
single preview pass has RENDER_BLEND set; when the first layer of the
material is a BLEND layer, the blend source and destination of the pass are
those of that layer's blend function. -/
theorem preview_blend_from_first_layer (env : Env) (s : OpenGLShader) (material : Material)
    (layer0 : ShaderLayer) (rest : List ShaderLayer) (hm : s.material = some material)
    (hl : material.layers = layer0 :: rest)
    (hnd : ∀ l ∈ material.layers, l.type ≠ .DIFFUSE) (hname : material.name ≠ "_default") :
    ∃ p, (constructEditorPreviewPassFromMaterial env s).shaderPasses = s.shaderPasses ++ [p] ∧
      p.state.testRenderFlag RENDER_BLEND = true ∧
      (layer0.type = .BLEND →
        p.state.m_blend_src = layer0.blendFunc.src ∧
        p.state.m_blend_dst = layer0.blendFunc.dest) := by
  obtain ⟨X, hX⟩ := configureEditorPreview_tail env material env.defaultState
  unfold constructEditorPreviewPassFromMaterial
  rw [hm]
  refine ⟨⟨s.renderSystem.passesCreated, configureEditorPreview env material env.defaultState,
    []⟩, rfl, ?_, fun _ => ⟨?_, ?_⟩⟩
  all_goals
    simp only []
    rw [hX, determineBlendMode_no_diffuse material _ layer0 rest hl hnd hname]
    simp only []
  · split
    · exact testRenderFlag_set_self X 12
    · split
      · exact testRenderFlag_set_self X 12
      · exact testRenderFlag_set_self X 12
  · split
    · rfl
    · split <;> rfl
  · split
    · rfl
    · split <;> rfl

/-- A decal material with one BLEND layer, and a material with one BUMP layer,
whose preview pass is blended as well. -/
theorem preview_blend_from_first_layer_witness :
    (({ sampleShader with
        material := some (sampleMaterial "textures/decal" [sampleLayer 1 .BLEND 0]) } :
          OpenGLShader).material = some (sampleMaterial "textures/decal" [sampleLayer 1 .BLEND 0]) ∧
      (sampleMaterial "textures/decal" [sampleLayer 1 .BLEND 0]).layers =
        sampleLayer 1 .BLEND 0 :: [] ∧
      (∀ l ∈ (sampleMaterial "textures/decal" [sampleLayer 1 .BLEND 0]).layers,
        l.type ≠ .DIFFUSE) ∧
      (sampleMaterial "textures/decal" [sampleLayer 1 .BLEND 0]).name ≠ "_default" ∧
      ∃ p, (constructEditorPreviewPassFromMaterial (sampleEnv [])
          { sampleShader with
            material := some (sampleMaterial "textures/decal"
              [sampleLayer 1 .BLEND 0]) }).shaderPasses = sampleShader.shaderPasses ++ [p] ∧
        p.state.testRenderFlag RENDER_BLEND = true ∧
        ((sampleLayer 1 .BLEND 0).type = .BLEND →
          p.state.m_blend_src = (sampleLayer 1 .BLEND 0).blendFunc.src ∧
          p.state.m_blend_dst = (sampleLayer 1 .BLEND 0).blendFunc.dest)) ∧
    ((∀ l ∈ (sampleMaterial "textures/bumpy" [sampleLayer 1 .BUMP 0]).layers,
        l.type ≠ .DIFFUSE) ∧
      (sampleMaterial "textures/bumpy" [sampleLayer 1 .BUMP 0]).name ≠ "_default" ∧
      ∃ p, (constructEditorPreviewPassFromMaterial (sampleEnv [])
          { sampleShader with
            material := some (sampleMaterial "textures/bumpy"
              [sampleLayer 1 .BUMP 0]) }).shaderPasses = sampleShader.shaderPasses ++ [p] ∧
        p.state.testRenderFlag RENDER_BLEND = true ∧
        ((sampleLayer 1 .BUMP 0).type = .BLEND →
          p.state.m_blend_src = (sampleLayer 1 .BUMP 0).blendFunc.src ∧
          p.state.m_blend_dst = (sampleLayer 1 .BUMP 0).blendFunc.dest)) :=
  ⟨⟨rfl, rfl, by decide, by decide,
    preview_blend_from_first_layer (sampleEnv []) _ _ _ [] rfl rfl (by decide) (by decide)⟩,
   by decide, by decide,
    preview_blend_from_first_layer (sampleEnv [])
      { sampleShader with material := some (sampleMaterial "textures/bumpy"
        [sampleLayer 1 .BUMP 0]) } _ (sampleLayer 1 .BUMP 0) [] rfl rfl
      (by decide) (by decide)⟩

/-- C26 fails on the code: for the layers [DIFFUSE with alpha test 0, DIFFUSE
with alpha test 1] the first DIFFUSE layer has no alpha test, yet the preview
pass has RENDER_ALPHATEST set, with function GL_GEQUAL and threshold 1, taken
from the second DIFFUSE layer. -/
theorem preview_alpha_test_from_later_diffuse_layer :
    (sampleLayer 1 .DIFFUSE 0).alphaTest ≤ 0 ∧
      ((constructEditorPreviewPassFromMaterial
          (sampleEnv [sampleLayer 1 .DIFFUSE 0, sampleLayer 2 .DIFFUSE 1])
          (sampleShaderWith [sampleLayer 1 .DIFFUSE 0, sampleLayer 2 .DIFFUSE 1])).shaderPasses.map
        fun p => (p.state.testRenderFlag RENDER_ALPHATEST, p.state.alphaFunc,
          p.state.alphaThreshold)) = [(true, GL_GEQUAL, 1)] := by
  decide

/-! ## The depth-fill pass of a material -/

/-- Once the triplet has been reset, no flush emits a depth-fill pass. -/
theorem lightingStates_no_fill (env : Env) (material : Material) (layers : List ShaderLayer) :
    ∀ t : DBSTriplet, t.needDepthFill = false →
      ∀ st ∈ lightingStates env material t layers, st.sortPosition ≠ .SORT_ZFILL := by
  have hi : ∀ t : DBSTriplet, t.needDepthFill = false →
      ∀ st ∈ interactionStates env t, st.sortPosition ≠ .SORT_ZFILL := by
    intro t ht st hst
    unfold interactionStates at hst
    rw [ht] at hst
    simp only [Bool.false_and, Bool.false_eq_true, if_false, List.nil_append,
      List.mem_singleton] at hst
    rw [hst, configureInteraction_sort]
    decide
  have hb : ∀ layer, (configureBlend env material layer env.defaultState).sortPosition ≠
      .SORT_ZFILL := by
    intro layer
    rw [configureBlend_sort]
    split <;> decide
  induction layers with
  | nil =>
    intro t ht st hst
    simp only [lightingStates] at hst
    split at hst
    · exact hi t ht st hst
    · cases hst
  | cons layer rest ih =>
    intro t ht st hst
    unfold lightingStates at hst
    split at hst
    · split at hst
      · rcases List.mem_append.1 hst with h | h
        · exact hi t ht st h
        · exact ih _ rfl st h
      · refine ih _ ?_ st hst; exact ht
    · split at hst
      · rcases List.mem_append.1 hst with h | h
        · exact hi t ht st h
        · exact ih _ rfl st h
      · refine ih _ ?_ st hst; exact ht
    · split at hst
      · rcases List.mem_append.1 hst with h | h
        · exact hi t ht st h
        · exact ih _ rfl st h
      · refine ih _ ?_ st hst; exact ht
    · split at hst
      · rcases List.mem_append.1 hst with h | h
        · exact hi t ht st h
        · rcases List.mem_cons.1 h with h | h
          · rw [h]; exact hb layer
          · exact ih _ rfl st h
      · rcases List.mem_cons.1 hst with h | h
        · rw [h]; exact hb layer
        · exact ih _ ht st h

/-- The states of one flush: at most one depth-fill state, then the
interaction state. -/
theorem interactionStates_split (env : Env) (t : DBSTriplet) :
    ∃ fill, interactionStates env t = fill ++ [configureInteraction env t env.defaultState] ∧
      (fill = [] ∨ fill = [configureDepthFill env.defaultState]) := by
  unfold interactionStates
  split
  · exact ⟨_, rfl, Or.inr rfl⟩
  · exact ⟨_, rfl, Or.inl rfl⟩

/-- The shape of the states of the lighting construction: blend states, then
at most one depth-fill state directly ahead of the first interaction state,
then states none of which is a depth-fill state. -/
theorem lightingStates_shape (env : Env) (material : Material) (layers : List ShaderLayer) :
    ∀ t : DBSTriplet, ∃ pre fill rest,
      lightingStates env material t layers = pre ++ fill ++ rest ∧
      (∀ st ∈ pre, st.isTripletPass = false) ∧
      (fill = [] ∨ fill = [configureDepthFill env.defaultState]) ∧
      (∀ st ∈ rest, st.sortPosition ≠ .SORT_ZFILL) ∧
      (fill ≠ [] → ∃ y ys, rest = y :: ys ∧ y.sortPosition = .SORT_INTERACTION) := by
  have flush : ∀ (t : DBSTriplet) (tail : List OpenGLState),
      (∀ st ∈ tail, st.sortPosition ≠ .SORT_ZFILL) →
      ∃ pre fill rest, interactionStates env t ++ tail = pre ++ fill ++ rest ∧
        (∀ st ∈ pre, st.isTripletPass = false) ∧
        (fill = [] ∨ fill = [configureDepthFill env.defaultState]) ∧
        (∀ st ∈ rest, st.sortPosition ≠ .SORT_ZFILL) ∧
        (fill ≠ [] → ∃ y ys, rest = y :: ys ∧ y.sortPosition = .SORT_INTERACTION) := by
    intro t tail htail
    obtain ⟨fill, hf, hfill⟩ := interactionStates_split env t
    refine ⟨[], fill, configureInteraction env t env.defaultState :: tail, ?_, ?_, hfill, ?_,
      fun _ => ⟨_, _, rfl, rfl⟩⟩
    · rw [hf]; simp
    · intro st hst; cases hst
    · intro st hst
      rcases List.mem_cons.1 hst with h | h
      · rw [h, configureInteraction_sort]; decide
      · exact htail st h
  have hb : ∀ layer, (configureBlend env material layer env.defaultState).sortPosition ≠
      .SORT_ZFILL := by
    intro layer
    rw [configureBlend_sort]
    split <;> decide
  induction layers with
  | nil =>
    intro t
    simp only [lightingStates]
    split
    · have := flush t [] (fun st hst => by cases hst)
      simpa using this
    · exact ⟨[], [], [], rfl, by simp, Or.inl rfl, by simp, fun h => absurd rfl h⟩
  | cons layer rest ih =>
    intro t
    unfold lightingStates
    split
    · split
      · exact flush t _ (lightingStates_no_fill env material rest _ rfl)
      · exact ih _
    · split
      · exact flush t _ (lightingStates_no_fill env material rest _ rfl)
      · exact ih _
    · split
      · exact flush t _ (lightingStates_no_fill env material rest _ rfl)
      · exact ih _
    · split
      · refine flush t _ ?_
        intro st hst
        rcases List.mem_cons.1 hst with h | h
        · rw [h]; exact hb layer
        · exact lightingStates_no_fill env material rest _ rfl st h
      · obtain ⟨pre, fill, rest', h, hpre, hfill, hrest, hhead⟩ := ih t
        refine ⟨configureBlend env material layer env.defaultState :: pre, fill, rest', ?_, ?_,
          hfill, hrest, hhead⟩
        · rw [h]; simp
        · intro st hst
          rcases List.mem_cons.1 hst with h | h
          · rw [h]; exact configureBlend_not_triplet env material layer _
          · exact hpre st h

/-- C27: for every layer list, the passes `constructLightingPassesFromMaterial`
appends are: passes that are neither depth-fill nor interaction passes, then
at most one depth-fill (ZFILL) pass, which if present is directly followed by
an interaction pass, then passes none of which is a depth-fill pass. So there
is at most one depth-fill pass, ahead of the first interaction pass. -/
theorem at_most_one_depth_fill (env : Env) (s : OpenGLShader) (material : Material)
    (hm : s.material = some material) :
    ∃ pre fill rest : List OpenGLShaderPass,
      (constructLightingPassesFromMaterial env s).shaderPasses =
        s.shaderPasses ++ (pre ++ fill ++ rest) ∧
      (∀ p ∈ pre, p.state.sortPosition ≠ .SORT_ZFILL ∧
        p.state.sortPosition ≠ .SORT_INTERACTION) ∧
      fill.length ≤ 1 ∧
      (∀ p ∈ fill, p.state.sortPosition = .SORT_ZFILL) ∧
      (∀ p ∈ rest, p.state.sortPosition ≠ .SORT_ZFILL) ∧
      (fill ≠ [] → ∃ q qs, rest = q :: qs ∧ q.state.sortPosition = .SORT_INTERACTION) ∧
      ((pre ++ fill ++ rest).filter
        fun p => decide (p.state.sortPosition = .SORT_ZFILL)).length ≤ 1 := by
  obtain ⟨new, hnew, hstates⟩ := constructLighting_passes env s material hm
  obtain ⟨pre, fill, rest, hshape, hpre, hfill, hrest, hhead⟩ :=
    lightingStates_shape env material material.layers DBSTriplet.init
  rw [hshape] at hstates
  obtain ⟨front, rest', hsplit, hfront, hrest'⟩ := List.map_eq_append_iff.1 hstates
  obtain ⟨pre', fill', hsplit', hpre', hfill'⟩ := List.map_eq_append_iff.1 hfront
  have h1 : ∀ p ∈ pre', p.state.sortPosition ≠ .SORT_ZFILL ∧
      p.state.sortPosition ≠ .SORT_INTERACTION := by
    intro p hp
    have := hpre p.state (hpre' ▸ List.mem_map_of_mem _ hp)
    unfold OpenGLState.isTripletPass at this
    cases hs : p.state.sortPosition <;> simp [hs] at this ⊢
  have h2 : fill'.length ≤ 1 := by
    have := congrArg List.length hfill'
    rw [List.length_map] at this
    rw [this]
    rcases hfill with h | h <;> simp [h]
  have h3 : ∀ p ∈ fill', p.state.sortPosition = .SORT_ZFILL := by
    intro p hp
    have hmem : p.state ∈ fill :=
      hfill' ▸ List.mem_map_of_mem (fun p : OpenGLShaderPass => p.state) hp
    rcases hfill with h | h
    · rw [h] at hmem; cases hmem
    · rw [h, List.mem_singleton] at hmem
      rw [hmem]; rfl
  have h4 : ∀ p ∈ rest', p.state.sortPosition ≠ .SORT_ZFILL := fun p hp =>
    hrest p.state (hrest' ▸ List.mem_map_of_mem _ hp)
  have h5 : fill' ≠ [] → ∃ q qs, rest' = q :: qs ∧ q.state.sortPosition = .SORT_INTERACTION := by
    intro hne
    have hne' : fill ≠ [] := by
      intro h
      rw [h] at hfill'
      exact hne (List.map_eq_nil_iff.1 hfill')
    obtain ⟨y, ys, hy, hsort⟩ := hhead hne'
    rw [hy] at hrest'
    cases rest' with
    | nil => simp at hrest'
    | cons q qs =>
      simp only [List.map_cons, List.cons.injEq] at hrest'
      exact ⟨q, qs, rfl, by rw [hrest'.1]; exact hsort⟩
  refine ⟨pre', fill', rest', ?_, h1, h2, h3, h4, h5, ?_⟩
  · rw [hnew, hsplit, hsplit']
  · rw [List.filter_append, List.filter_append, List.length_append, List.length_append]
    have e1 : pre'.filter (fun p => decide (p.state.sortPosition = .SORT_ZFILL)) = [] :=
      List.filter_eq_nil_iff.2 fun p hp => by simpa using (h1 p hp).1
    have e2 : rest'.filter (fun p => decide (p.state.sortPosition = .SORT_ZFILL)) = [] :=
      List.filter_eq_nil_iff.2 fun p hp => by simpa using h4 p hp
    rw [e1, e2]
    have := List.length_filter_le (fun p => decide (p.state.sortPosition = .SORT_ZFILL)) fill'
    simp only [List.length_nil, Nat.zero_add, Nat.add_zero]
    omega

/-- Two diffuse layers without alpha test: one depth-fill pass, then the two
interaction passes. -/
theorem at_most_one_depth_fill_witness :
    (sampleShaderWith [sampleLayer 1 .DIFFUSE 0, sampleLayer 2 .DIFFUSE 0]).material =
        some (sampleMaterial "textures/sample"
          [sampleLayer 1 .DIFFUSE 0, sampleLayer 2 .DIFFUSE 0]) ∧
      ((constructLightingPassesFromMaterial
          (sampleEnv [sampleLayer 1 .DIFFUSE 0, sampleLayer 2 .DIFFUSE 0])
          (sampleShaderWith [sampleLayer 1 .DIFFUSE 0, sampleLayer 2 .DIFFUSE 0])).shaderPasses.map
        fun p => p.state.sortPosition) =
        [.SORT_ZFILL, .SORT_INTERACTION, .SORT_INTERACTION] ∧
      ∃ pre fill rest : List OpenGLShaderPass,
        (constructLightingPassesFromMaterial
          (sampleEnv [sampleLayer 1 .DIFFUSE 0, sampleLayer 2 .DIFFUSE 0])
          (sampleShaderWith [sampleLayer 1 .DIFFUSE 0, sampleLayer 2 .DIFFUSE 0])).shaderPasses =
          (sampleShaderWith [sampleLayer 1 .DIFFUSE 0, sampleLayer 2 .DIFFUSE 0]).shaderPasses ++
            (pre ++ fill ++ rest) ∧
        fill.length ≤ 1 ∧ (∀ p ∈ rest, p.state.sortPosition ≠ .SORT_ZFILL) := by
  refine ⟨rfl, by decide, ?_⟩
  obtain ⟨pre, fill, rest, h, -, h2, -, h4, -⟩ := at_most_one_depth_fill
    (sampleEnv [sampleLayer 1 .DIFFUSE 0, sampleLayer 2 .DIFFUSE 0])
    (sampleShaderWith [sampleLayer 1 .DIFFUSE 0, sampleLayer 2 .DIFFUSE 0]) _ rfl
  exact ⟨pre, fill, rest, h, h2, h4⟩

/-! ## The layers of the interaction passes -/

/-- A triplet is pending when a layer waits in it. -/
theorem pending_iff_layers (t : DBSTriplet) : t.pending = true ↔ t.layers ≠ [] := by
  rcases t with ⟨d, b, sp, n⟩
  cases d <;> cases b <;> cases sp <;> simp [DBSTriplet.pending, DBSTriplet.layers]

/-- The interaction state among the states of one flush. -/
theorem interactionStates_interaction (env : Env) (t : DBSTriplet) :
    (interactionStates env t).filter (fun st => decide (st.sortPosition = .SORT_INTERACTION)) =
      [configureInteraction env t env.defaultState] := by
  unfold interactionStates
  split <;> simp [List.filter_cons, configureDepthFill_sort, configureInteraction_sort]

/-- A blend pass is not an interaction pass. -/
theorem configureBlend_not_interaction (env : Env) (material : Material) (layer : ShaderLayer)
    (st : OpenGLState) :
    decide ((configureBlend env material layer st).sortPosition = .SORT_INTERACTION) = false := by
  rw [configureBlend_sort]
  split <;> rfl

/-- The interaction pass of a triplet refers to the layers of the triplet. -/
theorem configureInteraction_references (env : Env) (t : DBSTriplet) (g : List ShaderLayer)
    (hp : t.layers.Perm g) (ht : t.Typed) (hne : t.layers ≠ []) :
    (configureInteraction env t env.defaultState).References g := by
  obtain ⟨h0, h1, h2⟩ := configureInteraction_stages env t
  refine ⟨fun h => hne (List.Perm.eq_nil (h ▸ hp)), ?_, ?_, ?_, ?_⟩
  · unfold OpenGLState.stageLayers
    rw [h0, h1, h2]
    exact hp
  · rw [h0]; exact ht.diffuse
  · rw [h1]; exact ht.bump
  · rw [h2]; exact ht.specular

/-- The interaction states of the lighting construction stand for consecutive
groups of the diffuse, bump and specular layers: first the layers waiting in
the triplet with those that join them, and so on in the declared order. -/
theorem lightingStates_groups (env : Env) (material : Material) (layers : List ShaderLayer) :
    ∀ (t : DBSTriplet) (g : List ShaderLayer), t.layers.Perm g → t.Typed →
      ∃ groups : List (List ShaderLayer),
        groups.flatten = g ++ layers.filter (fun l => decide (l.type ≠ .BLEND)) ∧
        List.Forall₂ OpenGLState.References
          ((lightingStates env material t layers).filter
            fun st => decide (st.sortPosition = .SORT_INTERACTION)) groups := by
  induction layers with
  | nil =>
    intro t g hp ht
    simp only [lightingStates]
    split
    · rename_i hpend
      refine ⟨[g], by simp, ?_⟩
      rw [interactionStates_interaction]
      exact List.Forall₂.cons
        (configureInteraction_references env t g hp ht ((pending_iff_layers t).1 hpend))
        List.Forall₂.nil
    · rename_i hpend
      have hnil : t.layers = [] := by
        by_contra h
        exact hpend ((pending_iff_layers t).2 h)
      have hg : g = [] := List.Perm.eq_nil (hnil ▸ hp.symm)
      exact ⟨[], by simp [hg], List.Forall₂.nil⟩
  | cons layer rest ih =>
    intro t g hp ht
    have flush : ∀ (t₁ : DBSTriplet) (g₁ : List ShaderLayer) (tail : List OpenGLState),
        t.layers ≠ [] → t₁.layers.Perm g₁ → t₁.Typed →
        tail.filter (fun st => decide (st.sortPosition = .SORT_INTERACTION)) =
          (lightingStates env material t₁ rest).filter
            (fun st => decide (st.sortPosition = .SORT_INTERACTION)) →
        (g₁ ++ rest.filter fun l => decide (l.type ≠ .BLEND)) =
          ((layer :: rest).filter fun l => decide (l.type ≠ .BLEND)) →
        ∃ groups : List (List ShaderLayer),
          groups.flatten = g ++ (layer :: rest).filter (fun l => decide (l.type ≠ .BLEND)) ∧
          List.Forall₂ OpenGLState.References
            ((interactionStates env t ++ tail).filter
              fun st => decide (st.sortPosition = .SORT_INTERACTION)) groups := by
      intro t₁ g₁ tail hne hp₁ ht₁ htail hfilter
      obtain ⟨groups, hj, hf⟩ := ih t₁ g₁ hp₁ ht₁
      refine ⟨g :: groups, ?_, ?_⟩
      · rw [List.flatten_cons, hj, hfilter]
      · rw [List.filter_append, interactionStates_interaction, htail]
        exact List.Forall₂.cons (configureInteraction_references env t g hp ht hne) hf
    have some_ne : ∀ o : Option ShaderLayer, o.isSome = true → o.toList ≠ [] := by
      intro o h
      cases o with
      | none => cases h
      | some x => simp
    unfold lightingStates
    split
    · rename_i hty
      have hkeep : ((layer :: rest).filter fun l => decide (l.type ≠ .BLEND)) =
          layer :: rest.filter fun l => decide (l.type ≠ .BLEND) := by
        simp [List.filter_cons, hty]
      split
      · rename_i hsome
        refine flush { t.reset with diffuse := some layer } [layer] _ ?_ (List.Perm.refl _)
          ⟨fun l h => (by cases h; exact hty), fun l h => (by cases h), fun l h => (by cases h)⟩
          rfl (by rw [hkeep]; rfl)
        unfold DBSTriplet.layers
        intro h
        exact some_ne _ hsome (List.append_eq_nil.1 (List.append_eq_nil.1 h).1).1
      · rename_i hnone
        have hd : t.diffuse = none := by
          cases h : t.diffuse with
          | none => rfl
          | some x => rw [h] at hnone; exact absurd rfl hnone
        obtain ⟨groups, hj, hf⟩ := ih { t with diffuse := some layer } (g ++ [layer])
          (by
            have : t.layers = t.bump.toList ++ t.specular.toList := by
              unfold DBSTriplet.layers; rw [hd]; rfl
            unfold DBSTriplet.layers
            show (layer :: (t.bump.toList ++ t.specular.toList)).Perm (g ++ [layer])
            rw [← this]
            exact (List.Perm.cons layer hp).trans (List.perm_append_singleton _ _).symm)
          ⟨fun l h => (by cases h; exact hty), ht.bump, ht.specular⟩
        exact ⟨groups, by rw [hj, hkeep]; simp, hf⟩
    · rename_i hty
      have hkeep : ((layer :: rest).filter fun l => decide (l.type ≠ .BLEND)) =
          layer :: rest.filter fun l => decide (l.type ≠ .BLEND) := by
        simp [List.filter_cons, hty]
      split
      · rename_i hsome
        refine flush { t.reset with bump := some layer } [layer] _ ?_ (List.Perm.refl _)
          ⟨fun l h => (by cases h), fun l h => (by cases h; exact hty), fun l h => (by cases h)⟩
          rfl (by rw [hkeep]; rfl)
        unfold DBSTriplet.layers
        intro h
        exact some_ne _ hsome (List.append_eq_nil.1 (List.append_eq_nil.1 h).1).2
      · rename_i hnone
        have hb : t.bump = none := by
          cases h : t.bump with
          | none => rfl
          | some x => rw [h] at hnone; exact absurd rfl hnone
        obtain ⟨groups, hj, hf⟩ := ih { t with bump := some layer } (g ++ [layer])
          (by
            have : t.layers = t.diffuse.toList ++ t.specular.toList := by
              unfold DBSTriplet.layers; rw [hb]; simp
            unfold DBSTriplet.layers
            show (t.diffuse.toList ++ [layer] ++ t.specular.toList).Perm (g ++ [layer])
            rw [List.append_assoc, List.singleton_append]
            refine List.perm_middle.trans ?_
            rw [← this]
            exact (List.Perm.cons layer hp).trans (List.perm_append_singleton _ _).symm)
          ⟨ht.diffuse, fun l h => (by cases h; exact hty), ht.specular⟩
        exact ⟨groups, by rw [hj, hkeep]; simp, hf⟩
    · rename_i hty
      have hkeep : ((layer :: rest).filter fun l => decide (l.type ≠ .BLEND)) =
          layer :: rest.filter fun l => decide (l.type ≠ .BLEND) := by
        simp [List.filter_cons, hty]
      split
      · rename_i hsome
        refine flush { t.reset with specular := some layer } [layer] _ ?_ (List.Perm.refl _)
          ⟨fun l h => (by cases h), fun l h => (by cases h), fun l h => (by cases h; exact hty)⟩
          rfl (by rw [hkeep]; rfl)
        unfold DBSTriplet.layers
        intro h
        exact some_ne _ hsome (List.append_eq_nil.1 h).2
      · rename_i hnone
        have hsp : t.specular = none := by
          cases h : t.specular with
          | none => rfl
          | some x => rw [h] at hnone; exact absurd rfl hnone
        obtain ⟨groups, hj, hf⟩ := ih { t with specular := some layer } (g ++ [layer])
          (by
            have : t.layers = t.diffuse.toList ++ t.bump.toList := by
              unfold DBSTriplet.layers; rw [hsp]; simp
            unfold DBSTriplet.layers
            show (t.diffuse.toList ++ t.bump.toList ++ [layer]).Perm (g ++ [layer])
            rw [← this]
            exact List.Perm.append_right _ hp)
          ⟨ht.diffuse, ht.bump, fun l h => (by cases h; exact hty)⟩
        exact ⟨groups, by rw [hj, hkeep]; simp, hf⟩
    · rename_i hty
      have hdrop : ((layer :: rest).filter fun l => decide (l.type ≠ .BLEND)) =
          rest.filter fun l => decide (l.type ≠ .BLEND) := by
        simp [List.filter_cons, hty]
      have hblend : ∀ tail : List OpenGLState,
          (configureBlend env material layer env.defaultState :: tail).filter
              (fun st => decide (st.sortPosition = .SORT_INTERACTION)) =
            tail.filter fun st => decide (st.sortPosition = .SORT_INTERACTION) := by
        intro tail
        rw [List.filter_cons, configureBlend_not_interaction]
        rfl
      split
      · rename_i hpend
        exact flush t.reset [] _ ((pending_iff_layers t).1 hpend) (List.Perm.refl _)
          ⟨fun l h => (by cases h), fun l h => (by cases h), fun l h => (by cases h)⟩
          (hblend _) (by rw [hdrop]; rfl)
      · rename_i hpend
        obtain ⟨groups, hj, hf⟩ := ih t g hp ht
        refine ⟨groups, by rw [hj, hdrop], ?_⟩
        rw [hblend]
        exact hf

/-- Passes that stand for groups refer, together, to the layers of the
groups. -/
theorem references_flatten (states : List OpenGLState) (groups : List (List ShaderLayer))
    (h : List.Forall₂ OpenGLState.References states groups) :
    (states.map fun st => st.stageLayers).flatten.Perm groups.flatten := by
  induction h with
  | nil => exact List.Perm.refl _
  | cons hr _ ih =>
    rw [List.map_cons, List.flatten_cons, List.flatten_cons]
    exact List.Perm.append hr.layers ih

/-- C28: for every layer list, the DIFFUSE, BUMP and SPECULAR layers of the
material, in declared order, split into consecutive non-empty groups, one per
interaction pass and in the order of the interaction passes, such that each
interaction pass refers to exactly the layers of its group: the DIFFUSE one
as `stage0`, the BUMP one as `stage1`, the SPECULAR one as `stage2`. So no
layer is lost or duplicated: the layers the interaction passes refer to are a
permutation of the DIFFUSE, BUMP and SPECULAR layers. -/
theorem no_layer_lost_or_duplicated (env : Env) (s : OpenGLShader) (material : Material)
    (hm : s.material = some material) :
    ∃ (new : List OpenGLShaderPass) (groups : List (List ShaderLayer)),
      (constructLightingPassesFromMaterial env s).shaderPasses = s.shaderPasses ++ new ∧
      groups.flatten = material.layers.filter (fun l => decide (l.type ≠ .BLEND)) ∧
      List.Forall₂ (fun p g => OpenGLState.References p.state g)
        (new.filter fun p => decide (p.state.sortPosition = .SORT_INTERACTION)) groups ∧
      (((new.filter fun p => decide (p.state.sortPosition = .SORT_INTERACTION)).map
          fun p => p.state.stageLayers).flatten.Perm
        (material.layers.filter fun l => decide (l.type ≠ .BLEND))) := by
  obtain ⟨new, hnew, hstates⟩ := constructLighting_passes env s material hm
  obtain ⟨groups, hj, hf⟩ := lightingStates_groups env material material.layers DBSTriplet.init
    [] (List.Perm.refl _)
    ⟨fun l h => (by cases h), fun l h => (by cases h), fun l h => (by cases h)⟩
  rw [List.nil_append] at hj
  have hmap : (new.filter fun p => decide (p.state.sortPosition = .SORT_INTERACTION)).map
      (fun p => p.state) =
      (lightingStates env material DBSTriplet.init material.layers).filter
        fun st => decide (st.sortPosition = .SORT_INTERACTION) := by
    rw [← hstates, List.filter_map]
    rfl
  rw [← hmap] at hf
  refine ⟨new, groups, hnew, hj, List.forall₂_map_left_iff.1 hf, ?_⟩
  have := references_flatten _ _ hf
  rw [List.map_map] at this
  rw [← hj]
  exact this

/-- Diffuse, bump, blend, diffuse: the first interaction pass refers to the
first two layers, the second to the last. -/
theorem no_layer_lost_or_duplicated_witness :
    (sampleShaderWith [sampleLayer 1 .DIFFUSE 0, sampleLayer 2 .BUMP 0, sampleLayer 3 .BLEND 0,
        sampleLayer 4 .DIFFUSE 0]).material =
        some (sampleMaterial "textures/sample" [sampleLayer 1 .DIFFUSE 0, sampleLayer 2 .BUMP 0,
          sampleLayer 3 .BLEND 0, sampleLayer 4 .DIFFUSE 0]) ∧
      ((((constructLightingPassesFromMaterial
          (sampleEnv [sampleLayer 1 .DIFFUSE 0, sampleLayer 2 .BUMP 0, sampleLayer 3 .BLEND 0,
            sampleLayer 4 .DIFFUSE 0])
          (sampleShaderWith [sampleLayer 1 .DIFFUSE 0, sampleLayer 2 .BUMP 0,
            sampleLayer 3 .BLEND 0, sampleLayer 4 .DIFFUSE 0])).shaderPasses.filter
          fun p => decide (p.state.sortPosition = .SORT_INTERACTION)).map
        fun p => p.state.stageLayers.map fun l => l.ptr) = [[1, 2], [4]]) ∧
      ∃ (new : List OpenGLShaderPass) (groups : List (List ShaderLayer)),
        (constructLightingPassesFromMaterial
          (sampleEnv [sampleLayer 1 .DIFFUSE 0, sampleLayer 2 .BUMP 0, sampleLayer 3 .BLEND 0,
            sampleLayer 4 .DIFFUSE 0])
          (sampleShaderWith [sampleLayer 1 .DIFFUSE 0, sampleLayer 2 .BUMP 0,
            sampleLayer 3 .BLEND 0, sampleLayer 4 .DIFFUSE 0])).shaderPasses =
          (sampleShaderWith [sampleLayer 1 .DIFFUSE 0, sampleLayer 2 .BUMP 0,
            sampleLayer 3 .BLEND 0, sampleLayer 4 .DIFFUSE 0]).shaderPasses ++ new ∧
        groups.flatten = [sampleLayer 1 .DIFFUSE 0, sampleLayer 2 .BUMP 0,
          sampleLayer 4 .DIFFUSE 0] ∧
        List.Forall₂ (fun p g => OpenGLState.References p.state g)
          (new.filter fun p => decide (p.state.sortPosition = .SORT_INTERACTION)) groups := by
  refine ⟨rfl, by decide, ?_⟩
  obtain ⟨new, groups, h1, h2, h3, -⟩ := no_layer_lost_or_duplicated
    (sampleEnv [sampleLayer 1 .DIFFUSE 0, sampleLayer 2 .BUMP 0, sampleLayer 3 .BLEND 0,
      sampleLayer 4 .DIFFUSE 0])
    (sampleShaderWith [sampleLayer 1 .DIFFUSE 0, sampleLayer 2 .BUMP 0, sampleLayer 3 .BLEND 0,
      sampleLayer 4 .DIFFUSE 0]) _ rfl
  exact ⟨new, groups, h1, h2, h3⟩

/-! ## Realise and unrealise in turn -/

/-- A branch on the name keeps the appended states independent of the
shader. -/
theorem states_ite (a b : OpenGLShader → OpenGLShader) (c : Prop) [Decidable c]
    (ha : ∃ states, ∀ s, a s = s.appendStates states)
    (hb : ∃ states, ∀ s, b s = s.appendStates states) :
    ∃ states, ∀ s, (if c then a s else b s) = s.appendStates states := by
  by_cases h : c
  · obtain ⟨states, hs⟩ := ha
    exact ⟨states, fun s => by rw [if_pos h]; exact hs s⟩
  · obtain ⟨states, hs⟩ := hb
    exact ⟨states, fun s => by rw [if_neg h]; exact hs s⟩

/-- The states the `$` branch appends depend on the name only. -/
theorem constructBuiltIn_states (env : Env) (name : String) :
    ∃ states, ∀ s, constructBuiltIn env s name = s.appendStates states := by
  unfold constructBuiltIn
  repeat' first
    | apply states_ite
    | exact ⟨[_], fun _ => rfl⟩
    | exact ⟨[_, _], fun _ => rfl⟩

/-- The states `construct` appends depend on the name and on which
construction the render system allows, not on the shader otherwise. -/
theorem construct_states (env : Env) (name : String) :
    ∃ states : Bool → List OpenGLState, ∀ s : OpenGLShader,
      (construct env s name).shaderPasses =
        s.shaderPasses ++ freshPasses s.renderSystem.passesCreated
          (states s.canUseLightingMode) := by
  by_cases h1 : name.toList.head? = some '('
  · have hf : ∃ f : OpenGLState → OpenGLState, ∀ s,
        construct env s name = appendDefaultPass env s f :=
      ⟨_, fun s => by unfold construct; rw [h1]; exact rfl⟩
    obtain ⟨f, hf⟩ := hf
    refine ⟨fun _ => [f env.defaultState], fun s => ?_⟩
    rw [hf s, appendDefaultPass_eq, appendStates_eq]
  by_cases h2 : name.toList.head? = some '['
  · have hf : ∃ f : OpenGLState → OpenGLState, ∀ s,
        construct env s name = appendDefaultPass env s f :=
      ⟨_, fun s => by unfold construct; rw [h2]; exact rfl⟩
    obtain ⟨f, hf⟩ := hf
    refine ⟨fun _ => [f env.defaultState], fun s => ?_⟩
    rw [hf s, appendDefaultPass_eq, appendStates_eq]
  by_cases h3 : name.toList.head? = some '<'
  · have hf : ∃ f : OpenGLState → OpenGLState, ∀ s,
        construct env s name = appendDefaultPass env s f :=
      ⟨_, fun s => by unfold construct; rw [h3]; exact rfl⟩
    obtain ⟨f, hf⟩ := hf
    refine ⟨fun _ => [f env.defaultState], fun s => ?_⟩
    rw [hf s, appendDefaultPass_eq, appendStates_eq]
  by_cases h4 : name.toList.head? = some '$'
  · obtain ⟨states, hs⟩ := constructBuiltIn_states env name
    refine ⟨fun _ => states, fun s => ?_⟩
    rw [construct_dollar env s name h4, hs s, appendStates_eq]
  · have hn : isBuiltInLiteral name = false := by
      unfold isBuiltInLiteral
      rw [decide_eq_false h1, decide_eq_false h2, decide_eq_false h3, decide_eq_false h4]
      rfl
    refine ⟨fun b => if b then
        lightingStates env (env.getMaterialForName name) DBSTriplet.init
          (env.getMaterialForName name).layers
      else [configureEditorPreview env (env.getMaterialForName name) env.defaultState],
      fun s => ?_⟩
    rw [construct_normal env s name hn]
    unfold constructNormalShader
    simp only []
    by_cases hl : s.canUseLightingMode = true
    · have hl' : ({ s with material := some (env.getMaterialForName name) } :
          OpenGLShader).canUseLightingMode = true := hl
      rw [if_pos hl', hl, if_pos rfl, constructLighting_fresh env _ _ rfl]
    · have hl' : ¬ ({ s with material := some (env.getMaterialForName name) } :
          OpenGLShader).canUseLightingMode = true := hl
      rw [if_neg hl']
      simp only [Bool.not_eq_true] at hl
      rw [hl]
      rfl

/-- The member `realise` does not touch the use count. -/
theorem realise_useCount (env : Env) (s : OpenGLShader) (name : String) :
    (realise env s name).useCount = s.useCount := by
  obtain ⟨states, -, -, -, hu, -⟩ := construct_fields env s name
  rw [← hu]
  unfold realise
  simp only []
  split <;> rfl

/-- C29: for every name, after `realise(name)` followed by `unrealise()` the
pass list is empty, the material reference is null, none of the passes of the
realised shader is in the registry, and the use count and the visibility flag
are what they were. When the shader had no pass to begin with, `realise(name)`,
`unrealise()`, `realise(name)` leaves passes with the same states, in the same
number and order, as a single `realise(name)`. -/
theorem realise_unrealise_round_trip (env : Env) (s : OpenGLShader) (name : String) :
    (realise env s name).unrealise.shaderPasses = [] ∧
      (realise env s name).unrealise.material = none ∧
      (∀ p ∈ (realise env s name).shaderPasses,
        ∀ e ∈ (realise env s name).unrealise.renderSystem.sortedStates, e.pass ≠ p.id) ∧
      (realise env s name).unrealise.useCount = s.useCount ∧
      (realise env s name).unrealise.isVisible = s.isVisible ∧
      (s.shaderPasses = [] →
        (realise env (realise env s name).unrealise name).shaderPasses.map (fun p => p.state) =
          (realise env s name).shaderPasses.map fun p => p.state) := by
  refine ⟨rfl, rfl, ?_, realise_useCount env s name, ?_, ?_⟩
  · intro p hp e he
    exact ((mem_foldl_erase (realise env s name).shaderPasses
      (realise env s name).renderSystem e).1 he).2 p hp
  · obtain ⟨states, -, -, hv⟩ := realise_fields env s name
    exact hv
  · intro hs
    obtain ⟨states, hstates⟩ := construct_states env name
    have hl : (realise env s name).unrealise.canUseLightingMode = s.canUseLightingMode :=
      (unrealise_lighting _).trans (realise_lighting env s name)
    have hu : (realise env s name).unrealise.shaderPasses = [] := rfl
    rw [realise_shaderPasses, realise_shaderPasses, hstates, hstates, hl, hu, hs,
      List.nil_append, List.nil_append, freshPasses_map_state, freshPasses_map_state]

/-- The sample shader realised, unrealised and realised again has the two
passes of a single realise. -/
theorem realise_unrealise_round_trip_witness :
    sampleShader.shaderPasses = [] ∧
      ((realise (sampleEnv [sampleLayer 1 .DIFFUSE 0]) sampleShader
        "textures/sample").shaderPasses.map fun p => p.state.sortPosition) =
        [.SORT_ZFILL, .SORT_INTERACTION] ∧
      (realise (sampleEnv [sampleLayer 1 .DIFFUSE 0]) sampleShader
        "textures/sample").unrealise.renderSystem.sortedStates = [] ∧
      (realise (sampleEnv [sampleLayer 1 .DIFFUSE 0])
          (realise (sampleEnv [sampleLayer 1 .DIFFUSE 0]) sampleShader
            "textures/sample").unrealise "textures/sample").shaderPasses.map (fun p => p.state) =
        (realise (sampleEnv [sampleLayer 1 .DIFFUSE 0]) sampleShader
          "textures/sample").shaderPasses.map fun p => p.state :=
  ⟨rfl, by decide, by decide,
    (realise_unrealise_round_trip (sampleEnv [sampleLayer 1 .DIFFUSE 0]) sampleShader
      "textures/sample").2.2.2.2.2 rfl⟩

end OpenGLShader

/-! ## The alpha function of the legacy preview pass -/

namespace legacy

/-- Whatever label the switch enters at, the last assignment is the one that
stays. -/
theorem alphaFuncSwitch_gequal (alphafunc : EAlphaFunc) (state : OpenGLState) :
    (alphaFuncSwitch alphafunc state).m_alphafunc = GL_GEQUAL := by
  cases alphafunc <;> rfl

/-- With `QER_ALPHATEST`, the alpha function of the legacy preview pass is
GL_GEQUAL, whatever the alpha function of the shader. -/
theorem configureEditorPreview_alphafunc (c : Constants) (iShader : IShader)
    (state : OpenGLState) (h : iShader.flags &&& c.QER_ALPHATEST ≠ 0) :
    (configureEditorPreview c iShader state).m_alphafunc = GL_GEQUAL := by
  unfold configureEditorPreview
  simp only []
  rw [if_pos h]
  exact alphaFuncSwitch_gequal _ _

namespace OpenGLShader

/-- C30 fails on the code: on sample shaders with the `QER_ALPHATEST` flag,
the legacy `constructEditorPreviewPassFromIShader` gives the pass the alpha
function GL_GEQUAL for each of eAlways, eEqual, eLess, eGreater, eLEqual and
eGEqual: the switch has no `break`, so every case falls through to the last
assignment. -/
theorem legacy_alpha_func_falls_through :
    (sampleShader .eAlways).iShader.flags &&& sampleConstants.QER_ALPHATEST ≠ 0 ∧
      ([EAlphaFunc.eAlways, .eEqual, .eLess, .eGreater, .eLEqual, .eGEqual].map fun f =>
        (constructEditorPreviewPassFromIShader sampleConstants (sampleShader f)).shaderPasses.map
          fun p => p.m_alphafunc) =
        [[GL_GEQUAL], [GL_GEQUAL], [GL_GEQUAL], [GL_GEQUAL], [GL_GEQUAL], [GL_GEQUAL]] ∧
      GL_GEQUAL ≠ GL_ALWAYS ∧ GL_GEQUAL ≠ GL_EQUAL ∧ GL_GEQUAL ≠ GL_LESS ∧
      GL_GEQUAL ≠ GL_GREATER ∧ GL_GEQUAL ≠ GL_LEQUAL := by
  decide

end OpenGLShader

end legacy

end render
